import Mathlib

/-!
TpmTool: marshalling of TPM2.0 NV commands.

A shallow embedding of `tpmcmd.cpp`, `tpmcmd.hpp`, `tpmoswin.cpp`, `tpmspec.hpp`,
`tpmstruc.hpp` and `tpmtool.hpp`.

* Machine integers are natural numbers; a value of type `uintN_t` is a `Nat` below `2 ^ N`.
* A command buffer is the stack block returned by `alloca`: a list of cells, each either
  still unwritten (`none`) or holding a byte (`some b`).  A pointer into the block is the
  offset of the cell it points at.  A store past the end of the block grows the list, so a
  buffer that ends with the length it was allocated with was never overrun.
* The structures are byte packed (`#pragma pack(1)`), so the offset of a field is the sum of
  the sizes of the fields declared before it.
* The host is little-endian (the tool targets Windows): a 16 or 32-bit store puts the least
  significant byte at the lowest address.
-/

namespace TpmTool

/-! ## tpmoswin.cpp: byte swapping -/

/-- Function `OsSwap16`: the `_byteswap_ushort` intrinsic, which exchanges the two bytes of
a 16-bit value. -/
def OsSwap16 (Input : Nat) : Nat :=
  (Input % 256) * 256 + Input / 256 % 256

/-- Function `OsSwap32`: the `_byteswap_ulong` intrinsic, which reverses the four bytes of
a 32-bit value. -/
def OsSwap32 (Input : Nat) : Nat :=
  (Input % 256) * 16777216 + (Input / 256 % 256) * 65536 +
    (Input / 65536 % 256) * 256 + Input / 16777216 % 256

/-! ## Memory -/

/-- A stack block: one cell per byte, `none` while the byte has not been written. -/
abbrev Buffer := List (Option Nat)

/-- Call `alloca(size)`: a fresh block of `size` unwritten bytes. -/
def alloca (size : Nat) : Buffer := List.replicate size none

/-- Store of one `uint8_t` at offset `off`.  Cells skipped by a store past the end stay
unwritten. -/
def store8 : Buffer → Nat → Nat → Buffer
  | [], 0, v => [some v]
  | [], off + 1, v => none :: store8 [] off v
  | _ :: m, 0, v => some v :: m
  | c :: m, off + 1, v => c :: store8 m off v

/-- Store of a `uint16_t` by the little-endian host. -/
def store16 (m : Buffer) (off v : Nat) : Buffer :=
  store8 (store8 m off (v % 256)) (off + 1) (v / 256 % 256)

/-- Store of a `uint32_t` by the little-endian host. -/
def store32 (m : Buffer) (off v : Nat) : Buffer :=
  store8 (store8 (store8 (store8 m off (v % 256)) (off + 1) (v / 256 % 256))
    (off + 2) (v / 65536 % 256)) (off + 3) (v / 16777216 % 256)

/-- The loop `for (i = 0; i < n; i++) dst[i] = src[i];` over `uint8_t` arrays. -/
def copyLoop (m : Buffer) (dst : Nat) (src : List Nat) (n : Nat) : Buffer :=
  (List.range n).foldl (fun acc i => store8 acc (dst + i) (src.getD i 0)) m

/-- Load of one byte of a buffer filled by the transport. -/
def load8 (m : List Nat) (off : Nat) : Nat := m.getD off 0

/-- Load of a `uint16_t` by the little-endian host. -/
def load16 (m : List Nat) (off : Nat) : Nat :=
  load8 m off + 256 * load8 m (off + 1)

/-- Load of a `uint32_t` by the little-endian host. -/
def load32 (m : List Nat) (off : Nat) : Nat :=
  load8 m off + 256 * load8 m (off + 1) + 65536 * load8 m (off + 2) +
    16777216 * load8 m (off + 3)

/-- Load of a `uint32_t` at an offset computed from the content of the block: `none` when
one of its four bytes lies past the end of the block, where the value read is not a byte of
the block. -/
def load32Inside (m : List Nat) (off : Nat) : Option Nat :=
  if off + 4 ≤ m.length then some (load32 m off) else none

/-! ## tpmspec.hpp: constants -/

def TPM_ST_NO_SESSIONS : Nat := 0x8001
def TPM_ST_SESSIONS : Nat := 0x8002

def TPM_CC_NV_UndefineSpace : Nat := 0x122
def TPM_CC_NV_WriteLock : Nat := 0x138
def TPM_CC_NV_DefineSpace : Nat := 0x12A
def TPM_CC_NV_Write : Nat := 0x137
def TPM_CC_NV_Read : Nat := 0x14E
def TPM_CC_NV_ReadLock : Nat := 0x14F
def TPM_CC_NV_ReadPublic : Nat := 0x169
def TPM_CC_GetCapability : Nat := 0x17A

def TPM_RC_SUCCESS : Nat := 0
def TPM_RC_FAILURE : Nat := 0x101

def TPM_HR_PCR : Nat := 0
def TPM_HT_NV_INDEX : Nat := 1
def TPM_HT_PERMANENT : Nat := 0x40
def HR_SHIFT : Nat := 24
def HR_NV_INDEX : Nat := TPM_HT_NV_INDEX <<< HR_SHIFT

def TPM_CAP_ALGS : Nat := 0
def TPM_CAP_HANDLES : Nat := 1

def TPM_ALG_SHA256 : Nat := 0x000B

def TPMA_NV_PPWRITE : Nat := 0x00000001
def TPMA_NV_OWNERWRITE : Nat := 0x00000002
def TPMA_NV_AUTHWRITE : Nat := 0x00000004
def TPMA_NV_POLICYWRITE : Nat := 0x00000008
def TPMA_NV_COUNTER : Nat := 0x00000010
def TPMA_NV_BITS : Nat := 0x00000020
def TPMA_NV_EXTEND : Nat := 0x00000040
def TPMA_NV_RESERVED_TYPE_1 : Nat := 0x00000080
def TPMA_NV_RESERVED_TYPE_2 : Nat := 0x00000100
def TPMA_NV_RESERVED_TYPE_3 : Nat := 0x00000200
def TPMA_NV_POLICY_DELETE : Nat := 0x00000400
def TPMA_NV_WRITELOCKED : Nat := 0x00000800
def TPMA_NV_WRITEALL : Nat := 0x00001000
def TPMA_NV_WRITEDEFINE : Nat := 0x00002000
def TPMA_NV_WRITE_STCLEAR : Nat := 0x00004000
def TPMA_NV_GLOBALLOCK : Nat := 0x00008000
def TPMA_NV_PPREAD : Nat := 0x00010000
def TPMA_NV_OWNERREAD : Nat := 0x00020000
def TPMA_NV_AUTHREAD : Nat := 0x00040000
def TPMA_NV_POLICYREAD : Nat := 0x00080000
def TPMA_NV_RESERVED_FLAG_1 : Nat := 0x00100000
def TPMA_NV_RESERVED_FLAG_2 : Nat := 0x00200000
def TPMA_NV_RESERVED_FLAG_3 : Nat := 0x00400000
def TPMA_NV_RESERVED_FLAG_4 : Nat := 0x00800000
def TPMA_NV_RESERVED_FLAG_5 : Nat := 0x01000000
def TPMA_NV_NO_DA : Nat := 0x02000000
def TPMA_NV_ORDERLY : Nat := 0x04000000
def TPMA_NV_CLEAR_STCLEAR : Nat := 0x08000000
def TPMA_NV_READLOCKED : Nat := 0x10000000
def TPMA_NV_WRITTEN : Nat := 0x20000000
def TPMA_NV_PLATFORMCREATE : Nat := 0x40000000
def TPMA_NV_READ_STCLEAR : Nat := 0x80000000

/-- The `Value` view of the `TPM_HANDLE` union `{ Index[0], Index[1], Index[2], Type }` on the
little-endian host: the type tag is the most significant byte. -/
def TPM_HANDLE_Value (Index0 Index1 Index2 HandleType : Nat) : Nat :=
  Index0 + 256 * Index1 + 65536 * Index2 + 16777216 * HandleType

/-- Constant `TPM_RH_OWNER = { 1, 0, 0, TPM_HT_PERMANENT }`. -/
def TPM_RH_OWNER : Nat := TPM_HANDLE_Value 1 0 0 TPM_HT_PERMANENT

/-- Constant `TPM_RS_PW = { 9, 0, 0, TPM_HT_PERMANENT }`. -/
def TPM_RS_PW : Nat := TPM_HANDLE_Value 9 0 0 TPM_HT_PERMANENT

def sizeof_uint8 : Nat := 1
def sizeof_uint16 : Nat := 2
def sizeof_uint32 : Nat := 4
def sizeof_TPM_HANDLE : Nat := sizeof_uint32
def sizeof_TPM_CAP : Nat := sizeof_uint32

def MAX_CAP_BUFFER : Nat := 1024
def MAX_CAP_DATA : Nat := MAX_CAP_BUFFER - sizeof_TPM_CAP - sizeof_uint32
def MAX_CAP_HANDLES : Nat := MAX_CAP_DATA / sizeof_TPM_HANDLE

/-! ## tpmtool.hpp: tool flags -/

def TpmToolNoAccess : Nat := 0
def TpmToolReadAccess : Nat := 1
def TpmToolWriteAccess : Nat := 2
def TpmToolReadWriteAccess : Nat := 3

def TpmToolReadLockable : Nat := 1 <<< 0
def TpmToolWriteLockable : Nat := 1 <<< 1
def TpmToolWriteOnce : Nat := 1 <<< 2
def TpmToolWriteAll : Nat := 1 <<< 3
def TpmToolNonProtected : Nat := 1 <<< 4
def TpmToolCached : Nat := 1 <<< 5
def TpmToolVolatileDirtyFlag : Nat := 1 <<< 6
def TpmToolPermanent : Nat := 1 <<< 7
def TpmToolReadLocked : Nat := 1 <<< 8
def TpmToolWriteLocked : Nat := 1 <<< 9
def TpmToolWritten : Nat := 1 <<< 10
def TpmToolPlatformOwned : Nat := 1 <<< 11

/-! ## tpmstruc.hpp: packed layouts

For each structure, the offset of every field and the size of the structure. -/

namespace TPM_CMD_HEADER
def SessionTag : Nat := 0
def Size : Nat := SessionTag + sizeof_uint16
def CommandCode : Nat := Size + sizeof_uint32
def sizeof : Nat := CommandCode + sizeof_uint32
end TPM_CMD_HEADER

namespace TPM_REPLY_HEADER
def SessionTag : Nat := 0
def Size : Nat := SessionTag + sizeof_uint16
def ResponseCode : Nat := Size + sizeof_uint32
def sizeof : Nat := ResponseCode + sizeof_uint32
end TPM_REPLY_HEADER

namespace TPMS_AUTH_RESPONSE_NO_NONCE
def NonceSize : Nat := 0
def SessionAttributes : Nat := NonceSize + sizeof_uint16
def HmacSize : Nat := SessionAttributes + sizeof_uint8
def sizeof : Nat := HmacSize + sizeof_uint16
end TPMS_AUTH_RESPONSE_NO_NONCE

namespace TPMS_AUTH_COMMAND_NO_NONCE
def SessionSize : Nat := 0
def SessionHandle : Nat := SessionSize + sizeof_uint32
def NonceSize : Nat := SessionHandle + sizeof_TPM_HANDLE
def SessionAttributes : Nat := NonceSize + sizeof_uint16
def PasswordSize : Nat := SessionAttributes + sizeof_uint8
def Password : Nat := PasswordSize + sizeof_uint16
def sizeof : Nat := Password + 1 * sizeof_uint8
end TPMS_AUTH_COMMAND_NO_NONCE

/-- The layout shared by `TPM_NV_READ_LOCK_CMD_HEADER`, `TPM_NV_WRITE_LOCK_CMD_HEADER`,
`TPM_NV_UNDEFINE_SPACE_CMD_HEADER`, `TPM_NV_WRITE_CMD_HEADER` and `TPM_NV_READ_CMD_HEADER`:
`{ Header, AuthHandle, NvIndex, AuthSession }`. -/
structure NvCmdHeaderLayout where
  Header : Nat
  AuthHandle : Nat
  NvIndex : Nat
  AuthSession : Nat
  sizeof : Nat

def nvCmdHeaderLayout : NvCmdHeaderLayout where
  Header := 0
  AuthHandle := TPM_CMD_HEADER.sizeof
  NvIndex := TPM_CMD_HEADER.sizeof + sizeof_TPM_HANDLE
  AuthSession := TPM_CMD_HEADER.sizeof + sizeof_TPM_HANDLE + sizeof_TPM_HANDLE
  sizeof := TPM_CMD_HEADER.sizeof + sizeof_TPM_HANDLE + sizeof_TPM_HANDLE +
    TPMS_AUTH_COMMAND_NO_NONCE.sizeof

def TPM_NV_READ_LOCK_CMD_HEADER : NvCmdHeaderLayout := nvCmdHeaderLayout
def TPM_NV_WRITE_LOCK_CMD_HEADER : NvCmdHeaderLayout := nvCmdHeaderLayout
def TPM_NV_UNDEFINE_SPACE_CMD_HEADER : NvCmdHeaderLayout := nvCmdHeaderLayout
def TPM_NV_WRITE_CMD_HEADER : NvCmdHeaderLayout := nvCmdHeaderLayout
def TPM_NV_READ_CMD_HEADER : NvCmdHeaderLayout := nvCmdHeaderLayout

/-- The layout shared by every reply without data:
`{ Header, ParameterSize, AuthSession }`. -/
structure NvReplyLayout where
  Header : Nat
  ParameterSize : Nat
  AuthSession : Nat
  sizeof : Nat

def nvReplyLayout : NvReplyLayout where
  Header := 0
  ParameterSize := TPM_REPLY_HEADER.sizeof
  AuthSession := TPM_REPLY_HEADER.sizeof + sizeof_uint32
  sizeof := TPM_REPLY_HEADER.sizeof + sizeof_uint32 + TPMS_AUTH_RESPONSE_NO_NONCE.sizeof

def TPM_NV_READ_LOCK_REPLY : NvReplyLayout := nvReplyLayout
def TPM_NV_WRITE_LOCK_REPLY : NvReplyLayout := nvReplyLayout
def TPM_NV_UNDEFINE_SPACE_REPLY : NvReplyLayout := nvReplyLayout
def TPM_NV_DEFINE_SPACE_REPLY : NvReplyLayout := nvReplyLayout
def TPM_NV_WRITE_REPLY : NvReplyLayout := nvReplyLayout

namespace TPM_NV_DEFINE_SPACE_CMD_HEADER
def Header : Nat := 0
def AuthHandle : Nat := Header + TPM_CMD_HEADER.sizeof
def AuthSession : Nat := AuthHandle + sizeof_TPM_HANDLE
def sizeof : Nat := AuthSession + TPMS_AUTH_COMMAND_NO_NONCE.sizeof
end TPM_NV_DEFINE_SPACE_CMD_HEADER

namespace TPM_NV_DEFINE_SPACE_CMD_BODY
def AuthSize : Nat := 0
def Data : Nat := AuthSize + sizeof_uint16
def sizeof : Nat := Data + 1 * sizeof_uint8
end TPM_NV_DEFINE_SPACE_CMD_BODY

namespace TPM_NV_DEFINE_SPACE_CMD_FOOTER
def NvPublicSize : Nat := 0
def NvIndex : Nat := NvPublicSize + sizeof_uint16
def NameAlg : Nat := NvIndex + sizeof_TPM_HANDLE
def Attributes : Nat := NameAlg + sizeof_uint16
def AuthPolicySize : Nat := Attributes + sizeof_uint32
def DataSize : Nat := AuthPolicySize + sizeof_uint16
def sizeof : Nat := DataSize + sizeof_uint16
end TPM_NV_DEFINE_SPACE_CMD_FOOTER

namespace TPM_NV_READ_PUBLIC_CMD_HEADER
def Header : Nat := 0
def NvIndex : Nat := Header + TPM_CMD_HEADER.sizeof
def sizeof : Nat := NvIndex + sizeof_TPM_HANDLE
end TPM_NV_READ_PUBLIC_CMD_HEADER

/-- Size of `TPM2B_DIGEST`: `{ uint16_t BufferSize; TPMT_HA Buffer }` with
`TPMT_HA = { TPMI_ALG_HASH HashAlg; uint8_t Sha256[32] }`. -/
def sizeof_TPM2B_DIGEST : Nat := sizeof_uint16 + (sizeof_uint16 + 32 * sizeof_uint8)

namespace TPM_NV_READ_PUBLIC_REPLY
def Header : Nat := 0
def NvPublic : Nat := Header + TPM_REPLY_HEADER.sizeof
def Name : Nat := NvPublic + TPM_NV_DEFINE_SPACE_CMD_FOOTER.sizeof
def sizeof : Nat := Name + sizeof_TPM2B_DIGEST
end TPM_NV_READ_PUBLIC_REPLY

namespace TPM_NV_WRITE_CMD_BODY
def Size : Nat := 0
def Data : Nat := Size + sizeof_uint16
def sizeof : Nat := Data + 1 * sizeof_uint8
end TPM_NV_WRITE_CMD_BODY

namespace TPM_NV_WRITE_CMD_FOOTER
def Offset : Nat := 0
def sizeof : Nat := Offset + sizeof_uint16
end TPM_NV_WRITE_CMD_FOOTER

namespace TPM_NV_READ_CMD_FOOTER
def Size : Nat := 0
def Offset : Nat := Size + sizeof_uint16
def sizeof : Nat := Offset + sizeof_uint16
end TPM_NV_READ_CMD_FOOTER

namespace TPM_NV_READ_REPLY
def Header : Nat := 0
def ParameterSize : Nat := Header + TPM_REPLY_HEADER.sizeof
def DataSize : Nat := ParameterSize + sizeof_uint32
def Data : Nat := DataSize + sizeof_uint16
def sizeof : Nat := Data + 1 * sizeof_uint8
end TPM_NV_READ_REPLY

namespace TPM_GET_CAPABILITY_CMD_HEADER
def Header : Nat := 0
def Capability : Nat := Header + TPM_CMD_HEADER.sizeof
def Property : Nat := Capability + sizeof_TPM_CAP
def PropertyCount : Nat := Property + sizeof_uint32
def sizeof : Nat := PropertyCount + sizeof_uint32
end TPM_GET_CAPABILITY_CMD_HEADER

namespace TPML_HANDLE
def Count : Nat := 0
def Handle : Nat := Count + sizeof_uint32
def sizeof : Nat := Handle + MAX_CAP_HANDLES * sizeof_TPM_HANDLE
end TPML_HANDLE

namespace TPMS_CAPABILITY_DATA
def Capability : Nat := 0
def Data : Nat := Capability + sizeof_TPM_CAP
def sizeof : Nat := Data + TPML_HANDLE.sizeof
end TPMS_CAPABILITY_DATA

namespace TPM_GET_CAPABILITY_REPLY
def Header : Nat := 0
def MoreData : Nat := Header + TPM_REPLY_HEADER.sizeof
def Data : Nat := MoreData + sizeof_uint8
def sizeof : Nat := Data + TPMS_CAPABILITY_DATA.sizeof
end TPM_GET_CAPABILITY_REPLY

/-! ## tpmcmd.hpp: sizing helpers

The helpers take pointers only to name a structure type; here they take the `offsetof`
or `sizeof` value the helper extracts from that type. -/

/-- Helper `TpmVariableCmdSize(header, authSize, data, size, footer)`, with `headerPassword` for
`offsetof(*header, AuthSession.Password)`, `dataData` for `offsetof(*data, Data)` and
`footerSize` for `sizeof(*footer)`. -/
def TpmVariableCmdSize (headerPassword authSize dataData size footerSize : Nat) : Nat :=
  headerPassword + authSize + dataData + size + footerSize

/-- Helper `TpmFixedCmdSize(header, authSize, footer)`. -/
def TpmFixedCmdSize (headerPassword authSize footerSize : Nat) : Nat :=
  headerPassword + authSize + footerSize

/-- Helper `TpmEmptyCmdSize(header, authSize)`. -/
def TpmEmptyCmdSize (headerPassword authSize : Nat) : Nat :=
  headerPassword + authSize

/-- Helper `TpmpAllocateCommand(header, commandSize)`. -/
def TpmpAllocateCommand (commandSize : Nat) : Buffer := alloca commandSize

/-- Helper `TpmFixedResponseSize(x)`, with `replySize` for `sizeof(*x)`. -/
def TpmFixedResponseSize (replySize : Nat) : Nat := replySize

/-- Helper `TpmVariableResponseSize(x, y)`, with `replyData` for `offsetof(*x, Data)`. -/
def TpmVariableResponseSize (replyData y : Nat) : Nat :=
  replyData + y + TPMS_AUTH_RESPONSE_NO_NONCE.sizeof

/-- Helper `TpmReadResponseCode(response)`; `Header` is the first field of every reply. -/
def TpmReadResponseCode (response : List Nat) : Nat :=
  OsSwap32 (load32 response TPM_REPLY_HEADER.ResponseCode)

/-- Conversion of a size computed in `size_t` to the `uint32_t` it is assigned to. -/
def toUint32 (n : Nat) : Nat := n % 4294967296

/-! ## The transport -/

/-- The arguments of one `TpmOsIssueCommand` call: the command block, the length passed with
it, and the size of the reply block. -/
structure OsCall where
  Command : Buffer
  InLength : Nat
  OutLength : Nat

/-- Function `TpmOsIssueCommand`, without the device handle it is given: `none` when it
returns `false`, otherwise the content of the reply block after the call. -/
abbrev Transport := OsCall → Option (List Nat)

/-- Function `TpmOsIssueCommand` of tpmoswin.cpp.  `Tbsip_Submit_Command` is the TBS entry
point: it gives the TBS result and the content of the reply block after the call;
`TBS_SUCCESS` is the constant of the Windows headers the result is compared with.  The
function returns `tbsResult == TBS_SUCCESS`, whatever the reply block holds. -/
def TpmOsIssueCommand (TBS_SUCCESS : Nat) (Tbsip_Submit_Command : OsCall → Nat × List Nat) :
    Transport :=
  fun call =>
    let tbsResult := (Tbsip_Submit_Command call).1
    let Out := (Tbsip_Submit_Command call).2
    if tbsResult = TBS_SUCCESS then some Out else none

/-! ## tpmcmd.cpp -/

/-- Function `TpmpFillCommandHeader`; `CommandHeader` is the offset of the header in `m`. -/
def TpmpFillCommandHeader (m : Buffer) (CommandHeader CommandCode SessionTag Size : Nat) :
    Buffer :=
  let m := store16 m (CommandHeader + TPM_CMD_HEADER.SessionTag) (OsSwap16 SessionTag)
  let m := store32 m (CommandHeader + TPM_CMD_HEADER.Size) (OsSwap32 Size)
  store32 m (CommandHeader + TPM_CMD_HEADER.CommandCode) (OsSwap32 CommandCode)

/-- Function `TpmpFillAuthSession`; `AuthSession` is the offset of the session in `m`.  The second
component is the pointer the function stores in `*CommandFooter`, `&AuthSession->Password[i]`
at loop exit; callers that pass `nullptr` ignore it. -/
def TpmpFillAuthSession (m : Buffer) (AuthSession AuthorizationSize : Nat)
    (AuthorizationData : List Nat) : Buffer × Nat :=
  let authSessionSize := toUint32
    (TPMS_AUTH_COMMAND_NO_NONCE.Password + AuthorizationSize - sizeof_uint32)
  let m := store32 m (AuthSession + TPMS_AUTH_COMMAND_NO_NONCE.SessionSize)
    (OsSwap32 authSessionSize)
  let m := store32 m (AuthSession + TPMS_AUTH_COMMAND_NO_NONCE.SessionHandle)
    (OsSwap32 TPM_RS_PW)
  let m := store16 m (AuthSession + TPMS_AUTH_COMMAND_NO_NONCE.NonceSize) (OsSwap16 0)
  let m := store8 m (AuthSession + TPMS_AUTH_COMMAND_NO_NONCE.SessionAttributes) 0
  let m := store16 m (AuthSession + TPMS_AUTH_COMMAND_NO_NONCE.PasswordSize)
    (OsSwap16 AuthorizationSize)
  let m := copyLoop m (AuthSession + TPMS_AUTH_COMMAND_NO_NONCE.Password) AuthorizationData
    AuthorizationSize
  (m, AuthSession + TPMS_AUTH_COMMAND_NO_NONCE.Password + AuthorizationSize)

/-- Function `TpmUndefineSpace2` up to its `TpmOsIssueCommand` call. -/
def TpmUndefineSpace2_call (HandleIndex : Nat) : OsCall :=
  let hdr := TPM_NV_UNDEFINE_SPACE_CMD_HEADER
  let commandSize := toUint32
    (TpmEmptyCmdSize (hdr.AuthSession + TPMS_AUTH_COMMAND_NO_NONCE.Password) 0)
  let m := TpmpAllocateCommand commandSize
  let m := TpmpFillCommandHeader m hdr.Header TPM_CC_NV_UndefineSpace TPM_ST_SESSIONS
    commandSize
  let m := store32 m hdr.AuthHandle (OsSwap32 TPM_RH_OWNER)
  let m := store32 m hdr.NvIndex (OsSwap32 HandleIndex)
  let m := (TpmpFillAuthSession m hdr.AuthSession 0 []).1
  let replySize := toUint32 (TpmFixedResponseSize TPM_NV_UNDEFINE_SPACE_REPLY.sizeof)
  { Command := m, InLength := commandSize, OutLength := replySize }

/-- Function `TpmUndefineSpace2`. -/
def TpmUndefineSpace2 (TpmOsIssueCommand : Transport) (HandleIndex : Nat) : Nat :=
  match TpmOsIssueCommand (TpmUndefineSpace2_call HandleIndex) with
  | none => TPM_RC_FAILURE
  | some reply => TpmReadResponseCode reply

/-- The conversion of the tool's rights and attributes to `nvAttributes` in `TpmDefineSpace2`.
A comparison is a C `bool`, converted to `0` or `1` by the multiplication. -/
def TpmDefineSpace2_nvAttributes (Attributes OwnerRights AuthRights : Nat) : Nat :=
  let nvAttributes :=
    ((OwnerRights &&& TpmToolReadAccess == TpmToolReadAccess).toNat * TPMA_NV_OWNERREAD) |||
    ((OwnerRights &&& TpmToolWriteAccess == TpmToolWriteAccess).toNat * TPMA_NV_OWNERWRITE) |||
    ((AuthRights &&& TpmToolReadAccess == TpmToolReadAccess).toNat * TPMA_NV_AUTHREAD) |||
    ((AuthRights &&& TpmToolWriteAccess == TpmToolWriteAccess).toNat * TPMA_NV_AUTHWRITE)
  nvAttributes |||
    (((Attributes &&& TpmToolReadLockable == TpmToolReadLockable).toNat *
        TPMA_NV_READ_STCLEAR) |||
     ((Attributes &&& TpmToolWriteLockable == TpmToolWriteLockable).toNat *
        TPMA_NV_WRITE_STCLEAR) |||
     ((Attributes &&& TpmToolWriteOnce == TpmToolWriteOnce).toNat * TPMA_NV_WRITEDEFINE) |||
     ((Attributes &&& TpmToolWriteAll == TpmToolWriteAll).toNat * TPMA_NV_WRITEALL) |||
     ((Attributes &&& TpmToolNonProtected == TpmToolNonProtected).toNat * TPMA_NV_NO_DA) |||
     ((Attributes &&& TpmToolCached == TpmToolCached).toNat * TPMA_NV_ORDERLY) |||
     ((Attributes &&& TpmToolVolatileDirtyFlag == TpmToolVolatileDirtyFlag).toNat *
        TPMA_NV_CLEAR_STCLEAR) |||
     ((Attributes &&& TpmToolPermanent == TpmToolPermanent).toNat * TPMA_NV_POLICY_DELETE))

/-- Function `TpmDefineSpace2` up to its `TpmOsIssueCommand` call. -/
def TpmDefineSpace2_call (HandleIndex SpaceSize Attributes OwnerRights AuthRights
    AuthorizationSize : Nat) (AuthorizationData : List Nat) : OsCall :=
  let commandHeader := 0
  let commandSize := toUint32 (TpmVariableCmdSize
    (TPM_NV_DEFINE_SPACE_CMD_HEADER.AuthSession + TPMS_AUTH_COMMAND_NO_NONCE.Password) 0
    TPM_NV_DEFINE_SPACE_CMD_BODY.Data AuthorizationSize TPM_NV_DEFINE_SPACE_CMD_FOOTER.sizeof)
  let m := TpmpAllocateCommand commandSize
  let m := TpmpFillCommandHeader m (commandHeader + TPM_NV_DEFINE_SPACE_CMD_HEADER.Header)
    TPM_CC_NV_DefineSpace TPM_ST_SESSIONS commandSize
  let m := store32 m (commandHeader + TPM_NV_DEFINE_SPACE_CMD_HEADER.AuthHandle)
    (OsSwap32 TPM_RH_OWNER)
  let (m, commandData) := TpmpFillAuthSession m
    (commandHeader + TPM_NV_DEFINE_SPACE_CMD_HEADER.AuthSession) 0 []
  let m := store16 m (commandData + TPM_NV_DEFINE_SPACE_CMD_BODY.AuthSize)
    (OsSwap16 AuthorizationSize)
  let m := copyLoop m (commandData + TPM_NV_DEFINE_SPACE_CMD_BODY.Data) AuthorizationData
    AuthorizationSize
  let commandFooter := commandData + TPM_NV_DEFINE_SPACE_CMD_BODY.Data + AuthorizationSize
  let m := store16 m (commandFooter + TPM_NV_DEFINE_SPACE_CMD_FOOTER.NvPublicSize)
    (OsSwap16 (TPM_NV_DEFINE_SPACE_CMD_FOOTER.sizeof - sizeof_uint16))
  let m := store32 m (commandFooter + TPM_NV_DEFINE_SPACE_CMD_FOOTER.NvIndex)
    (OsSwap32 HandleIndex)
  let m := store16 m (commandFooter + TPM_NV_DEFINE_SPACE_CMD_FOOTER.NameAlg)
    (OsSwap16 TPM_ALG_SHA256)
  let m := store16 m (commandFooter + TPM_NV_DEFINE_SPACE_CMD_FOOTER.DataSize)
    (OsSwap16 SpaceSize)
  let m := store16 m (commandFooter + TPM_NV_DEFINE_SPACE_CMD_FOOTER.AuthPolicySize) 0
  let nvAttributes := TpmDefineSpace2_nvAttributes Attributes OwnerRights AuthRights
  let m := store32 m (commandFooter + TPM_NV_DEFINE_SPACE_CMD_FOOTER.Attributes)
    (OsSwap32 nvAttributes)
  let replySize := toUint32 (TpmFixedResponseSize TPM_NV_DEFINE_SPACE_REPLY.sizeof)
  { Command := m, InLength := commandSize, OutLength := replySize }

/-- Function `TpmDefineSpace2`. -/
def TpmDefineSpace2 (TpmOsIssueCommand : Transport) (HandleIndex SpaceSize Attributes
    OwnerRights AuthRights AuthorizationSize : Nat) (AuthorizationData : List Nat) : Nat :=
  match TpmOsIssueCommand (TpmDefineSpace2_call HandleIndex SpaceSize Attributes OwnerRights
      AuthRights AuthorizationSize AuthorizationData) with
  | none => TPM_RC_FAILURE
  | some reply => TpmReadResponseCode reply

/-- Function `TpmNvRead2` up to its `TpmOsIssueCommand` call. -/
def TpmNvRead2_call (HandleIndex AuthorizationSize : Nat) (AuthorizationData : List Nat)
    (Offset DataSize : Nat) : OsCall :=
  let command := 0
  let commandSize := toUint32 (TpmFixedCmdSize
    (TPM_NV_READ_CMD_HEADER.AuthSession + TPMS_AUTH_COMMAND_NO_NONCE.Password)
    AuthorizationSize TPM_NV_READ_CMD_FOOTER.sizeof)
  let m := TpmpAllocateCommand commandSize
  let m := TpmpFillCommandHeader m (command + TPM_NV_READ_CMD_HEADER.Header) TPM_CC_NV_Read
    TPM_ST_SESSIONS commandSize
  let m := store32 m (command + TPM_NV_READ_CMD_HEADER.NvIndex) (OsSwap32 HandleIndex)
  let m :=
    if AuthorizationSize = 0 then
      store32 m (command + TPM_NV_READ_CMD_HEADER.AuthHandle) (OsSwap32 TPM_RH_OWNER)
    else
      store32 m (command + TPM_NV_READ_CMD_HEADER.AuthHandle) (OsSwap32 HandleIndex)
  let (m, commandFooter) := TpmpFillAuthSession m
    (command + TPM_NV_READ_CMD_HEADER.AuthSession) AuthorizationSize AuthorizationData
  let m := store16 m (commandFooter + TPM_NV_READ_CMD_FOOTER.Offset) (OsSwap16 Offset)
  let m := store16 m (commandFooter + TPM_NV_READ_CMD_FOOTER.Size) (OsSwap16 DataSize)
  let replySize := toUint32 (TpmVariableResponseSize TPM_NV_READ_REPLY.Data DataSize)
  { Command := m, InLength := commandSize, OutLength := replySize }

/-- Function `TpmNvRead2`; `Data` is the caller's block, returned as the call leaves it. -/
def TpmNvRead2 (TpmOsIssueCommand : Transport) (HandleIndex AuthorizationSize : Nat)
    (AuthorizationData : List Nat) (Offset DataSize : Nat) (Data : Buffer) : Nat × Buffer :=
  match TpmOsIssueCommand
      (TpmNvRead2_call HandleIndex AuthorizationSize AuthorizationData Offset DataSize) with
  | none => (TPM_RC_FAILURE, Data)
  | some reply =>
    let tpmResult := TpmReadResponseCode reply
    if tpmResult = TPM_RC_SUCCESS then
      (tpmResult, copyLoop Data 0 (reply.drop TPM_NV_READ_REPLY.Data) DataSize)
    else
      (tpmResult, Data)

/-- Function `TpmNvWrite2` up to its `TpmOsIssueCommand` call. -/
def TpmNvWrite2_call (HandleIndex AuthorizationSize : Nat) (AuthorizationData : List Nat)
    (Offset DataSize : Nat) (Data : List Nat) : OsCall :=
  let command := 0
  let commandSize := toUint32 (TpmVariableCmdSize
    (TPM_NV_WRITE_CMD_HEADER.AuthSession + TPMS_AUTH_COMMAND_NO_NONCE.Password)
    AuthorizationSize TPM_NV_WRITE_CMD_BODY.Data DataSize TPM_NV_WRITE_CMD_FOOTER.sizeof)
  let m := TpmpAllocateCommand commandSize
  let m := TpmpFillCommandHeader m (command + TPM_NV_WRITE_CMD_HEADER.Header) TPM_CC_NV_Write
    TPM_ST_SESSIONS commandSize
  let m := store32 m (command + TPM_NV_WRITE_CMD_HEADER.NvIndex) (OsSwap32 HandleIndex)
  let m :=
    if AuthorizationSize = 0 then
      store32 m (command + TPM_NV_WRITE_CMD_HEADER.AuthHandle) (OsSwap32 TPM_RH_OWNER)
    else
      store32 m (command + TPM_NV_WRITE_CMD_HEADER.AuthHandle) (OsSwap32 HandleIndex)
  let (m, commandData) := TpmpFillAuthSession m
    (command + TPM_NV_WRITE_CMD_HEADER.AuthSession) AuthorizationSize AuthorizationData
  let m := store16 m (commandData + TPM_NV_WRITE_CMD_BODY.Size) (OsSwap16 DataSize)
  let m := copyLoop m (commandData + TPM_NV_WRITE_CMD_BODY.Data) Data DataSize
  let commandFooter := commandData + TPM_NV_WRITE_CMD_BODY.Data + DataSize
  let m := store16 m (commandFooter + TPM_NV_WRITE_CMD_FOOTER.Offset) (OsSwap16 Offset)
  let replySize := toUint32 (TpmFixedResponseSize TPM_NV_WRITE_REPLY.sizeof)
  { Command := m, InLength := commandSize, OutLength := replySize }

/-- Function `TpmNvWrite2`. -/
def TpmNvWrite2 (TpmOsIssueCommand : Transport) (HandleIndex AuthorizationSize : Nat)
    (AuthorizationData : List Nat) (Offset DataSize : Nat) (Data : List Nat) : Nat :=
  match TpmOsIssueCommand (TpmNvWrite2_call HandleIndex AuthorizationSize AuthorizationData
      Offset DataSize Data) with
  | none => TPM_RC_FAILURE
  | some reply => TpmReadResponseCode reply

/-- Function `TpmpLock2` up to its `TpmOsIssueCommand` call. -/
def TpmpLock2_call (HandleIndex : Nat) (WriteLock : Bool) (AuthorizationSize : Nat)
    (AuthorizationData : List Nat) : OsCall :=
  let command := 0
  let commandSize := toUint32 (TpmEmptyCmdSize
    (TPM_NV_READ_LOCK_CMD_HEADER.AuthSession + TPMS_AUTH_COMMAND_NO_NONCE.Password)
    AuthorizationSize)
  let m := TpmpAllocateCommand commandSize
  let m := TpmpFillCommandHeader m (command + TPM_NV_READ_LOCK_CMD_HEADER.Header)
    (if WriteLock then TPM_CC_NV_WriteLock else TPM_CC_NV_ReadLock) TPM_ST_SESSIONS commandSize
  let m := store32 m (command + TPM_NV_READ_LOCK_CMD_HEADER.NvIndex) (OsSwap32 HandleIndex)
  let m :=
    if AuthorizationSize = 0 then
      store32 m (command + TPM_NV_READ_LOCK_CMD_HEADER.AuthHandle) (OsSwap32 TPM_RH_OWNER)
    else
      store32 m (command + TPM_NV_READ_LOCK_CMD_HEADER.AuthHandle) (OsSwap32 HandleIndex)
  let m := (TpmpFillAuthSession m (command + TPM_NV_READ_LOCK_CMD_HEADER.AuthSession)
    AuthorizationSize AuthorizationData).1
  let replySize := toUint32 (TpmFixedResponseSize TPM_NV_READ_LOCK_REPLY.sizeof)
  { Command := m, InLength := commandSize, OutLength := replySize }

/-- Function `TpmpLock2`. -/
def TpmpLock2 (TpmOsIssueCommand : Transport) (HandleIndex : Nat) (WriteLock : Bool)
    (AuthorizationSize : Nat) (AuthorizationData : List Nat) : Nat :=
  match TpmOsIssueCommand
      (TpmpLock2_call HandleIndex WriteLock AuthorizationSize AuthorizationData) with
  | none => TPM_RC_FAILURE
  | some reply => TpmReadResponseCode reply

/-- Function `TpmWriteLock2`. -/
def TpmWriteLock2 (TpmOsIssueCommand : Transport) (HandleIndex AuthorizationSize : Nat)
    (AuthorizationData : List Nat) : Nat :=
  TpmpLock2 TpmOsIssueCommand HandleIndex true AuthorizationSize AuthorizationData

/-- Function `TpmReadLock2`. -/
def TpmReadLock2 (TpmOsIssueCommand : Transport) (HandleIndex AuthorizationSize : Nat)
    (AuthorizationData : List Nat) : Nat :=
  TpmpLock2 TpmOsIssueCommand HandleIndex false AuthorizationSize AuthorizationData

/-- The `TpmOsIssueCommand` call of `TpmWriteLock2`. -/
def TpmWriteLock2_call (HandleIndex AuthorizationSize : Nat) (AuthorizationData : List Nat) :
    OsCall :=
  TpmpLock2_call HandleIndex true AuthorizationSize AuthorizationData

/-- The `TpmOsIssueCommand` call of `TpmReadLock2`. -/
def TpmReadLock2_call (HandleIndex AuthorizationSize : Nat) (AuthorizationData : List Nat) :
    OsCall :=
  TpmpLock2_call HandleIndex false AuthorizationSize AuthorizationData

/-- Function `TpmReadPublic2` up to its `TpmOsIssueCommand` call. -/
def TpmReadPublic2_call (HandleIndex : Nat) : OsCall :=
  let command := 0
  let commandSize := toUint32 TPM_NV_READ_PUBLIC_CMD_HEADER.sizeof
  let m := TpmpAllocateCommand commandSize
  let m := TpmpFillCommandHeader m (command + TPM_NV_READ_PUBLIC_CMD_HEADER.Header)
    TPM_CC_NV_ReadPublic TPM_ST_NO_SESSIONS commandSize
  let m := store32 m (command + TPM_NV_READ_PUBLIC_CMD_HEADER.NvIndex) (OsSwap32 HandleIndex)
  let replySize := toUint32 (TpmFixedResponseSize TPM_NV_READ_PUBLIC_REPLY.sizeof)
  { Command := m, InLength := commandSize, OutLength := replySize }

/-- The caller's variables that `TpmReadPublic2` writes through its pointer arguments. -/
structure ReadPublicOut where
  Attributes : Nat
  OwnerRights : Nat
  AuthRights : Nat
  DataSize : Nat
deriving DecidableEq, Repr

/-- The value `TpmReadPublic2` stores in `*OwnerRights` (a `uint8_t`). -/
def TpmReadPublic2_OwnerRights (nvAtributes : Nat) : Nat :=
  (((nvAtributes &&& TPMA_NV_OWNERREAD == TPMA_NV_OWNERREAD).toNat * TpmToolReadAccess) |||
   ((nvAtributes &&& TPMA_NV_OWNERWRITE == TPMA_NV_OWNERWRITE).toNat * TpmToolWriteAccess))
    % 256

/-- The value `TpmReadPublic2` stores in `*AuthRights` (a `uint8_t`). -/
def TpmReadPublic2_AuthRights (nvAtributes : Nat) : Nat :=
  (((nvAtributes &&& TPMA_NV_AUTHREAD == TPMA_NV_AUTHREAD).toNat * TpmToolReadAccess) |||
   ((nvAtributes &&& TPMA_NV_AUTHWRITE == TPMA_NV_AUTHWRITE).toNat * TpmToolWriteAccess))
    % 256

/-- The value `TpmReadPublic2` stores in `*Attributes` (a `uint16_t`). -/
def TpmReadPublic2_Attributes (nvAtributes : Nat) : Nat :=
  (((nvAtributes &&& TPMA_NV_READ_STCLEAR == TPMA_NV_READ_STCLEAR).toNat *
      TpmToolReadLockable) |||
   ((nvAtributes &&& TPMA_NV_WRITE_STCLEAR == TPMA_NV_WRITE_STCLEAR).toNat *
      TpmToolWriteLockable) |||
   ((nvAtributes &&& TPMA_NV_WRITEDEFINE == TPMA_NV_WRITEDEFINE).toNat * TpmToolWriteOnce) |||
   ((nvAtributes &&& TPMA_NV_WRITEALL == TPMA_NV_WRITEALL).toNat * TpmToolWriteAll) |||
   ((nvAtributes &&& TPMA_NV_NO_DA == TPMA_NV_NO_DA).toNat * TpmToolNonProtected) |||
   ((nvAtributes &&& TPMA_NV_ORDERLY == TPMA_NV_ORDERLY).toNat * TpmToolCached) |||
   ((nvAtributes &&& TPMA_NV_CLEAR_STCLEAR == TPMA_NV_CLEAR_STCLEAR).toNat *
      TpmToolVolatileDirtyFlag) |||
   ((nvAtributes &&& TPMA_NV_POLICY_DELETE == TPMA_NV_POLICY_DELETE).toNat *
      TpmToolPermanent) |||
   ((nvAtributes &&& TPMA_NV_READLOCKED == TPMA_NV_READLOCKED).toNat * TpmToolReadLocked) |||
   ((nvAtributes &&& TPMA_NV_WRITELOCKED == TPMA_NV_WRITELOCKED).toNat *
      TpmToolWriteLocked) |||
   ((nvAtributes &&& TPMA_NV_WRITTEN == TPMA_NV_WRITTEN).toNat * TpmToolWritten) |||
   ((nvAtributes &&& TPMA_NV_PLATFORMCREATE == TPMA_NV_PLATFORMCREATE).toNat *
      TpmToolPlatformOwned)) % 65536

/-- Function `TpmReadPublic2`; `out` holds the caller's variables before the call, the second
component what they hold after it. -/
def TpmReadPublic2 (TpmOsIssueCommand : Transport) (HandleIndex : Nat) (out : ReadPublicOut) :
    Nat × ReadPublicOut :=
  match TpmOsIssueCommand (TpmReadPublic2_call HandleIndex) with
  | none => (TPM_RC_FAILURE, out)
  | some reply =>
    let tpmResult := TpmReadResponseCode reply
    if tpmResult ≠ TPM_RC_SUCCESS then
      (tpmResult, out)
    else
      let NvPublic := TPM_NV_READ_PUBLIC_REPLY.NvPublic
      let DataSize :=
        OsSwap16 (load16 reply (NvPublic + TPM_NV_DEFINE_SPACE_CMD_FOOTER.DataSize))
      let nvAtributes :=
        OsSwap32 (load32 reply (NvPublic + TPM_NV_DEFINE_SPACE_CMD_FOOTER.Attributes))
      (tpmResult,
        { Attributes := TpmReadPublic2_Attributes nvAtributes
          OwnerRights := TpmReadPublic2_OwnerRights nvAtributes
          AuthRights := TpmReadPublic2_AuthRights nvAtributes
          DataSize := DataSize })

/-- Function `TpmNvEnumerate2` up to its `TpmOsIssueCommand` call. -/
def TpmNvEnumerate2_call : OsCall :=
  let command := 0
  let commandSize := toUint32 TPM_GET_CAPABILITY_CMD_HEADER.sizeof
  let m := TpmpAllocateCommand commandSize
  let m := TpmpFillCommandHeader m (command + TPM_GET_CAPABILITY_CMD_HEADER.Header)
    TPM_CC_GetCapability TPM_ST_NO_SESSIONS commandSize
  let handleCount := toUint32 (MAX_CAP_HANDLES * sizeof_TPM_HANDLE / sizeof_TPM_HANDLE)
  let m := store32 m (command + TPM_GET_CAPABILITY_CMD_HEADER.Capability)
    (OsSwap32 TPM_CAP_HANDLES)
  let m := store32 m (command + TPM_GET_CAPABILITY_CMD_HEADER.Property) (OsSwap32 HR_NV_INDEX)
  let m := store32 m (command + TPM_GET_CAPABILITY_CMD_HEADER.PropertyCount)
    (OsSwap32 handleCount)
  let replySize := toUint32 (TpmFixedResponseSize TPM_GET_CAPABILITY_REPLY.sizeof)
  { Command := m, InLength := commandSize, OutLength := replySize }

/-- The copy loop of `TpmNvEnumerate2`,
`for (i = 0; i < handleCount; i++) IndexArray[i].Value = OsSwap32(...Handle[i].Value);`.
The slot `Handle[i]` lies at an offset that grows with the count taken from the reply, so
its load is checked: the result is `none` when a load leaves the reply block, the entries
stored being then no bytes of the reply. -/
def TpmNvEnumerate2_copy (reply : List Nat) (handleCount : Nat) (IndexArray : Buffer) :
    Option Buffer :=
  let Handles := TPM_GET_CAPABILITY_REPLY.Data + TPMS_CAPABILITY_DATA.Data
  (List.range handleCount).foldlM
    (fun acc i =>
      (load32Inside reply (Handles + TPML_HANDLE.Handle + i * sizeof_TPM_HANDLE)).map
        (fun Value => store32 acc (i * sizeof_TPM_HANDLE) (OsSwap32 Value)))
    IndexArray

/-- Function `TpmNvEnumerate2`; `IndexCount` is the caller's count before the call and
`IndexArray` the caller's array as a block of bytes.  The result holds the return value, the
count after the call and the array after the call (`none` when the copy loop loaded from
outside the reply block). -/
def TpmNvEnumerate2 (TpmOsIssueCommand : Transport) (IndexCount : Nat) (IndexArray : Buffer) :
    Nat × Nat × Option Buffer :=
  match TpmOsIssueCommand TpmNvEnumerate2_call with
  | none => (TPM_RC_FAILURE, IndexCount, some IndexArray)
  | some reply =>
    let tpmResult := TpmReadResponseCode reply
    if tpmResult ≠ TPM_RC_SUCCESS then
      (tpmResult, IndexCount, some IndexArray)
    else
      let Handles := TPM_GET_CAPABILITY_REPLY.Data + TPMS_CAPABILITY_DATA.Data
      let replyCount := OsSwap32 (load32 reply (Handles + TPML_HANDLE.Count))
      let handleCount := if IndexCount < replyCount then IndexCount else replyCount
      let IndexCount := if IndexCount < replyCount then replyCount else IndexCount
      (tpmResult, IndexCount, TpmNvEnumerate2_copy reply handleCount IndexArray)

/-! ## tpmtool.cpp

A C string is a `String`, one character for each `char`.  The functions return their
`int32_t` result together with the commands they handed to the transport, in order. -/

/-- Constant `USHRT_MAX` of the C headers. -/
def USHRT_MAX : Nat := 65535

/-- Call `strstr(s, t) != nullptr` of the C library: whether `t` occurs in `s`. -/
def strstr : List Char → List Char → Bool
  | [], t => t.isPrefixOf []
  | c :: cs, t => t.isPrefixOf (c :: cs) || strstr cs t

/-- Function `LockSpace`. -/
def LockSpace (TpmOsIssueCommand : Transport) (ArgumentCount : Nat) (Arguments : List String)
    (Index : Nat) (Write : Bool) : Int × List OsCall :=
  if ArgumentCount < 3 ∨ ArgumentCount > 4 then (-1, [])
  else
    let password := if ArgumentCount = 4 then (Arguments.getD 3 "").data.map Char.toNat else []
    let passwordSize := if ArgumentCount = 4 then (Arguments.getD 3 "").length % 65536 else 0
    if ArgumentCount = 4 ∧ passwordSize = 0 then (-1, [])
    else
      let tpmResult :=
        if Write then TpmWriteLock2 TpmOsIssueCommand Index passwordSize password
        else TpmReadLock2 TpmOsIssueCommand Index passwordSize password
      let issued :=
        if Write then TpmWriteLock2_call Index passwordSize password
        else TpmReadLock2_call Index passwordSize password
      if tpmResult ≠ TPM_RC_SUCCESS then (-1, [issued]) else (0, [issued])

/-- Function `DeleteSpace`. -/
def DeleteSpace (TpmOsIssueCommand : Transport) (ArgumentCount : Nat) (Index : Nat) :
    Int × List OsCall :=
  if ArgumentCount ≠ 3 then (-1, [])
  else
    let tpmResult := TpmUndefineSpace2 TpmOsIssueCommand Index
    if tpmResult ≠ TPM_RC_SUCCESS then (-1, [TpmUndefineSpace2_call Index])
    else (0, [TpmUndefineSpace2_call Index])

/-- Function `WriteSpace`.  `strtoul` is the C library function (text and base), `stdin` the
bytes `fread` can read. -/
def WriteSpace (strtoul : String → Nat → Nat) (stdin : List Nat)
    (TpmOsIssueCommand : Transport) (ArgumentCount : Nat) (Arguments : List String)
    (Index : Nat) : Int × List OsCall :=
  if ArgumentCount < 5 ∨ ArgumentCount > 6 then (-1, [])
  else
    let offset := strtoul (Arguments.getD 3 "") 0 % 65536
    if offset = 0 ∧ (Arguments.getD 3 "").data.head? ≠ some '0' then (-1, [])
    else
      let dataSize := strtoul (Arguments.getD 4 "") 0 % 65536
      if dataSize = 0 then (-1, [])
      else if dataSize > USHRT_MAX then (-1, [])
      else
        let data := List.replicate dataSize 0
        let sizeRead := min dataSize stdin.length
        let data := stdin.take sizeRead ++ data.drop sizeRead
        if sizeRead = 0 then (-1, [])
        else
          let password :=
            if ArgumentCount = 6 then (Arguments.getD 5 "").data.map Char.toNat else []
          let passwordSize :=
            if ArgumentCount = 6 then (Arguments.getD 5 "").length % 65536 else 0
          if ArgumentCount = 6 ∧ passwordSize = 0 then (-1, [])
          else
            let tpmResult := TpmNvWrite2 TpmOsIssueCommand Index passwordSize password offset
              dataSize data
            let issued := TpmNvWrite2_call Index passwordSize password offset dataSize data
            if tpmResult ≠ TPM_RC_SUCCESS then (-1, [issued]) else (0, [issued])

/-- Function `ReadSpace`. -/
def ReadSpace (strtoul : String → Nat → Nat) (TpmOsIssueCommand : Transport)
    (ArgumentCount : Nat) (Arguments : List String) (Index : Nat) : Int × List OsCall :=
  if ArgumentCount < 5 ∨ ArgumentCount > 6 then (-1, [])
  else
    let offset := strtoul (Arguments.getD 3 "") 0 % 65536
    if offset = 0 ∧ (Arguments.getD 3 "").data.head? ≠ some '0' then (-1, [])
    else
      let dataSize := strtoul (Arguments.getD 4 "") 0 % 65536
      if dataSize = 0 then (-1, [])
      else if dataSize > USHRT_MAX then (-1, [])
      else
        let data : Buffer := List.replicate dataSize (some 0)
        let password :=
          if ArgumentCount = 6 then (Arguments.getD 5 "").data.map Char.toNat else []
        let passwordSize :=
          if ArgumentCount = 6 then (Arguments.getD 5 "").length % 65536 else 0
        if ArgumentCount = 6 ∧ passwordSize = 0 then (-1, [])
        else
          let tpmResult := (TpmNvRead2 TpmOsIssueCommand Index passwordSize password offset
            dataSize data).1
          let issued := TpmNvRead2_call Index passwordSize password offset dataSize
          if tpmResult ≠ TPM_RC_SUCCESS then (-1, [issued]) else (0, [issued])

/-- The blocks "Validate owner rights" and "Validate auth rights" of `CreateSpace`, the same
code on `Arguments[3]` and on `Arguments[4]`; the rights are a `uint8_t`, and the result is
`none` where the function returns -1. -/
def CreateSpace_rights (Argument : String) : Option Nat :=
  let rights := TpmToolNoAccess
  if Argument = "R" then some ((rights ||| TpmToolReadAccess) % 256)
  else if Argument = "RW" then some ((rights ||| TpmToolReadWriteAccess) % 256)
  else if Argument = "NA" then some TpmToolNoAccess
  else none

/-- The block "Validate attributes" of `CreateSpace`; `attributes` is a `uint8_t`. -/
def CreateSpace_attributes (Argument : String) : Nat :=
  let attributes := 0
  let attributes :=
    if strstr Argument.data "RL".data then (attributes ||| TpmToolReadLockable) % 256
    else attributes
  let attributes :=
    if strstr Argument.data "WL".data then (attributes ||| TpmToolWriteLockable) % 256
    else attributes
  let attributes :=
    if strstr Argument.data "WO".data then (attributes ||| TpmToolWriteOnce) % 256
    else attributes
  let attributes :=
    if strstr Argument.data "WA".data then (attributes ||| TpmToolWriteAll) % 256
    else attributes
  let attributes :=
    if strstr Argument.data "NP".data then (attributes ||| TpmToolNonProtected) % 256
    else attributes
  let attributes :=
    if strstr Argument.data "CH".data then (attributes ||| TpmToolCached) % 256
    else attributes
  let attributes :=
    if strstr Argument.data "VL".data then (attributes ||| TpmToolWriteLocked) % 256
    else attributes
  let attributes :=
    if strstr Argument.data "PT".data then (attributes ||| TpmToolPermanent) % 256
    else attributes
  attributes

/-- Function `CreateSpace`. -/
def CreateSpace (strtoul : String → Nat → Nat) (TpmOsIssueCommand : Transport)
    (ArgumentCount : Nat) (Arguments : List String) (Index : Nat) : Int × List OsCall :=
  if ArgumentCount < 7 ∨ ArgumentCount > 8 then (-1, [])
  else
    match CreateSpace_rights (Arguments.getD 3 "") with
    | none => (-1, [])
    | some ownerRights =>
      match CreateSpace_rights (Arguments.getD 4 "") with
      | none => (-1, [])
      | some authRights =>
        let attributes := CreateSpace_attributes (Arguments.getD 5 "")
        let dataSize := strtoul (Arguments.getD 6 "") 0 % 65536
        if dataSize = 0 then (-1, [])
        else
          let password :=
            if ArgumentCount = 8 then (Arguments.getD 7 "").data.map Char.toNat else []
          let passwordSize :=
            if ArgumentCount = 8 then (Arguments.getD 7 "").length % 65536 else 0
          if ArgumentCount = 8 ∧ passwordSize = 0 then (-1, [])
          else
            let tpmResult := TpmDefineSpace2 TpmOsIssueCommand Index dataSize attributes
              ownerRights authRights passwordSize password
            let issued := TpmDefineSpace2_call Index dataSize attributes ownerRights
              authRights passwordSize password
            if tpmResult ≠ TPM_RC_SUCCESS then (-1, [issued]) else (0, [issued])

/-- The text `QuerySpaceInternal` copies to `OwnerRights` for the rights `ownerRights`, and
to `AuthRights` for `authRights`, by the same code. -/
def QuerySpaceInternal_rights (rights : Nat) : String :=
  if rights &&& TpmToolReadWriteAccess = TpmToolReadWriteAccess then "RW"
  else if rights &&& TpmToolReadAccess = TpmToolReadAccess then "R"
  else "NA"

/-- The text `QuerySpaceInternal` builds in `AttributeBuffer`. -/
def QuerySpaceInternal_attributeBuffer (attributes : Nat) : String :=
  let AttributeBuffer := " "
  let AttributeBuffer :=
    if attributes &&& TpmToolReadLockable ≠ 0 then AttributeBuffer ++ "RL+" else AttributeBuffer
  let AttributeBuffer :=
    if attributes &&& TpmToolWriteLockable ≠ 0 then AttributeBuffer ++ "WL+"
    else AttributeBuffer
  let AttributeBuffer :=
    if attributes &&& TpmToolWriteOnce ≠ 0 then AttributeBuffer ++ "WO+" else AttributeBuffer
  let AttributeBuffer :=
    if attributes &&& TpmToolWriteAll ≠ 0 then AttributeBuffer ++ "WA+" else AttributeBuffer
  let AttributeBuffer :=
    if attributes &&& TpmToolNonProtected ≠ 0 then AttributeBuffer ++ "NP+" else AttributeBuffer
  let AttributeBuffer :=
    if attributes &&& TpmToolCached ≠ 0 then AttributeBuffer ++ "CH+" else AttributeBuffer
  let AttributeBuffer :=
    if attributes &&& TpmToolVolatileDirtyFlag ≠ 0 then AttributeBuffer ++ "VL+"
    else AttributeBuffer
  let AttributeBuffer :=
    if attributes &&& TpmToolPermanent ≠ 0 then AttributeBuffer ++ "PT+" else AttributeBuffer
  let AttributeBuffer :=
    if attributes &&& TpmToolReadLocked ≠ 0 then AttributeBuffer ++ "LR+" else AttributeBuffer
  let AttributeBuffer :=
    if attributes &&& TpmToolWriteLocked ≠ 0 then AttributeBuffer ++ "LW+" else AttributeBuffer
  let AttributeBuffer :=
    if attributes &&& TpmToolPlatformOwned ≠ 0 then AttributeBuffer ++ "PO+"
    else AttributeBuffer
  AttributeBuffer

/-- The caller's variables that `QuerySpaceInternal` writes through its pointer arguments. -/
structure QuerySpaceOut where
  DataSize : Nat
  Attributes : String
  OwnerRights : String
  AuthRights : String
  AttributeBuffer : String
deriving DecidableEq, Repr

/-- Function `QuerySpaceInternal`; `attributes`, `ownerRights` and `authRights` are the
values its locals hold before the call of `TpmReadPublic2`, `out` the caller's variables. -/
def QuerySpaceInternal (TpmOsIssueCommand : Transport) (Index : Nat)
    (attributes ownerRights authRights : Nat) (out : QuerySpaceOut) : Nat × QuerySpaceOut :=
  let r := TpmReadPublic2 TpmOsIssueCommand Index
    { Attributes := attributes, OwnerRights := ownerRights, AuthRights := authRights,
      DataSize := out.DataSize }
  let tpmResult := r.1
  if tpmResult ≠ TPM_RC_SUCCESS then (tpmResult, out)
  else
    (TPM_RC_SUCCESS,
      { DataSize := r.2.DataSize
        Attributes := if r.2.Attributes &&& TpmToolWritten ≠ 0 then "dirty" else "unwritten"
        OwnerRights := QuerySpaceInternal_rights r.2.OwnerRights
        AuthRights := QuerySpaceInternal_rights r.2.AuthRights
        AttributeBuffer := QuerySpaceInternal_attributeBuffer r.2.Attributes })

/-- The call `main` makes once its checks have passed, with the index it passes. -/
inductive Operation where
  | EnumerateSpaces (QuerySpaces : Bool)
  | ReadClock
  | GetRandom
  | GetHash
  | CreateSpace (Index : Nat)
  | WriteSpace (Index : Nat)
  | ReadSpace (Index : Nat)
  | DeleteSpace (Index : Nat)
  | LockSpace (Index : Nat) (Write : Bool)
  | QuerySpace (Index : Nat)
deriving DecidableEq, Repr

/-- Function `main`.  `strtoul` is the C library function (text and base, an `unsigned long`
of 32 bits), `TpmOsOpen` the result of the call of that name, and `call op` the result of the
function `main` calls; the second component is that call, `none` when `main` calls none.
`IndexType` is `index.Type`, the most significant byte of `index.Value`. -/
def main (strtoul : String → Nat → Nat) (TpmOsOpen : Bool) (call : Operation → Int)
    (ArgumentCount : Nat) (Arguments : List String) : Int × Option Operation :=
  if ArgumentCount < 2 then (-1, none)
  else if TpmOsOpen = false then (-1, none)
  else
    let res : Int := -1
    if Arguments.getD 1 "" = "-e" then
      (call (.EnumerateSpaces false), some (.EnumerateSpaces false))
    else if Arguments.getD 1 "" = "-qa" then
      (call (.EnumerateSpaces true), some (.EnumerateSpaces true))
    else if Arguments.getD 1 "" = "-t" then (call .ReadClock, some .ReadClock)
    else if Arguments.getD 1 "" = "-r" then (call .GetRandom, some .GetRandom)
    else if Arguments.getD 1 "" = "-h" then (call .GetHash, some .GetHash)
    else if ArgumentCount < 3 then (res, none)
    else
      let Value := strtoul (Arguments.getD 1 "") 16 % 4294967296
      let IndexType := Value / 16777216 % 256
      if IndexType ≠ TPM_HT_NV_INDEX then (res, none)
      else if Arguments.getD 2 "" = "-c" then
        (call (.CreateSpace Value), some (.CreateSpace Value))
      else if Arguments.getD 2 "" = "-w" then
        (call (.WriteSpace Value), some (.WriteSpace Value))
      else if Arguments.getD 2 "" = "-r" then
        (call (.ReadSpace Value), some (.ReadSpace Value))
      else if Arguments.getD 2 "" = "-d" then
        (call (.DeleteSpace Value), some (.DeleteSpace Value))
      else if Arguments.getD 2 "" = "-wl" then
        (call (.LockSpace Value true), some (.LockSpace Value true))
      else if Arguments.getD 2 "" = "-rl" then
        (call (.LockSpace Value false), some (.LockSpace Value false))
      else if Arguments.getD 2 "" = "-q" then
        (call (.QuerySpace Value), some (.QuerySpace Value))
      else (res, none)

/-! ## The wire format, as the TPM reads a command -/

/-- Big-endian bytes of a 16-bit value. -/
def be16 (x : Nat) : List Nat := [x / 256 % 256, x % 256]

/-- Big-endian bytes of a 32-bit value. -/
def be32 (x : Nat) : List Nat :=
  [x / 16777216 % 256, x / 65536 % 256, x / 256 % 256, x % 256]

/-- Value of a sequence of bytes read most significant byte first. -/
def beValue (bs : List Nat) : Nat := bs.foldl (fun acc b => acc * 256 + b) 0

/-- The big-endian 32-bit field at offset `off` of a block; `none` unless its four bytes
lie in the block and have been written. -/
def wire32 (m : Buffer) (off : Nat) : Option Nat :=
  match m.drop off with
  | some b0 :: some b1 :: some b2 :: some b3 :: _ => some (beValue [b0, b1, b2, b3])
  | _ => none

/-- The big-endian 32-bit field at offset `off` of a reply. -/
def reply32 (reply : List Nat) (off : Nat) : Nat :=
  beValue [load8 reply off, load8 reply (off + 1), load8 reply (off + 2), load8 reply (off + 3)]

/-- Stores of consecutive bytes, lowest address first. -/
def storeBytes : Buffer → Nat → List Nat → Buffer
  | m, _, [] => m
  | m, off, b :: bs => storeBytes (store8 m off b) (off + 1) bs

/-- The first `n` bytes behind a `uint8_t*` argument. -/
def readBytes (src : List Nat) (n : Nat) : List Nat :=
  (List.range n).map (fun i => src.getD i 0)

/-- The password session block as the TPM reads it: `sessionSize`, `sessionHandle`,
`nonceSize`, `sessionAttributes`, `passwordSize`, password bytes. -/
def sessionBytes (L : Nat) (p : List Nat) : List Nat :=
  be32 (9 + L) ++ be32 0x40000009 ++ be16 0 ++ [0] ++ be16 L ++ p

/-- The command header as the TPM reads it: tag, total size, command code. -/
def headerBytes (tag size cc : Nat) : List Nat := be16 tag ++ be32 size ++ be32 cc

/-- The size field of a command is exact: the block has the length passed to the transport,
every byte of it was written, and the big-endian field at bytes 2..5 holds that length. -/
def OsCall.SizeExact (c : OsCall) : Prop :=
  c.Command.length = c.InLength ∧ (∀ cell ∈ c.Command, cell ≠ none) ∧
    wire32 c.Command TPM_CMD_HEADER.Size = some c.InLength

/-- The attribute table of the specification for the owner: tool right, protocol bit. -/
def ownerRightsTable : List (Nat × Nat) := [(1, 0x00020000), (2, 0x00000002)]

/-- The attribute table of the specification for the index authorization. -/
def authRightsTable : List (Nat × Nat) := [(1, 0x00040000), (2, 0x00000004)]

/-- The attribute table of the specification for the eight flags settable at creation:
ReadLockable, WriteLockable, WriteOnce, WriteAll, NonProtected, Cached, VolatileDirtyFlag,
Permanent. -/
def settableTable : List (Nat × Nat) :=
  [(0x01, 0x80000000), (0x02, 0x00004000), (0x04, 0x00002000), (0x08, 0x00001000),
   (0x10, 0x02000000), (0x20, 0x04000000), (0x40, 0x08000000), (0x80, 0x00000400)]

/-- Bitwise OR of the protocol bits of the table entries whose tool bit is set in `x`. -/
def tableOr (table : List (Nat × Nat)) (x : Nat) : Nat :=
  table.foldl (fun acc e => acc ||| (if x &&& e.1 ≠ 0 then e.2 else 0)) 0

/-- The bitmask the specification gives for tool attributes and rights. -/
def toWireAttributes (toolAttrs ownerRights authRights : Nat) : Nat :=
  tableOr ownerRightsTable ownerRights ||| tableOr authRightsTable authRights |||
    tableOr settableTable toolAttrs

/-- The twelve protocol bits of the three tables. -/
def protocolBits : List Nat :=
  (ownerRightsTable ++ authRightsTable ++ settableTable).map Prod.snd

/-- The protocol bits `TpmDefineSpace2` never sets: type, status, platform and policy rights,
global lock and reserved bits. -/
def unsettableBits : List Nat :=
  [TPMA_NV_PPWRITE, TPMA_NV_POLICYWRITE, TPMA_NV_COUNTER, TPMA_NV_BITS, TPMA_NV_EXTEND,
   TPMA_NV_RESERVED_TYPE_1, TPMA_NV_RESERVED_TYPE_2, TPMA_NV_RESERVED_TYPE_3,
   TPMA_NV_WRITELOCKED, TPMA_NV_GLOBALLOCK, TPMA_NV_PPREAD, TPMA_NV_POLICYREAD,
   TPMA_NV_RESERVED_FLAG_1, TPMA_NV_RESERVED_FLAG_2, TPMA_NV_RESERVED_FLAG_3,
   TPMA_NV_RESERVED_FLAG_4, TPMA_NV_RESERVED_FLAG_5, TPMA_NV_READLOCKED, TPMA_NV_WRITTEN,
   TPMA_NV_PLATFORMCREATE]

/-- A ReadPublic reply of 62 bytes reporting success for index `0x01000001`: attributes
`0xA0020002` (read-lockable, written, owner read and write), data size 64. -/
def sampleReadPublicReply : List Nat :=
  [0x80, 0x01, 0, 0, 0, 62, 0, 0, 0, 0,
   0, 14, 0x01, 0, 0, 0x01, 0, 0x0B, 0xA0, 0x02, 0x00, 0x02, 0, 0, 0, 64,
   0, 34, 0, 0x0B,
   0, 0, 0, 0, 0, 0, 0, 0, 0, 0, 0, 0, 0, 0, 0, 0,
   0, 0, 0, 0, 0, 0, 0, 0, 0, 0, 0, 0, 0, 0, 0, 0]

/-- Bytes of a 32-bit value in the memory of the little-endian host. -/
def le32 (v : Nat) : List Nat :=
  [v % 256, v / 256 % 256, v / 65536 % 256, v / 16777216 % 256]

/-- The `uint32_t` the host reads at offset `off` of a block; `none` unless its four bytes
lie in the block and have been written. -/
def host32 (m : Buffer) (off : Nat) : Option Nat :=
  match m.drop off with
  | some b0 :: some b1 :: some b2 :: some b3 :: _ =>
    some (b0 + 256 * b1 + 65536 * b2 + 16777216 * b3)
  | _ => none

/-- The handle count a capability reply reports: the big-endian field at bytes 15..18. -/
def replyCount (reply : List Nat) : Nat := reply32 reply 15

/-- The handle in slot `i` of a capability reply: the big-endian field at byte `19 + 4 * i`.
The reply block has `MAX_CAP_HANDLES` slots. -/
def replyHandle (reply : List Nat) (i : Nat) : Nat := reply32 reply (19 + 4 * i)

/-- The bytes the host holds for the first `k` handles of a capability reply. -/
def handleCells (reply : List Nat) (k : Nat) : List Nat :=
  ((List.range k).map (fun i => le32 (replyHandle reply i))).flatten

/-- A capability reply of 1035 bytes reporting success and `count` handles, every slot of
which holds the handle `0x01000007`. -/
def sampleCapabilityReply (count : Nat) : List Nat :=
  [0x80, 0x01, 0, 0, 0x04, 0x0B, 0, 0, 0, 0, 0, 0, 0, 0, 1] ++ be32 count ++
    (List.replicate 254 [0x01, 0, 0, 0x07]).flatten

/-- A reply of 19 bytes without data whose result code is `0x101`. -/
def sampleFailureReply : List Nat :=
  [0x80, 0x01, 0, 0, 0, 10, 0, 0, 0x01, 0x01, 0, 0, 0, 0, 0, 0, 0, 0, 0]

/-- A capability reply of 1035 bytes reporting success and one handle, every slot of which
holds the handle `0x02000007`, whose type byte is that of a session. -/
def sampleForeignReply : List Nat :=
  [0x80, 0x01, 0, 0, 0x04, 0x0B, 0, 0, 0, 0, 0, 0, 0, 0, 1] ++ be32 1 ++
    (List.replicate 254 [0x02, 0, 0, 0x07]).flatten

/-- The index `main` passes with a call, `none` for the calls that take no index. -/
def Operation.Index : Operation → Option Nat
  | .CreateSpace Value => some Value
  | .WriteSpace Value => some Value
  | .ReadSpace Value => some Value
  | .DeleteSpace Value => some Value
  | .LockSpace Value _ => some Value
  | .QuerySpace Value => some Value
  | _ => none

/-- Values of `strtoul` on the texts of the examples. -/
def sampleStrtoul (text : String) (base : Nat) : Nat :=
  if text = "65537" then 65537
  else if text = "01000001" ∧ base = 16 then 0x01000001
  else if text = "02000001" ∧ base = 16 then 0x02000001
  else if text = "64" then 64
  else 0

/-- A reply of 19 bytes reporting success. -/
def sampleSuccessReply : List Nat :=
  [0x80, 0x02, 0, 0, 0, 19, 0, 0, 0, 0, 0, 0, 0, 0, 0, 0, 0x01, 0, 0]

/-! ## tpmtool.cpp: query output and enumeration -/

/-- Size of the local `attributeBuffer` of `QuerySpaceMinimalOutput` and of `QuerySpace`,
declared as `char attributeBuffer[(12 * 3) + 1]`. -/
def sizeof_attributeBuffer : Nat := (12 * 3) + 1

/-- The index `strlen(attributeBuffer) - 1` at which `QuerySpaceMinimalOutput` and
`QuerySpace` overwrite a character of `attributeBuffer`, computed in `size_t`: `none` when
it lies outside the buffer, as for an empty text, where the subtraction wraps. -/
def lastCharIndex (attributeBuffer : String) : Option Nat :=
  if attributeBuffer.length = 0 then none
  else if attributeBuffer.length - 1 < sizeof_attributeBuffer then
    some (attributeBuffer.length - 1)
  else none

/-- Function `QuerySpaceMinimalOutput`: its result, the arguments of its `printf` (`none`
when it prints nothing or writes outside `attributeBuffer`) and the commands handed to the
transport.  The text printed for `attributeBuffer` ends at the terminator written over its
last character. -/
def QuerySpaceMinimalOutput (TpmOsIssueCommand : Transport) (Index : Nat)
    (attributes ownerRights authRights : Nat) (locals : QuerySpaceOut) :
    Int × Option QuerySpaceOut × List OsCall :=
  let r := QuerySpaceInternal TpmOsIssueCommand Index attributes ownerRights authRights locals
  let tpmResult := r.1
  if tpmResult ≠ TPM_RC_SUCCESS then (-1, none, [TpmReadPublic2_call Index])
  else
    (0,
      (lastCharIndex r.2.AttributeBuffer).map (fun index =>
        { r.2 with AttributeBuffer := String.mk (r.2.AttributeBuffer.data.take index) }),
      [TpmReadPublic2_call Index])

/-- Function `QuerySpace`: its result, the arguments of its `printf` calls (`none` when it
prints nothing or writes outside `attributeBuffer`) and the commands handed to the
transport.  The last character of `attributeBuffer` is overwritten with a newline. -/
def QuerySpace (TpmOsIssueCommand : Transport) (ArgumentCount : Nat) (Index : Nat)
    (attributes ownerRights authRights : Nat) (locals : QuerySpaceOut) :
    Int × Option QuerySpaceOut × List OsCall :=
  if ArgumentCount ≠ 3 then (-1, none, [])
  else
    let r := QuerySpaceInternal TpmOsIssueCommand Index attributes ownerRights authRights
      locals
    let tpmResult := r.1
    if tpmResult ≠ TPM_RC_SUCCESS then (-1, none, [TpmReadPublic2_call Index])
    else
      (0,
        (lastCharIndex r.2.AttributeBuffer).map (fun index =>
          { r.2 with
            AttributeBuffer := String.mk (r.2.AttributeBuffer.data.set index (Char.ofNat 10)) }),
        [TpmReadPublic2_call Index])

set_option linter.unusedVariables false in
/-- Function `EnumerateSpaces`.  `first` and `second` are the transport at the first and at
the second call of `TpmNvEnumerate2`.  The result holds the return value, the values printed
by `printf("NV index: 0x%08x\n", handleArray[i].Value)` in order, and the commands handed to
the transport.  A printed value is `none` when the entry read was not written, or lies
outside `handleArray`; the list is `none` when the copy loop of the second call loaded from
outside the reply block. -/
def EnumerateSpaces (first second : Transport) (ArgumentCount : Nat) (QuerySpaces : Bool) :
    Int × Option (List (Option Nat)) × List OsCall :=
  if ArgumentCount ≠ 2 then (-1, some [], [])
  else
    let handleCount := 0
    let r := TpmNvEnumerate2 first handleCount []
    let tpmResult := r.1
    let handleCount := r.2.1
    if tpmResult ≠ TPM_RC_SUCCESS then (-1, some [], [TpmNvEnumerate2_call])
    else
      let arraySize := (handleCount * sizeof_TPM_HANDLE) % 4294967296
      let handleArray := alloca arraySize
      let r := TpmNvEnumerate2 second handleCount handleArray
      let tpmResult := r.1
      let handleCount := r.2.1
      if tpmResult ≠ TPM_RC_SUCCESS then
        (-1, some [], [TpmNvEnumerate2_call, TpmNvEnumerate2_call])
      else
        (0,
          r.2.2.map (fun handleArray =>
            (List.range handleCount).map (fun i => host32 handleArray (i * sizeof_TPM_HANDLE))),
          [TpmNvEnumerate2_call, TpmNvEnumerate2_call])

/-! ## Bytes and stores -/

@[simp]
theorem length_be16 (x : Nat) : (be16 x).length = 2 := rfl

@[simp]
theorem length_be32 (x : Nat) : (be32 x).length = 4 := rfl

@[simp]
theorem length_readBytes (src : List Nat) (n : Nat) : (readBytes src n).length = n := by
  simp [readBytes]

@[simp]
theorem length_sessionBytes (L : Nat) (p : List Nat) :
    (sessionBytes L p).length = 13 + p.length := by
  simp [sessionBytes]; omega

@[simp]
theorem length_headerBytes (tag size cc : Nat) :
    (headerBytes tag size cc).length = 10 := by
  simp [headerBytes]

theorem readBytes_length (src : List Nat) : readBytes src src.length = src := by
  apply List.ext_getElem
  · simp
  · intro i h1 h2
    simp [readBytes, List.getD_eq_getElem?_getD, List.getElem?_eq_getElem h2]

theorem swap16_bytes (b0 b1 : Nat) (h0 : b0 < 256) (h1 : b1 < 256) :
    (b0 * 256 + b1) % 256 = b1 ∧ (b0 * 256 + b1) / 256 % 256 = b0 := by
  have e1 : (b0 * 256 + b1) / 256 = b0 := by omega
  rw [e1]; omega

theorem swap32_bytes (b0 b1 b2 b3 : Nat) (h0 : b0 < 256) (h1 : b1 < 256) (h2 : b2 < 256)
    (h3 : b3 < 256) :
    (b0 * 16777216 + b1 * 65536 + b2 * 256 + b3) % 256 = b3 ∧
    (b0 * 16777216 + b1 * 65536 + b2 * 256 + b3) / 256 % 256 = b2 ∧
    (b0 * 16777216 + b1 * 65536 + b2 * 256 + b3) / 65536 % 256 = b1 ∧
    (b0 * 16777216 + b1 * 65536 + b2 * 256 + b3) / 16777216 % 256 = b0 := by
  have e1 : (b0 * 16777216 + b1 * 65536 + b2 * 256 + b3) / 256 =
      b0 * 65536 + b1 * 256 + b2 := by omega
  have e2 : (b0 * 16777216 + b1 * 65536 + b2 * 256 + b3) / 65536 = b0 * 256 + b1 := by omega
  have e3 : (b0 * 16777216 + b1 * 65536 + b2 * 256 + b3) / 16777216 = b0 := by omega
  rw [e1, e2, e3]; omega

theorem OsSwap16_bytes (x : Nat) :
    OsSwap16 x % 256 = x / 256 % 256 ∧ OsSwap16 x / 256 % 256 = x % 256 :=
  swap16_bytes (x % 256) (x / 256 % 256) (Nat.mod_lt _ (by decide)) (Nat.mod_lt _ (by decide))

theorem OsSwap32_bytes (x : Nat) :
    OsSwap32 x % 256 = x / 16777216 % 256 ∧ OsSwap32 x / 256 % 256 = x / 65536 % 256 ∧
    OsSwap32 x / 65536 % 256 = x / 256 % 256 ∧ OsSwap32 x / 16777216 % 256 = x % 256 :=
  swap32_bytes (x % 256) (x / 256 % 256) (x / 65536 % 256) (x / 16777216 % 256)
    (Nat.mod_lt _ (by decide)) (Nat.mod_lt _ (by decide)) (Nat.mod_lt _ (by decide))
    (Nat.mod_lt _ (by decide))

theorem OsSwap16_OsSwap16 (x : Nat) (h : x < 65536) : OsSwap16 (OsSwap16 x) = x := by
  obtain ⟨h1, h2⟩ := OsSwap16_bytes x
  rw [OsSwap16, h1, h2]; omega

theorem OsSwap32_OsSwap32 (x : Nat) (h : x < 4294967296) : OsSwap32 (OsSwap32 x) = x := by
  obtain ⟨h1, h2, h3, h4⟩ := OsSwap32_bytes x
  rw [OsSwap32, h1, h2, h3, h4]; omega

theorem beValue_be16 (x : Nat) (h : x < 65536) : beValue (be16 x) = x := by
  simp only [beValue, be16, List.foldl]; omega

theorem beValue_be32 (x : Nat) (h : x < 4294967296) : beValue (be32 x) = x := by
  simp only [beValue, be32, List.foldl]; omega

theorem toUint32_of_lt (n : Nat) (h : n < 4294967296) : toUint32 n = n := by
  unfold toUint32; omega

theorem store16_OsSwap16 (m : Buffer) (off x : Nat) :
    store16 m off (OsSwap16 x) = storeBytes m off (be16 x) := by
  obtain ⟨h1, h2⟩ := OsSwap16_bytes x
  simp only [store16, storeBytes, be16, h1, h2]

theorem store32_OsSwap32 (m : Buffer) (off x : Nat) :
    store32 m off (OsSwap32 x) = storeBytes m off (be32 x) := by
  obtain ⟨h1, h2, h3, h4⟩ := OsSwap32_bytes x
  simp only [store32, storeBytes, be32, h1, h2, h3, h4]

theorem store16_zero (m : Buffer) (off : Nat) :
    store16 m off 0 = storeBytes m off (be16 0) := by
  simp [store16, storeBytes, be16]

theorem store8_eq_storeBytes (m : Buffer) (off v : Nat) :
    store8 m off v = storeBytes m off [v] := rfl

theorem ite_storeBytes_be32 (c : Prop) [Decidable c] (m : Buffer) (o a b : Nat) :
    (if c then storeBytes m o (be32 a) else storeBytes m o (be32 b)) =
      storeBytes m o (be32 (if c then a else b)) := by
  split <;> rfl

theorem storeBytes_append (m : Buffer) (off : Nat) (xs ys : List Nat) :
    storeBytes m off (xs ++ ys) = storeBytes (storeBytes m off xs) (off + xs.length) ys := by
  induction xs generalizing m off with
  | nil => simp [storeBytes]
  | cons x xs ih =>
    rw [List.cons_append, storeBytes, storeBytes, ih, List.length_cons,
      show off + (xs.length + 1) = off + 1 + xs.length by omega]

theorem storeBytes_merge (m : Buffer) (off off2 : Nat) (xs ys : List Nat)
    (h : off2 = off + xs.length) :
    storeBytes (storeBytes m off xs) off2 ys = storeBytes m off (xs ++ ys) := by
  rw [h, storeBytes_append]

theorem store8_comm (m : Buffer) (i j a b : Nat) (h : i ≠ j) :
    store8 (store8 m i a) j b = store8 (store8 m j b) i a := by
  induction i generalizing m j with
  | zero =>
    cases j with
    | zero => exact absurd rfl h
    | succ j => cases m <;> simp [store8]
  | succ i ih =>
    cases j with
    | zero => cases m <;> simp [store8]
    | succ j =>
      have hij : i ≠ j := fun e => h (by rw [e])
      cases m <;> simp [store8, ih _ _ hij]

theorem store8_storeBytes_comm (m : Buffer) (off j b : Nat) (xs : List Nat)
    (h : j < off ∨ off + xs.length ≤ j) :
    store8 (storeBytes m off xs) j b = storeBytes (store8 m j b) off xs := by
  induction xs generalizing m off with
  | nil => simp [storeBytes]
  | cons x xs ih =>
    simp only [storeBytes, List.length_cons] at *
    rw [ih _ _ (by omega), store8_comm _ _ _ _ _ (by omega)]

/-- Stores to disjoint ranges can be exchanged. -/
theorem storeBytes_comm (m : Buffer) (o1 o2 : Nat) (xs ys : List Nat)
    (h : o2 + ys.length ≤ o1 ∨ o1 + xs.length ≤ o2) :
    storeBytes (storeBytes m o1 xs) o2 ys = storeBytes (storeBytes m o2 ys) o1 xs := by
  induction ys generalizing m o2 with
  | nil => simp [storeBytes]
  | cons y ys ih =>
    simp only [storeBytes, List.length_cons] at *
    rw [store8_storeBytes_comm _ _ _ _ _ (by omega), ih _ _ (by omega)]

theorem store8_append (A m : Buffer) (k v : Nat) :
    store8 (A ++ m) (A.length + k) v = A ++ store8 m k v := by
  induction A with
  | nil => simp
  | cons a A ih =>
    have : (a :: A).length + k = (A.length + k) + 1 := by simp; omega
    rw [this]
    simp [store8, ih]

/-- Stores that cover the middle part `B` of a block replace exactly that part. -/
theorem storeBytes_fill (A B C : Buffer) (bs : List Nat) (hB : B.length = bs.length) :
    storeBytes (A ++ B ++ C) A.length bs = A ++ bs.map some ++ C := by
  induction bs generalizing A B with
  | nil =>
    have : B = [] := List.eq_nil_of_length_eq_zero (by simpa using hB)
    simp [storeBytes, this]
  | cons b bs ih =>
    cases B with
    | nil => simp at hB
    | cons x B =>
      have h8 := store8_append A (x :: (B ++ C)) 0 b
      simp only [Nat.add_zero, store8] at h8
      have hB2 : B.length = bs.length := by simpa using hB
      have h := ih (A ++ [some b]) B hB2
      simp only [List.length_append, List.length_singleton, List.append_assoc,
        List.singleton_append] at h
      simp only [storeBytes, List.append_assoc, List.cons_append, h8, List.map_cons]
      simpa using h

theorem storeBytes_alloca (n : Nat) (bs : List Nat) (h : bs.length = n) :
    storeBytes (alloca n) 0 bs = bs.map some := by
  have := storeBytes_fill [] (List.replicate n none) [] bs (by simp [h])
  simpa [alloca] using this

/-- Stores inside a block replace the cells they cover and leave the others as they are. -/
theorem storeBytes_splice (m : Buffer) (off : Nat) (bs : List Nat)
    (h : off + bs.length ≤ m.length) :
    storeBytes m off bs = m.take off ++ bs.map some ++ m.drop (off + bs.length) := by
  have hm : m = m.take off ++ (m.drop off).take bs.length ++ m.drop (off + bs.length) := by
    rw [List.append_assoc, ← List.drop_drop, List.take_append_drop, List.take_append_drop]
  have hl : (m.take off).length = off := by simp; omega
  have := storeBytes_fill (m.take off) ((m.drop off).take bs.length)
    (m.drop (off + bs.length)) bs (by simp; omega)
  rw [hl, ← hm] at this
  exact this

theorem copyLoop_eq (m : Buffer) (dst : Nat) (src : List Nat) (n : Nat) :
    copyLoop m dst src n = storeBytes m dst (readBytes src n) := by
  induction n with
  | zero => simp [copyLoop, readBytes, storeBytes]
  | succ n ih =>
    have : readBytes src (n + 1) = readBytes src n ++ [src.getD n 0] := by
      simp [readBytes, List.range_succ]
    rw [this, storeBytes_append, ← ih]
    simp [copyLoop, List.range_succ, storeBytes]

theorem OsSwap32_load32 (reply : List Nat) (off : Nat) (hb : ∀ b ∈ reply, b < 256) :
    OsSwap32 (load32 reply off) = reply32 reply off := by
  have hlt : ∀ i, load8 reply i < 256 := by
    intro i
    unfold load8
    rw [List.getD_eq_getElem?_getD]
    cases hi : reply[i]? with
    | none => simp
    | some v => exact hb v (List.getElem?_mem hi)
  have h0 := hlt off
  have h1 := hlt (off + 1)
  have h2 := hlt (off + 2)
  have h3 := hlt (off + 3)
  have e : load32 reply off = load8 reply (off + 3) * 16777216 + load8 reply (off + 2) * 65536 +
      load8 reply (off + 1) * 256 + load8 reply off := by
    unfold load32; omega
  obtain ⟨s0, s1, s2, s3⟩ := swap32_bytes _ _ _ _ h3 h2 h1 h0
  rw [OsSwap32, e, s0, s1, s2, s3]
  simp only [reply32, beValue, List.foldl]
  omega

/-! ## The bytes of each command -/

theorem TpmpFillCommandHeader_eq (m : Buffer) (c cc tag size : Nat) :
    TpmpFillCommandHeader m c cc tag size = storeBytes m c (headerBytes tag size cc) := by
  simp only [TpmpFillCommandHeader, store16_OsSwap16, store32_OsSwap32, headerBytes,
    TPM_CMD_HEADER.SessionTag, TPM_CMD_HEADER.Size, TPM_CMD_HEADER.CommandCode, sizeof_uint16,
    sizeof_uint32, storeBytes_append, length_be16, length_be32, List.length_append,
    Nat.add_zero, Nat.zero_add, Nat.add_assoc]

theorem TpmpFillAuthSession_eq (m : Buffer) (a L : Nat) (data : List Nat) (hL : L ≤ 65535) :
    TpmpFillAuthSession m a L data =
      (storeBytes m a (sessionBytes L (readBytes data L)), a + 13 + L) := by
  have h9 : toUint32 (13 + L - 4) = 9 + L := by unfold toUint32; omega
  have hpw : TPM_RS_PW = 0x40000009 := by decide
  simp only [TpmpFillAuthSession, store16_OsSwap16, store32_OsSwap32, sessionBytes, copyLoop_eq,
    store8_eq_storeBytes,
    TPMS_AUTH_COMMAND_NO_NONCE.SessionSize, TPMS_AUTH_COMMAND_NO_NONCE.SessionHandle,
    TPMS_AUTH_COMMAND_NO_NONCE.NonceSize, TPMS_AUTH_COMMAND_NO_NONCE.SessionAttributes,
    TPMS_AUTH_COMMAND_NO_NONCE.PasswordSize, TPMS_AUTH_COMMAND_NO_NONCE.Password,
    sizeof_uint16, sizeof_uint32, sizeof_uint8, sizeof_TPM_HANDLE,
    storeBytes_append, length_be16, length_be32, List.length_append, List.length_singleton,
    Nat.add_zero, Nat.zero_add, Nat.add_assoc, Nat.reduceAdd, h9, hpw]

theorem TpmUndefineSpace2_call_eq (HandleIndex : Nat) :
    TpmUndefineSpace2_call HandleIndex =
      { Command := (headerBytes 0x8002 31 0x122 ++ be32 0x40000001 ++ be32 HandleIndex ++
          sessionBytes 0 []).map some
        InLength := 31
        OutLength := 19 } := by
  have hn : toUint32 31 = 31 := by decide
  have hown : TPM_RH_OWNER = 0x40000001 := by decide
  have hr : readBytes [] 0 = [] := rfl
  simp only [TpmUndefineSpace2_call, TpmVariableCmdSize, TpmFixedCmdSize, TpmEmptyCmdSize,
    TpmpAllocateCommand,
    TpmFixedResponseSize, TpmVariableResponseSize,
    TPM_NV_READ_LOCK_CMD_HEADER, TPM_NV_UNDEFINE_SPACE_CMD_HEADER, TPM_NV_WRITE_CMD_HEADER,
    TPM_NV_READ_CMD_HEADER, nvCmdHeaderLayout,
    TPM_NV_READ_LOCK_REPLY, TPM_NV_UNDEFINE_SPACE_REPLY, TPM_NV_DEFINE_SPACE_REPLY,
    TPM_NV_WRITE_REPLY, nvReplyLayout,
    TPM_NV_DEFINE_SPACE_CMD_HEADER.Header, TPM_NV_DEFINE_SPACE_CMD_HEADER.AuthHandle,
    TPM_NV_DEFINE_SPACE_CMD_HEADER.AuthSession,
    TPM_NV_DEFINE_SPACE_CMD_BODY.AuthSize, TPM_NV_DEFINE_SPACE_CMD_BODY.Data,
    TPM_NV_DEFINE_SPACE_CMD_FOOTER.NvPublicSize, TPM_NV_DEFINE_SPACE_CMD_FOOTER.NvIndex,
    TPM_NV_DEFINE_SPACE_CMD_FOOTER.NameAlg, TPM_NV_DEFINE_SPACE_CMD_FOOTER.Attributes,
    TPM_NV_DEFINE_SPACE_CMD_FOOTER.AuthPolicySize, TPM_NV_DEFINE_SPACE_CMD_FOOTER.DataSize,
    TPM_NV_DEFINE_SPACE_CMD_FOOTER.sizeof,
    TPM_NV_READ_PUBLIC_CMD_HEADER.Header, TPM_NV_READ_PUBLIC_CMD_HEADER.NvIndex,
    TPM_NV_READ_PUBLIC_CMD_HEADER.sizeof, TPM_NV_READ_PUBLIC_REPLY.Header,
    TPM_NV_READ_PUBLIC_REPLY.NvPublic, TPM_NV_READ_PUBLIC_REPLY.Name,
    TPM_NV_READ_PUBLIC_REPLY.sizeof, sizeof_TPM2B_DIGEST,
    TPM_NV_WRITE_CMD_BODY.Size, TPM_NV_WRITE_CMD_BODY.Data, TPM_NV_WRITE_CMD_FOOTER.Offset,
    TPM_NV_WRITE_CMD_FOOTER.sizeof, TPM_NV_READ_CMD_FOOTER.Size, TPM_NV_READ_CMD_FOOTER.Offset,
    TPM_NV_READ_CMD_FOOTER.sizeof, TPM_NV_READ_REPLY.Header, TPM_NV_READ_REPLY.ParameterSize,
    TPM_NV_READ_REPLY.DataSize, TPM_NV_READ_REPLY.Data,
    TPM_CMD_HEADER.sizeof, TPM_CMD_HEADER.CommandCode, TPM_CMD_HEADER.Size,
    TPM_CMD_HEADER.SessionTag, TPM_REPLY_HEADER.sizeof, TPM_REPLY_HEADER.ResponseCode,
    TPM_REPLY_HEADER.Size, TPM_REPLY_HEADER.SessionTag, TPMS_AUTH_RESPONSE_NO_NONCE.sizeof,
    TPMS_AUTH_RESPONSE_NO_NONCE.HmacSize, TPMS_AUTH_RESPONSE_NO_NONCE.SessionAttributes,
    TPMS_AUTH_RESPONSE_NO_NONCE.NonceSize,
    TPMS_AUTH_COMMAND_NO_NONCE.SessionSize, TPMS_AUTH_COMMAND_NO_NONCE.SessionHandle,
    TPMS_AUTH_COMMAND_NO_NONCE.NonceSize, TPMS_AUTH_COMMAND_NO_NONCE.SessionAttributes,
    TPMS_AUTH_COMMAND_NO_NONCE.PasswordSize, TPMS_AUTH_COMMAND_NO_NONCE.Password,
    TPMS_AUTH_COMMAND_NO_NONCE.sizeof,
    sizeof_uint16, sizeof_uint32, sizeof_uint8, sizeof_TPM_HANDLE, sizeof_TPM_CAP,
    TPM_ST_SESSIONS, TPM_ST_NO_SESSIONS, TPM_CC_NV_UndefineSpace, TPM_CC_NV_WriteLock,
    TPM_CC_NV_DefineSpace, TPM_CC_NV_Write, TPM_CC_NV_Read, TPM_CC_NV_ReadLock,
    TPM_CC_NV_ReadPublic, TPM_CC_GetCapability, TPM_ALG_SHA256,
    Nat.add_zero, Nat.zero_add, Nat.reduceAdd, Nat.reduceMul, Nat.reduceSub,
    TpmpFillCommandHeader_eq, store32_OsSwap32, store16_OsSwap16, store16_zero, copyLoop_eq,
    ite_storeBytes_be32, hn, hown, hr,
    TpmpFillAuthSession_eq _ _ _ _ (Nat.zero_le 65535)]
  rw [storeBytes_merge _ _ _ _ _ (by simp),
    storeBytes_merge _ _ _ _ _ (by simp),
    storeBytes_merge _ _ _ _ _ (by simp),
    storeBytes_alloca _ _ (by simp)]
  simp [toUint32]

theorem TpmDefineSpace2_call_eq (HandleIndex SpaceSize Attributes OwnerRights AuthRights L : Nat)
    (p : List Nat) (hL : L ≤ 65535) :
    TpmDefineSpace2_call HandleIndex SpaceSize Attributes OwnerRights AuthRights L p =
      { Command := (headerBytes 0x8002 (45 + L) 0x12A ++ be32 0x40000001 ++
          sessionBytes 0 [] ++ be16 L ++ readBytes p L ++
          (be16 14 ++ be32 HandleIndex ++ be16 0x000B ++
            be32 (TpmDefineSpace2_nvAttributes Attributes OwnerRights AuthRights) ++
            be16 0 ++ be16 SpaceSize)).map some
        InLength := 45 + L
        OutLength := 19 } := by
  have hn : toUint32 (27 + 0 + 2 + L + 16) = 45 + L := by unfold toUint32; omega
  have hown : TPM_RH_OWNER = 0x40000001 := by decide
  have hr : readBytes [] 0 = [] := rfl
  simp only [TpmDefineSpace2_call, TpmVariableCmdSize, TpmFixedCmdSize, TpmEmptyCmdSize,
    TpmpAllocateCommand,
    TpmFixedResponseSize, TpmVariableResponseSize,
    TPM_NV_READ_LOCK_CMD_HEADER, TPM_NV_UNDEFINE_SPACE_CMD_HEADER, TPM_NV_WRITE_CMD_HEADER,
    TPM_NV_READ_CMD_HEADER, nvCmdHeaderLayout,
    TPM_NV_READ_LOCK_REPLY, TPM_NV_UNDEFINE_SPACE_REPLY, TPM_NV_DEFINE_SPACE_REPLY,
    TPM_NV_WRITE_REPLY, nvReplyLayout,
    TPM_NV_DEFINE_SPACE_CMD_HEADER.Header, TPM_NV_DEFINE_SPACE_CMD_HEADER.AuthHandle,
    TPM_NV_DEFINE_SPACE_CMD_HEADER.AuthSession,
    TPM_NV_DEFINE_SPACE_CMD_BODY.AuthSize, TPM_NV_DEFINE_SPACE_CMD_BODY.Data,
    TPM_NV_DEFINE_SPACE_CMD_FOOTER.NvPublicSize, TPM_NV_DEFINE_SPACE_CMD_FOOTER.NvIndex,
    TPM_NV_DEFINE_SPACE_CMD_FOOTER.NameAlg, TPM_NV_DEFINE_SPACE_CMD_FOOTER.Attributes,
    TPM_NV_DEFINE_SPACE_CMD_FOOTER.AuthPolicySize, TPM_NV_DEFINE_SPACE_CMD_FOOTER.DataSize,
    TPM_NV_DEFINE_SPACE_CMD_FOOTER.sizeof,
    TPM_NV_READ_PUBLIC_CMD_HEADER.Header, TPM_NV_READ_PUBLIC_CMD_HEADER.NvIndex,
    TPM_NV_READ_PUBLIC_CMD_HEADER.sizeof, TPM_NV_READ_PUBLIC_REPLY.Header,
    TPM_NV_READ_PUBLIC_REPLY.NvPublic, TPM_NV_READ_PUBLIC_REPLY.Name,
    TPM_NV_READ_PUBLIC_REPLY.sizeof, sizeof_TPM2B_DIGEST,
    TPM_NV_WRITE_CMD_BODY.Size, TPM_NV_WRITE_CMD_BODY.Data, TPM_NV_WRITE_CMD_FOOTER.Offset,
    TPM_NV_WRITE_CMD_FOOTER.sizeof, TPM_NV_READ_CMD_FOOTER.Size, TPM_NV_READ_CMD_FOOTER.Offset,
    TPM_NV_READ_CMD_FOOTER.sizeof, TPM_NV_READ_REPLY.Header, TPM_NV_READ_REPLY.ParameterSize,
    TPM_NV_READ_REPLY.DataSize, TPM_NV_READ_REPLY.Data,
    TPM_CMD_HEADER.sizeof, TPM_CMD_HEADER.CommandCode, TPM_CMD_HEADER.Size,
    TPM_CMD_HEADER.SessionTag, TPM_REPLY_HEADER.sizeof, TPM_REPLY_HEADER.ResponseCode,
    TPM_REPLY_HEADER.Size, TPM_REPLY_HEADER.SessionTag, TPMS_AUTH_RESPONSE_NO_NONCE.sizeof,
    TPMS_AUTH_RESPONSE_NO_NONCE.HmacSize, TPMS_AUTH_RESPONSE_NO_NONCE.SessionAttributes,
    TPMS_AUTH_RESPONSE_NO_NONCE.NonceSize,
    TPMS_AUTH_COMMAND_NO_NONCE.SessionSize, TPMS_AUTH_COMMAND_NO_NONCE.SessionHandle,
    TPMS_AUTH_COMMAND_NO_NONCE.NonceSize, TPMS_AUTH_COMMAND_NO_NONCE.SessionAttributes,
    TPMS_AUTH_COMMAND_NO_NONCE.PasswordSize, TPMS_AUTH_COMMAND_NO_NONCE.Password,
    TPMS_AUTH_COMMAND_NO_NONCE.sizeof,
    sizeof_uint16, sizeof_uint32, sizeof_uint8, sizeof_TPM_HANDLE, sizeof_TPM_CAP,
    TPM_ST_SESSIONS, TPM_ST_NO_SESSIONS, TPM_CC_NV_UndefineSpace, TPM_CC_NV_WriteLock,
    TPM_CC_NV_DefineSpace, TPM_CC_NV_Write, TPM_CC_NV_Read, TPM_CC_NV_ReadLock,
    TPM_CC_NV_ReadPublic, TPM_CC_GetCapability, TPM_ALG_SHA256,
    Nat.add_zero, Nat.zero_add, Nat.reduceAdd, Nat.reduceMul, Nat.reduceSub,
    TpmpFillCommandHeader_eq, store32_OsSwap32, store16_OsSwap16, store16_zero, copyLoop_eq,
    ite_storeBytes_be32, hn, hown, hr,
    TpmpFillAuthSession_eq _ _ _ _ (Nat.zero_le 65535)]
  rw [storeBytes_comm _ (29 + L + 14) (29 + L + 12) _ _ (by simp),
    storeBytes_comm _ (29 + L + 14) (29 + L + 8) _ _ (by simp),
    storeBytes_comm _ (29 + L + 12) (29 + L + 8) _ _ (by simp),
    storeBytes_merge _ _ _ _ _ (by simp),
    storeBytes_merge _ _ _ _ _ (by simp),
    storeBytes_merge _ _ _ _ _ (by simp),
    storeBytes_merge _ _ _ _ _ (by simp),
    storeBytes_merge _ _ _ _ _ (by simp),
    storeBytes_merge _ _ _ _ _ (by simp),
    storeBytes_merge _ _ _ _ _ (by simp),
    storeBytes_merge _ _ _ _ _ (by simp),
    storeBytes_merge _ _ _ _ _ (by simp),
    storeBytes_merge _ _ _ _ _ (by simp),
    storeBytes_alloca _ _ (by simp; omega)]
  simp [toUint32]

theorem TpmNvRead2_call_eq (HandleIndex L : Nat) (p : List Nat) (Offset DataSize : Nat)
    (hL : L ≤ 65535) (hD : DataSize ≤ 65535) :
    TpmNvRead2_call HandleIndex L p Offset DataSize =
      { Command := (headerBytes 0x8002 (35 + L) 0x14E ++
          be32 (if L = 0 then 0x40000001 else HandleIndex) ++ be32 HandleIndex ++
          sessionBytes L (readBytes p L) ++ be16 DataSize ++ be16 Offset).map some
        InLength := 35 + L
        OutLength := 21 + DataSize } := by
  have hn : toUint32 (31 + L + 4) = 35 + L := by unfold toUint32; omega
  have hr : toUint32 (16 + DataSize + 5) = 21 + DataSize := by unfold toUint32; omega
  have hown : TPM_RH_OWNER = 0x40000001 := by decide
  simp only [TpmNvRead2_call, TpmVariableCmdSize, TpmFixedCmdSize, TpmEmptyCmdSize,
    TpmpAllocateCommand,
    TpmFixedResponseSize, TpmVariableResponseSize,
    TPM_NV_READ_LOCK_CMD_HEADER, TPM_NV_UNDEFINE_SPACE_CMD_HEADER, TPM_NV_WRITE_CMD_HEADER,
    TPM_NV_READ_CMD_HEADER, nvCmdHeaderLayout,
    TPM_NV_READ_LOCK_REPLY, TPM_NV_UNDEFINE_SPACE_REPLY, TPM_NV_DEFINE_SPACE_REPLY,
    TPM_NV_WRITE_REPLY, nvReplyLayout,
    TPM_NV_DEFINE_SPACE_CMD_HEADER.Header, TPM_NV_DEFINE_SPACE_CMD_HEADER.AuthHandle,
    TPM_NV_DEFINE_SPACE_CMD_HEADER.AuthSession,
    TPM_NV_DEFINE_SPACE_CMD_BODY.AuthSize, TPM_NV_DEFINE_SPACE_CMD_BODY.Data,
    TPM_NV_DEFINE_SPACE_CMD_FOOTER.NvPublicSize, TPM_NV_DEFINE_SPACE_CMD_FOOTER.NvIndex,
    TPM_NV_DEFINE_SPACE_CMD_FOOTER.NameAlg, TPM_NV_DEFINE_SPACE_CMD_FOOTER.Attributes,
    TPM_NV_DEFINE_SPACE_CMD_FOOTER.AuthPolicySize, TPM_NV_DEFINE_SPACE_CMD_FOOTER.DataSize,
    TPM_NV_DEFINE_SPACE_CMD_FOOTER.sizeof,
    TPM_NV_READ_PUBLIC_CMD_HEADER.Header, TPM_NV_READ_PUBLIC_CMD_HEADER.NvIndex,
    TPM_NV_READ_PUBLIC_CMD_HEADER.sizeof, TPM_NV_READ_PUBLIC_REPLY.Header,
    TPM_NV_READ_PUBLIC_REPLY.NvPublic, TPM_NV_READ_PUBLIC_REPLY.Name,
    TPM_NV_READ_PUBLIC_REPLY.sizeof, sizeof_TPM2B_DIGEST,
    TPM_NV_WRITE_CMD_BODY.Size, TPM_NV_WRITE_CMD_BODY.Data, TPM_NV_WRITE_CMD_FOOTER.Offset,
    TPM_NV_WRITE_CMD_FOOTER.sizeof, TPM_NV_READ_CMD_FOOTER.Size, TPM_NV_READ_CMD_FOOTER.Offset,
    TPM_NV_READ_CMD_FOOTER.sizeof, TPM_NV_READ_REPLY.Header, TPM_NV_READ_REPLY.ParameterSize,
    TPM_NV_READ_REPLY.DataSize, TPM_NV_READ_REPLY.Data,
    TPM_CMD_HEADER.sizeof, TPM_CMD_HEADER.CommandCode, TPM_CMD_HEADER.Size,
    TPM_CMD_HEADER.SessionTag, TPM_REPLY_HEADER.sizeof, TPM_REPLY_HEADER.ResponseCode,
    TPM_REPLY_HEADER.Size, TPM_REPLY_HEADER.SessionTag, TPMS_AUTH_RESPONSE_NO_NONCE.sizeof,
    TPMS_AUTH_RESPONSE_NO_NONCE.HmacSize, TPMS_AUTH_RESPONSE_NO_NONCE.SessionAttributes,
    TPMS_AUTH_RESPONSE_NO_NONCE.NonceSize,
    TPMS_AUTH_COMMAND_NO_NONCE.SessionSize, TPMS_AUTH_COMMAND_NO_NONCE.SessionHandle,
    TPMS_AUTH_COMMAND_NO_NONCE.NonceSize, TPMS_AUTH_COMMAND_NO_NONCE.SessionAttributes,
    TPMS_AUTH_COMMAND_NO_NONCE.PasswordSize, TPMS_AUTH_COMMAND_NO_NONCE.Password,
    TPMS_AUTH_COMMAND_NO_NONCE.sizeof,
    sizeof_uint16, sizeof_uint32, sizeof_uint8, sizeof_TPM_HANDLE, sizeof_TPM_CAP,
    TPM_ST_SESSIONS, TPM_ST_NO_SESSIONS, TPM_CC_NV_UndefineSpace, TPM_CC_NV_WriteLock,
    TPM_CC_NV_DefineSpace, TPM_CC_NV_Write, TPM_CC_NV_Read, TPM_CC_NV_ReadLock,
    TPM_CC_NV_ReadPublic, TPM_CC_GetCapability, TPM_ALG_SHA256,
    Nat.add_zero, Nat.zero_add, Nat.reduceAdd, Nat.reduceMul, Nat.reduceSub,
    TpmpFillCommandHeader_eq, store32_OsSwap32, store16_OsSwap16, store16_zero, copyLoop_eq,
    ite_storeBytes_be32, hn, hr, hown, TpmpFillAuthSession_eq _ _ _ _ hL]
  rw [storeBytes_comm _ 14 10 _ _ (by simp),
    storeBytes_comm _ (18 + 13 + L + 2) (18 + 13 + L) _ _ (by simp),
    storeBytes_merge _ _ _ _ _ (by simp),
    storeBytes_merge _ _ _ _ _ (by simp; omega),
    storeBytes_merge _ _ _ _ _ (by simp),
    storeBytes_merge _ _ _ _ _ (by simp),
    storeBytes_merge _ _ _ _ _ (by simp),
    storeBytes_alloca _ _ (by simp; omega)]
  simp

theorem TpmNvWrite2_call_eq (HandleIndex L : Nat) (p : List Nat) (Offset DataSize : Nat)
    (Data : List Nat) (hL : L ≤ 65535) (hD : DataSize ≤ 65535) :
    TpmNvWrite2_call HandleIndex L p Offset DataSize Data =
      { Command := (headerBytes 0x8002 (35 + L + DataSize) 0x137 ++
          be32 (if L = 0 then 0x40000001 else HandleIndex) ++ be32 HandleIndex ++
          sessionBytes L (readBytes p L) ++ be16 DataSize ++ readBytes Data DataSize ++
          be16 Offset).map some
        InLength := 35 + L + DataSize
        OutLength := 19 } := by
  have hn : toUint32 (31 + L + 2 + DataSize + 2) = 35 + L + DataSize := by
    unfold toUint32; omega
  have hown : TPM_RH_OWNER = 0x40000001 := by decide
  simp only [TpmNvWrite2_call, TpmVariableCmdSize, TpmFixedCmdSize, TpmEmptyCmdSize,
    TpmpAllocateCommand,
    TpmFixedResponseSize, TpmVariableResponseSize,
    TPM_NV_READ_LOCK_CMD_HEADER, TPM_NV_UNDEFINE_SPACE_CMD_HEADER, TPM_NV_WRITE_CMD_HEADER,
    TPM_NV_READ_CMD_HEADER, nvCmdHeaderLayout,
    TPM_NV_READ_LOCK_REPLY, TPM_NV_UNDEFINE_SPACE_REPLY, TPM_NV_DEFINE_SPACE_REPLY,
    TPM_NV_WRITE_REPLY, nvReplyLayout,
    TPM_NV_DEFINE_SPACE_CMD_HEADER.Header, TPM_NV_DEFINE_SPACE_CMD_HEADER.AuthHandle,
    TPM_NV_DEFINE_SPACE_CMD_HEADER.AuthSession,
    TPM_NV_DEFINE_SPACE_CMD_BODY.AuthSize, TPM_NV_DEFINE_SPACE_CMD_BODY.Data,
    TPM_NV_DEFINE_SPACE_CMD_FOOTER.NvPublicSize, TPM_NV_DEFINE_SPACE_CMD_FOOTER.NvIndex,
    TPM_NV_DEFINE_SPACE_CMD_FOOTER.NameAlg, TPM_NV_DEFINE_SPACE_CMD_FOOTER.Attributes,
    TPM_NV_DEFINE_SPACE_CMD_FOOTER.AuthPolicySize, TPM_NV_DEFINE_SPACE_CMD_FOOTER.DataSize,
    TPM_NV_DEFINE_SPACE_CMD_FOOTER.sizeof,
    TPM_NV_READ_PUBLIC_CMD_HEADER.Header, TPM_NV_READ_PUBLIC_CMD_HEADER.NvIndex,
    TPM_NV_READ_PUBLIC_CMD_HEADER.sizeof, TPM_NV_READ_PUBLIC_REPLY.Header,
    TPM_NV_READ_PUBLIC_REPLY.NvPublic, TPM_NV_READ_PUBLIC_REPLY.Name,
    TPM_NV_READ_PUBLIC_REPLY.sizeof, sizeof_TPM2B_DIGEST,
    TPM_NV_WRITE_CMD_BODY.Size, TPM_NV_WRITE_CMD_BODY.Data, TPM_NV_WRITE_CMD_FOOTER.Offset,
    TPM_NV_WRITE_CMD_FOOTER.sizeof, TPM_NV_READ_CMD_FOOTER.Size, TPM_NV_READ_CMD_FOOTER.Offset,
    TPM_NV_READ_CMD_FOOTER.sizeof, TPM_NV_READ_REPLY.Header, TPM_NV_READ_REPLY.ParameterSize,
    TPM_NV_READ_REPLY.DataSize, TPM_NV_READ_REPLY.Data,
    TPM_CMD_HEADER.sizeof, TPM_CMD_HEADER.CommandCode, TPM_CMD_HEADER.Size,
    TPM_CMD_HEADER.SessionTag, TPM_REPLY_HEADER.sizeof, TPM_REPLY_HEADER.ResponseCode,
    TPM_REPLY_HEADER.Size, TPM_REPLY_HEADER.SessionTag, TPMS_AUTH_RESPONSE_NO_NONCE.sizeof,
    TPMS_AUTH_RESPONSE_NO_NONCE.HmacSize, TPMS_AUTH_RESPONSE_NO_NONCE.SessionAttributes,
    TPMS_AUTH_RESPONSE_NO_NONCE.NonceSize,
    TPMS_AUTH_COMMAND_NO_NONCE.SessionSize, TPMS_AUTH_COMMAND_NO_NONCE.SessionHandle,
    TPMS_AUTH_COMMAND_NO_NONCE.NonceSize, TPMS_AUTH_COMMAND_NO_NONCE.SessionAttributes,
    TPMS_AUTH_COMMAND_NO_NONCE.PasswordSize, TPMS_AUTH_COMMAND_NO_NONCE.Password,
    TPMS_AUTH_COMMAND_NO_NONCE.sizeof,
    sizeof_uint16, sizeof_uint32, sizeof_uint8, sizeof_TPM_HANDLE, sizeof_TPM_CAP,
    TPM_ST_SESSIONS, TPM_ST_NO_SESSIONS, TPM_CC_NV_UndefineSpace, TPM_CC_NV_WriteLock,
    TPM_CC_NV_DefineSpace, TPM_CC_NV_Write, TPM_CC_NV_Read, TPM_CC_NV_ReadLock,
    TPM_CC_NV_ReadPublic, TPM_CC_GetCapability, TPM_ALG_SHA256,
    Nat.add_zero, Nat.zero_add, Nat.reduceAdd, Nat.reduceMul, Nat.reduceSub,
    TpmpFillCommandHeader_eq, store32_OsSwap32, store16_OsSwap16, store16_zero, copyLoop_eq,
    ite_storeBytes_be32, hn, hown, TpmpFillAuthSession_eq _ _ _ _ hL]
  rw [storeBytes_comm _ 14 10 _ _ (by simp),
    storeBytes_merge _ _ _ _ _ (by simp),
    storeBytes_merge _ _ _ _ _ (by simp),
    storeBytes_merge _ _ _ _ _ (by simp; omega),
    storeBytes_merge _ _ _ _ _ (by simp),
    storeBytes_merge _ _ _ _ _ (by simp),
    storeBytes_merge _ _ _ _ _ (by simp),
    storeBytes_alloca _ _ (by simp; omega)]
  simp [toUint32]

theorem TpmpLock2_call_eq (HandleIndex : Nat) (WriteLock : Bool) (L : Nat) (p : List Nat)
    (hL : L ≤ 65535) :
    TpmpLock2_call HandleIndex WriteLock L p =
      { Command := (headerBytes 0x8002 (31 + L) (if WriteLock then 0x138 else 0x14F) ++
          be32 (if L = 0 then 0x40000001 else HandleIndex) ++ be32 HandleIndex ++
          sessionBytes L (readBytes p L)).map some
        InLength := 31 + L
        OutLength := 19 } := by
  have hn : toUint32 (31 + L) = 31 + L := toUint32_of_lt _ (by omega)
  have hown : TPM_RH_OWNER = 0x40000001 := by decide
  simp only [TpmpLock2_call, TpmVariableCmdSize, TpmFixedCmdSize, TpmEmptyCmdSize,
    TpmpAllocateCommand,
    TpmFixedResponseSize, TpmVariableResponseSize,
    TPM_NV_READ_LOCK_CMD_HEADER, TPM_NV_UNDEFINE_SPACE_CMD_HEADER, TPM_NV_WRITE_CMD_HEADER,
    TPM_NV_READ_CMD_HEADER, nvCmdHeaderLayout,
    TPM_NV_READ_LOCK_REPLY, TPM_NV_UNDEFINE_SPACE_REPLY, TPM_NV_DEFINE_SPACE_REPLY,
    TPM_NV_WRITE_REPLY, nvReplyLayout,
    TPM_NV_DEFINE_SPACE_CMD_HEADER.Header, TPM_NV_DEFINE_SPACE_CMD_HEADER.AuthHandle,
    TPM_NV_DEFINE_SPACE_CMD_HEADER.AuthSession,
    TPM_NV_DEFINE_SPACE_CMD_BODY.AuthSize, TPM_NV_DEFINE_SPACE_CMD_BODY.Data,
    TPM_NV_DEFINE_SPACE_CMD_FOOTER.NvPublicSize, TPM_NV_DEFINE_SPACE_CMD_FOOTER.NvIndex,
    TPM_NV_DEFINE_SPACE_CMD_FOOTER.NameAlg, TPM_NV_DEFINE_SPACE_CMD_FOOTER.Attributes,
    TPM_NV_DEFINE_SPACE_CMD_FOOTER.AuthPolicySize, TPM_NV_DEFINE_SPACE_CMD_FOOTER.DataSize,
    TPM_NV_DEFINE_SPACE_CMD_FOOTER.sizeof,
    TPM_NV_READ_PUBLIC_CMD_HEADER.Header, TPM_NV_READ_PUBLIC_CMD_HEADER.NvIndex,
    TPM_NV_READ_PUBLIC_CMD_HEADER.sizeof, TPM_NV_READ_PUBLIC_REPLY.Header,
    TPM_NV_READ_PUBLIC_REPLY.NvPublic, TPM_NV_READ_PUBLIC_REPLY.Name,
    TPM_NV_READ_PUBLIC_REPLY.sizeof, sizeof_TPM2B_DIGEST,
    TPM_NV_WRITE_CMD_BODY.Size, TPM_NV_WRITE_CMD_BODY.Data, TPM_NV_WRITE_CMD_FOOTER.Offset,
    TPM_NV_WRITE_CMD_FOOTER.sizeof, TPM_NV_READ_CMD_FOOTER.Size, TPM_NV_READ_CMD_FOOTER.Offset,
    TPM_NV_READ_CMD_FOOTER.sizeof, TPM_NV_READ_REPLY.Header, TPM_NV_READ_REPLY.ParameterSize,
    TPM_NV_READ_REPLY.DataSize, TPM_NV_READ_REPLY.Data,
    TPM_CMD_HEADER.sizeof, TPM_CMD_HEADER.CommandCode, TPM_CMD_HEADER.Size,
    TPM_CMD_HEADER.SessionTag, TPM_REPLY_HEADER.sizeof, TPM_REPLY_HEADER.ResponseCode,
    TPM_REPLY_HEADER.Size, TPM_REPLY_HEADER.SessionTag, TPMS_AUTH_RESPONSE_NO_NONCE.sizeof,
    TPMS_AUTH_RESPONSE_NO_NONCE.HmacSize, TPMS_AUTH_RESPONSE_NO_NONCE.SessionAttributes,
    TPMS_AUTH_RESPONSE_NO_NONCE.NonceSize,
    TPMS_AUTH_COMMAND_NO_NONCE.SessionSize, TPMS_AUTH_COMMAND_NO_NONCE.SessionHandle,
    TPMS_AUTH_COMMAND_NO_NONCE.NonceSize, TPMS_AUTH_COMMAND_NO_NONCE.SessionAttributes,
    TPMS_AUTH_COMMAND_NO_NONCE.PasswordSize, TPMS_AUTH_COMMAND_NO_NONCE.Password,
    TPMS_AUTH_COMMAND_NO_NONCE.sizeof,
    sizeof_uint16, sizeof_uint32, sizeof_uint8, sizeof_TPM_HANDLE, sizeof_TPM_CAP,
    TPM_ST_SESSIONS, TPM_ST_NO_SESSIONS, TPM_CC_NV_UndefineSpace, TPM_CC_NV_WriteLock,
    TPM_CC_NV_DefineSpace, TPM_CC_NV_Write, TPM_CC_NV_Read, TPM_CC_NV_ReadLock,
    TPM_CC_NV_ReadPublic, TPM_CC_GetCapability, TPM_ALG_SHA256,
    Nat.add_zero, Nat.zero_add, Nat.reduceAdd, Nat.reduceMul, Nat.reduceSub,
    TpmpFillCommandHeader_eq, store32_OsSwap32, store16_OsSwap16, store16_zero, copyLoop_eq,
    ite_storeBytes_be32, hn, hown, TpmpFillAuthSession_eq _ _ _ _ hL]
  rw [storeBytes_comm _ 14 10 _ _ (by simp),
    storeBytes_merge _ _ _ _ _ (by simp),
    storeBytes_merge _ _ _ _ _ (by simp),
    storeBytes_merge _ _ _ _ _ (by simp),
    storeBytes_alloca _ _ (by simp; omega)]
  simp [toUint32]

theorem TpmReadPublic2_call_eq (HandleIndex : Nat) :
    TpmReadPublic2_call HandleIndex =
      { Command := (headerBytes 0x8001 14 0x169 ++ be32 HandleIndex).map some
        InLength := 14
        OutLength := 62 } := by
  have hn : toUint32 14 = 14 := by decide
  simp only [TpmReadPublic2_call, TpmVariableCmdSize, TpmFixedCmdSize, TpmEmptyCmdSize,
    TpmpAllocateCommand,
    TpmFixedResponseSize, TpmVariableResponseSize,
    TPM_NV_READ_LOCK_CMD_HEADER, TPM_NV_UNDEFINE_SPACE_CMD_HEADER, TPM_NV_WRITE_CMD_HEADER,
    TPM_NV_READ_CMD_HEADER, nvCmdHeaderLayout,
    TPM_NV_READ_LOCK_REPLY, TPM_NV_UNDEFINE_SPACE_REPLY, TPM_NV_DEFINE_SPACE_REPLY,
    TPM_NV_WRITE_REPLY, nvReplyLayout,
    TPM_NV_DEFINE_SPACE_CMD_HEADER.Header, TPM_NV_DEFINE_SPACE_CMD_HEADER.AuthHandle,
    TPM_NV_DEFINE_SPACE_CMD_HEADER.AuthSession,
    TPM_NV_DEFINE_SPACE_CMD_BODY.AuthSize, TPM_NV_DEFINE_SPACE_CMD_BODY.Data,
    TPM_NV_DEFINE_SPACE_CMD_FOOTER.NvPublicSize, TPM_NV_DEFINE_SPACE_CMD_FOOTER.NvIndex,
    TPM_NV_DEFINE_SPACE_CMD_FOOTER.NameAlg, TPM_NV_DEFINE_SPACE_CMD_FOOTER.Attributes,
    TPM_NV_DEFINE_SPACE_CMD_FOOTER.AuthPolicySize, TPM_NV_DEFINE_SPACE_CMD_FOOTER.DataSize,
    TPM_NV_DEFINE_SPACE_CMD_FOOTER.sizeof,
    TPM_NV_READ_PUBLIC_CMD_HEADER.Header, TPM_NV_READ_PUBLIC_CMD_HEADER.NvIndex,
    TPM_NV_READ_PUBLIC_CMD_HEADER.sizeof, TPM_NV_READ_PUBLIC_REPLY.Header,
    TPM_NV_READ_PUBLIC_REPLY.NvPublic, TPM_NV_READ_PUBLIC_REPLY.Name,
    TPM_NV_READ_PUBLIC_REPLY.sizeof, sizeof_TPM2B_DIGEST,
    TPM_NV_WRITE_CMD_BODY.Size, TPM_NV_WRITE_CMD_BODY.Data, TPM_NV_WRITE_CMD_FOOTER.Offset,
    TPM_NV_WRITE_CMD_FOOTER.sizeof, TPM_NV_READ_CMD_FOOTER.Size, TPM_NV_READ_CMD_FOOTER.Offset,
    TPM_NV_READ_CMD_FOOTER.sizeof, TPM_NV_READ_REPLY.Header, TPM_NV_READ_REPLY.ParameterSize,
    TPM_NV_READ_REPLY.DataSize, TPM_NV_READ_REPLY.Data,
    TPM_CMD_HEADER.sizeof, TPM_CMD_HEADER.CommandCode, TPM_CMD_HEADER.Size,
    TPM_CMD_HEADER.SessionTag, TPM_REPLY_HEADER.sizeof, TPM_REPLY_HEADER.ResponseCode,
    TPM_REPLY_HEADER.Size, TPM_REPLY_HEADER.SessionTag, TPMS_AUTH_RESPONSE_NO_NONCE.sizeof,
    TPMS_AUTH_RESPONSE_NO_NONCE.HmacSize, TPMS_AUTH_RESPONSE_NO_NONCE.SessionAttributes,
    TPMS_AUTH_RESPONSE_NO_NONCE.NonceSize,
    TPMS_AUTH_COMMAND_NO_NONCE.SessionSize, TPMS_AUTH_COMMAND_NO_NONCE.SessionHandle,
    TPMS_AUTH_COMMAND_NO_NONCE.NonceSize, TPMS_AUTH_COMMAND_NO_NONCE.SessionAttributes,
    TPMS_AUTH_COMMAND_NO_NONCE.PasswordSize, TPMS_AUTH_COMMAND_NO_NONCE.Password,
    TPMS_AUTH_COMMAND_NO_NONCE.sizeof,
    sizeof_uint16, sizeof_uint32, sizeof_uint8, sizeof_TPM_HANDLE, sizeof_TPM_CAP,
    TPM_ST_SESSIONS, TPM_ST_NO_SESSIONS, TPM_CC_NV_UndefineSpace, TPM_CC_NV_WriteLock,
    TPM_CC_NV_DefineSpace, TPM_CC_NV_Write, TPM_CC_NV_Read, TPM_CC_NV_ReadLock,
    TPM_CC_NV_ReadPublic, TPM_CC_GetCapability, TPM_ALG_SHA256,
    Nat.add_zero, Nat.zero_add, Nat.reduceAdd, Nat.reduceMul, Nat.reduceSub,
    TpmpFillCommandHeader_eq, store32_OsSwap32, store16_OsSwap16, store16_zero, copyLoop_eq,
    ite_storeBytes_be32, hn]
  rw [storeBytes_merge _ _ _ _ _ (by simp),
    storeBytes_alloca _ _ (by simp)]
  simp [toUint32]

theorem TpmNvEnumerate2_call_eq :
    TpmNvEnumerate2_call =
      { Command := (headerBytes 0x8001 22 0x17A ++ be32 1 ++ be32 0x01000000 ++
          be32 254).map some
        InLength := 22
        OutLength := 1035 } := by
  rfl

/-! ## Attribute bits -/



theorem beq_flag (x k : Nat) : (x &&& 2 ^ k == 2 ^ k) = x.testBit k := by
  rw [Nat.land_comm, Nat.two_pow_and]
  cases x.testBit k
  · have : (2 : Nat) ^ k ≠ 0 := by positivity
    simp [this]
    exact fun h => this h.symm
  · simp

theorem testBit_toNat_mul (b : Bool) (k j : Nat) :
    (b.toNat * 2 ^ k).testBit j = (b && decide (k = j)) := by
  cases b
  · simp
  · simp [Nat.testBit_two_pow]

theorem TPMA_NV_pow :
    TPMA_NV_OWNERWRITE = 2 ^ 1 ∧ TPMA_NV_AUTHWRITE = 2 ^ 2 ∧ TPMA_NV_POLICY_DELETE = 2 ^ 10 ∧
    TPMA_NV_WRITELOCKED = 2 ^ 11 ∧ TPMA_NV_WRITEALL = 2 ^ 12 ∧ TPMA_NV_WRITEDEFINE = 2 ^ 13 ∧
    TPMA_NV_WRITE_STCLEAR = 2 ^ 14 ∧ TPMA_NV_OWNERREAD = 2 ^ 17 ∧ TPMA_NV_AUTHREAD = 2 ^ 18 ∧
    TPMA_NV_NO_DA = 2 ^ 25 ∧ TPMA_NV_ORDERLY = 2 ^ 26 ∧ TPMA_NV_CLEAR_STCLEAR = 2 ^ 27 ∧
    TPMA_NV_READLOCKED = 2 ^ 28 ∧ TPMA_NV_WRITTEN = 2 ^ 29 ∧ TPMA_NV_PLATFORMCREATE = 2 ^ 30 ∧
    TPMA_NV_READ_STCLEAR = 2 ^ 31 := by decide

theorem TpmTool_pow :
    TpmToolReadAccess = 2 ^ 0 ∧ TpmToolWriteAccess = 2 ^ 1 ∧
    TpmToolReadLockable = 2 ^ 0 ∧ TpmToolWriteLockable = 2 ^ 1 ∧ TpmToolWriteOnce = 2 ^ 2 ∧
    TpmToolWriteAll = 2 ^ 3 ∧ TpmToolNonProtected = 2 ^ 4 ∧ TpmToolCached = 2 ^ 5 ∧
    TpmToolVolatileDirtyFlag = 2 ^ 6 ∧ TpmToolPermanent = 2 ^ 7 ∧ TpmToolReadLocked = 2 ^ 8 ∧
    TpmToolWriteLocked = 2 ^ 9 ∧ TpmToolWritten = 2 ^ 10 ∧ TpmToolPlatformOwned = 2 ^ 11 := by
  decide

/-- Bit `j` of the mask built by `TpmDefineSpace2`. -/
theorem nvAttributes_testBit (a o u j : Nat) :
    (TpmDefineSpace2_nvAttributes a o u).testBit j =
      ((o.testBit 0 && decide (17 = j)) || (o.testBit 1 && decide (1 = j)) ||
        (u.testBit 0 && decide (18 = j)) || (u.testBit 1 && decide (2 = j)) ||
        ((a.testBit 0 && decide (31 = j)) || (a.testBit 1 && decide (14 = j)) ||
          (a.testBit 2 && decide (13 = j)) || (a.testBit 3 && decide (12 = j)) ||
          (a.testBit 4 && decide (25 = j)) || (a.testBit 5 && decide (26 = j)) ||
          (a.testBit 6 && decide (27 = j)) || (a.testBit 7 && decide (10 = j)))) := by
  obtain ⟨k1, k2, k10, k11, k12, k13, k14, k17, k18, k25, k26, k27, k28, k29, k30, k31⟩ :=
    TPMA_NV_pow
  obtain ⟨r0, r1, t0, t1, t2, t3, t4, t5, t6, t7, t8, t9, t10, t11⟩ := TpmTool_pow
  simp only [TpmDefineSpace2_nvAttributes, k1, k2, k10, k12, k13, k14, k17, k18, k25, k26, k27,
    k31, r0, r1, t0, t1, t2, t3, t4, t5, t6, t7, beq_flag, Nat.testBit_or, testBit_toNat_mul]

/-- Bit `i` of the value `TpmReadPublic2` stores in `*Attributes`. -/
theorem Attributes_testBit (m i : Nat) :
    (TpmReadPublic2_Attributes m).testBit i =
      (decide (i < 16) &&
        ((m.testBit 31 && decide (0 = i)) || (m.testBit 14 && decide (1 = i)) ||
          (m.testBit 13 && decide (2 = i)) || (m.testBit 12 && decide (3 = i)) ||
          (m.testBit 25 && decide (4 = i)) || (m.testBit 26 && decide (5 = i)) ||
          (m.testBit 27 && decide (6 = i)) || (m.testBit 10 && decide (7 = i)) ||
          (m.testBit 28 && decide (8 = i)) || (m.testBit 11 && decide (9 = i)) ||
          (m.testBit 29 && decide (10 = i)) || (m.testBit 30 && decide (11 = i)))) := by
  obtain ⟨k1, k2, k10, k11, k12, k13, k14, k17, k18, k25, k26, k27, k28, k29, k30, k31⟩ :=
    TPMA_NV_pow
  obtain ⟨r0, r1, t0, t1, t2, t3, t4, t5, t6, t7, t8, t9, t10, t11⟩ := TpmTool_pow
  have h16 : (65536 : Nat) = 2 ^ 16 := by decide
  simp only [TpmReadPublic2_Attributes, k10, k11, k12, k13, k14, k25, k26, k27, k28, k29, k30,
    k31, t0, t1, t2, t3, t4, t5, t6, t7, t8, t9, t10, t11, h16, beq_flag, Nat.testBit_or,
    testBit_toNat_mul, Nat.testBit_mod_two_pow]



theorem and_pow_ne_zero (x k : Nat) : x &&& 2 ^ k ≠ 0 ↔ x.testBit k = true := by
  rw [Nat.land_comm, Nat.two_pow_and]
  cases x.testBit k <;> simp

theorem and_pow_eq (x k : Nat) : x &&& 2 ^ k = 2 ^ k ↔ x.testBit k = true := by
  rw [← beq_flag]; simp

theorem nvAttributes_and_mask (a o u : Nat) :
    TpmDefineSpace2_nvAttributes a o u &&& 0x8E067406 = TpmDefineSpace2_nvAttributes a o u := by
  have hM : (0x8E067406 : Nat) = 2 ^ 17 ||| 2 ^ 1 ||| 2 ^ 18 ||| 2 ^ 2 ||| 2 ^ 31 ||| 2 ^ 14 |||
      2 ^ 13 ||| 2 ^ 12 ||| 2 ^ 25 ||| 2 ^ 26 ||| 2 ^ 27 ||| 2 ^ 10 := by decide
  apply Nat.eq_of_testBit_eq
  intro j
  rw [Nat.testBit_and, nvAttributes_testBit, hM]
  simp only [Nat.testBit_or, Nat.testBit_two_pow]
  by_cases h17 : 17 = j
  · subst h17; simp
  by_cases h1 : 1 = j
  · subst h1; simp
  by_cases h18 : 18 = j
  · subst h18; simp
  by_cases h2 : 2 = j
  · subst h2; simp
  by_cases h31 : 31 = j
  · subst h31; simp
  by_cases h14 : 14 = j
  · subst h14; simp
  by_cases h13 : 13 = j
  · subst h13; simp
  by_cases h12 : 12 = j
  · subst h12; simp
  by_cases h25 : 25 = j
  · subst h25; simp
  by_cases h26 : 26 = j
  · subst h26; simp
  by_cases h27 : 27 = j
  · subst h27; simp
  by_cases h10 : 10 = j
  · subst h10; simp
  simp [h17, h1, h18, h2, h31, h14, h13, h12, h25, h26, h27, h10]

theorem OwnerRights_testBit (m i : Nat) :
    (TpmReadPublic2_OwnerRights m).testBit i =
      (decide (i < 8) &&
        ((m.testBit 17 && decide (0 = i)) || (m.testBit 1 && decide (1 = i)))) := by
  obtain ⟨k1, k2, k10, k11, k12, k13, k14, k17, k18, k25, k26, k27, k28, k29, k30, k31⟩ :=
    TPMA_NV_pow
  obtain ⟨r0, r1, t0, t1, t2, t3, t4, t5, t6, t7, t8, t9, t10, t11⟩ := TpmTool_pow
  have h8 : (256 : Nat) = 2 ^ 8 := by decide
  simp only [TpmReadPublic2_OwnerRights, k1, k17, r0, r1, h8, beq_flag, Nat.testBit_or,
    testBit_toNat_mul, Nat.testBit_mod_two_pow]

theorem AuthRights_testBit (m i : Nat) :
    (TpmReadPublic2_AuthRights m).testBit i =
      (decide (i < 8) &&
        ((m.testBit 18 && decide (0 = i)) || (m.testBit 2 && decide (1 = i)))) := by
  obtain ⟨k1, k2, k10, k11, k12, k13, k14, k17, k18, k25, k26, k27, k28, k29, k30, k31⟩ :=
    TPMA_NV_pow
  obtain ⟨r0, r1, t0, t1, t2, t3, t4, t5, t6, t7, t8, t9, t10, t11⟩ := TpmTool_pow
  have h8 : (256 : Nat) = 2 ^ 8 := by decide
  simp only [TpmReadPublic2_AuthRights, k2, k18, r0, r1, h8, beq_flag, Nat.testBit_or,
    testBit_toNat_mul, Nat.testBit_mod_two_pow]

theorem testBit_false_of_lt (x n i : Nat) (h : x < 2 ^ n) (hi : n ≤ i) : x.testBit i = false :=
  Nat.testBit_lt_two_pow (lt_of_lt_of_le h (Nat.pow_le_pow_right (by decide) hi))

theorem roundTrip_Attributes (a o u : Nat) (ha : a < 256) :
    TpmReadPublic2_Attributes (TpmDefineSpace2_nvAttributes a o u) = a := by
  apply Nat.eq_of_testBit_eq
  intro i
  rw [Attributes_testBit]
  simp only [nvAttributes_testBit]
  by_cases hi : i < 8
  · interval_cases i <;> simp
  · have := testBit_false_of_lt a 8 i ha (by omega)
    have h0 : ¬ 0 = i := by omega
    have h1 : ¬ 1 = i := by omega
    have h2 : ¬ 2 = i := by omega
    have h3 : ¬ 3 = i := by omega
    have h4 : ¬ 4 = i := by omega
    have h5 : ¬ 5 = i := by omega
    have h6 : ¬ 6 = i := by omega
    have h7 : ¬ 7 = i := by omega
    simp [this, h0, h1, h2, h3, h4, h5, h6, h7]

theorem roundTrip_OwnerRights (a o u : Nat) (ho : o < 4) :
    TpmReadPublic2_OwnerRights (TpmDefineSpace2_nvAttributes a o u) = o := by
  apply Nat.eq_of_testBit_eq
  intro i
  rw [OwnerRights_testBit]
  simp only [nvAttributes_testBit]
  by_cases hi : i < 2
  · interval_cases i <;> simp
  · have := testBit_false_of_lt o 2 i ho (by omega)
    have h0 : ¬ 0 = i := by omega
    have h1 : ¬ 1 = i := by omega
    simp [this, h0, h1]

theorem roundTrip_AuthRights (a o u : Nat) (hu : u < 4) :
    TpmReadPublic2_AuthRights (TpmDefineSpace2_nvAttributes a o u) = u := by
  apply Nat.eq_of_testBit_eq
  intro i
  rw [AuthRights_testBit]
  simp only [nvAttributes_testBit]
  by_cases hi : i < 2
  · interval_cases i <;> simp
  · have := testBit_false_of_lt u 2 i hu (by omega)
    have h0 : ¬ 0 = i := by omega
    have h1 : ¬ 1 = i := by omega
    simp [this, h0, h1]

/-! ## Fields of a command block -/

theorem wire32_at (m A C : Buffer) (rest : List Nat) (x off : Nat)
    (hm : m = A ++ (be32 x ++ rest).map some ++ C) (hoff : A.length = off)
    (hx : x < 4294967296) : wire32 m off = some x := by
  have hd : m.drop off = (be32 x ++ rest).map some ++ C := by
    rw [hm, ← hoff]; simp
  have hv := beValue_be32 x hx
  simp only [be32] at hv
  simp [wire32, hd, be32, hv]

theorem wire32_of_eq (m : Buffer) (A rest : List Nat) (x off : Nat)
    (hm : m = (A ++ be32 x ++ rest).map some) (hoff : A.length = off)
    (hx : x < 4294967296) : wire32 m off = some x :=
  wire32_at m (A.map some) [] rest x off (by simp [hm]) (by simp [hoff]) hx

theorem wire32_intro (m : Buffer) (bytes : List Nat) (off x : Nat) (hc : m = bytes.map some)
    (hf : (bytes.drop off).take 4 = be32 x) (hx : x < 4294967296) : wire32 m off = some x := by
  have h4 : off + 4 ≤ bytes.length := by
    have := congrArg List.length hf
    simp at this
    omega
  have hb : bytes = bytes.take off ++ be32 x ++ (bytes.drop off).drop 4 := by
    rw [← hf, List.append_assoc, List.take_append_drop, List.take_append_drop]
  exact wire32_of_eq _ (bytes.take off) ((bytes.drop off).drop 4) x _ (by rw [hc, ← hb])
    (by simp; omega) hx

theorem sizeExact_intro (c : OsCall) (bytes : List Nat) (n : Nat)
    (hc : c.Command = bytes.map some) (hi : c.InLength = n) (hlen : bytes.length = n)
    (hsz : (bytes.drop 2).take 4 = be32 n) (hn : n < 4294967296) : c.SizeExact := by
  refine ⟨?_, ?_, ?_⟩
  · rw [hc, hi]; simpa using hlen
  · intro cell hcell
    rw [hc] at hcell
    obtain ⟨b, _, rfl⟩ := List.mem_map.1 hcell
    simp
  · rw [hi]
    exact wire32_intro _ bytes _ n hc hsz hn

/-- The session written inside a block: the cells it covers hold the session bytes, the others
are untouched, and the returned pointer is the end of the session. -/
theorem TpmpFillAuthSession_splice (m : Buffer) (a L : Nat) (p : List Nat) (hL : L ≤ 65535)
    (hp : p.length = L) (hm : a + (13 + L) ≤ m.length) :
    TpmpFillAuthSession m a L p =
      (m.take a ++ (sessionBytes L p).map some ++ m.drop (a + (13 + L)), a + (13 + L)) := by
  subst hp
  rw [TpmpFillAuthSession_eq _ _ _ _ hL, readBytes_length,
    storeBytes_splice _ _ _ (by simpa using hm)]
  simp [Nat.add_assoc]

/-! ## The claims -/

/-- C1: for each of the eight command encoders and every input with a 16-bit password length
and a 16-bit data length, the command block has exactly the length passed to the transport,
every byte of it is written, and the big-endian size field at bytes 2..5 of the header holds
that length. -/
theorem command_size_field_exact (HandleIndex SpaceSize Attributes OwnerRights AuthRights Offset
    AuthorizationSize DataSize : Nat) (AuthorizationData Data : List Nat)
    (hAuth : AuthorizationSize ≤ 65535) (hData : DataSize ≤ 65535) :
    (TpmDefineSpace2_call HandleIndex SpaceSize Attributes OwnerRights AuthRights
      AuthorizationSize AuthorizationData).SizeExact ∧
    (TpmUndefineSpace2_call HandleIndex).SizeExact ∧
    (TpmNvRead2_call HandleIndex AuthorizationSize AuthorizationData Offset
      DataSize).SizeExact ∧
    (TpmNvWrite2_call HandleIndex AuthorizationSize AuthorizationData Offset DataSize
      Data).SizeExact ∧
    (TpmReadLock2_call HandleIndex AuthorizationSize AuthorizationData).SizeExact ∧
    (TpmWriteLock2_call HandleIndex AuthorizationSize AuthorizationData).SizeExact ∧
    (TpmReadPublic2_call HandleIndex).SizeExact ∧
    TpmNvEnumerate2_call.SizeExact := by
  refine ⟨?_, ?_, ?_, ?_, ?_, ?_, ?_, ?_⟩
  · have h := TpmDefineSpace2_call_eq HandleIndex SpaceSize Attributes OwnerRights AuthRights
      AuthorizationSize AuthorizationData hAuth
    exact sizeExact_intro _ _ (45 + AuthorizationSize) (congrArg OsCall.Command h)
      (congrArg OsCall.InLength h) (by simp; omega) (by simp [headerBytes, be16]) (by omega)
  · have h := TpmUndefineSpace2_call_eq HandleIndex
    exact sizeExact_intro _ _ 31 (congrArg OsCall.Command h) (congrArg OsCall.InLength h)
      (by simp) (by simp [headerBytes, be16]) (by omega)
  · have h := TpmNvRead2_call_eq HandleIndex AuthorizationSize AuthorizationData Offset DataSize
      hAuth hData
    exact sizeExact_intro _ _ (35 + AuthorizationSize) (congrArg OsCall.Command h)
      (congrArg OsCall.InLength h) (by simp; omega) (by simp [headerBytes, be16]) (by omega)
  · have h := TpmNvWrite2_call_eq HandleIndex AuthorizationSize AuthorizationData Offset
      DataSize Data hAuth hData
    exact sizeExact_intro _ _ (35 + AuthorizationSize + DataSize) (congrArg OsCall.Command h)
      (congrArg OsCall.InLength h) (by simp; omega) (by simp [headerBytes, be16]) (by omega)
  · have h := TpmpLock2_call_eq HandleIndex false AuthorizationSize AuthorizationData hAuth
    exact sizeExact_intro _ _ (31 + AuthorizationSize) (congrArg OsCall.Command h)
      (congrArg OsCall.InLength h) (by simp; omega) (by simp [headerBytes, be16]) (by omega)
  · have h := TpmpLock2_call_eq HandleIndex true AuthorizationSize AuthorizationData hAuth
    exact sizeExact_intro _ _ (31 + AuthorizationSize) (congrArg OsCall.Command h)
      (congrArg OsCall.InLength h) (by simp; omega) (by simp [headerBytes, be16]) (by omega)
  · have h := TpmReadPublic2_call_eq HandleIndex
    exact sizeExact_intro _ _ 14 (congrArg OsCall.Command h) (congrArg OsCall.InLength h)
      (by simp) (by simp [headerBytes, be16]) (by omega)
  · have h := TpmNvEnumerate2_call_eq
    exact sizeExact_intro _ _ 22 (congrArg OsCall.Command h) (congrArg OsCall.InLength h)
      (by simp) (by simp [headerBytes, be16]) (by omega)

theorem command_size_field_exact_witness :
    (6 : Nat) ≤ 65535 ∧ (8 : Nat) ≤ 65535 ∧
    (TpmNvWrite2_call 0x01000001 6 [115, 101, 99, 114, 101, 116] 16 8
      [0xAA, 0xAA, 0xAA, 0xAA, 0xAA, 0xAA, 0xAA, 0xAA]).SizeExact :=
  ⟨by decide, by decide,
    (command_size_field_exact 0x01000001 64 1 3 0 16 6 8 [115, 101, 99, 114, 101, 116]
      [0xAA, 0xAA, 0xAA, 0xAA, 0xAA, 0xAA, 0xAA, 0xAA] (by decide) (by decide)).2.2.2.1⟩

/-- C2: for every password `p` of length `L ≤ 65535`, `TpmpFillAuthSession` writes, at the
session offset of any block that has room for it, a block of exactly `13 + L` bytes (the
returned pointer is its end, every cell of it is written, the cells before and after it are
untouched) whose first four bytes are the big-endian encoding of `(13 + L) - 4 = 9 + L`. -/
theorem session_size_field (m : Buffer) (AuthSession L : Nat) (p : List Nat)
    (hL : L ≤ 65535) (hp : p.length = L) (hm : AuthSession + (13 + L) ≤ m.length) :
    (TpmpFillAuthSession m AuthSession L p).2 = AuthSession + (13 + L) ∧
    (TpmpFillAuthSession m AuthSession L p).1.length = m.length ∧
    (TpmpFillAuthSession m AuthSession L p).1.take AuthSession = m.take AuthSession ∧
    (TpmpFillAuthSession m AuthSession L p).1.drop (AuthSession + (13 + L)) =
      m.drop (AuthSession + (13 + L)) ∧
    (∀ cell ∈ ((TpmpFillAuthSession m AuthSession L p).1.drop AuthSession).take (13 + L),
      cell ≠ none) ∧
    wire32 (TpmpFillAuthSession m AuthSession L p).1 AuthSession = some ((13 + L) - 4) ∧
    (13 + L) - 4 = 9 + L := by
  have hlen : (m.take AuthSession).length = AuthSession := by simp; omega
  have hs : (sessionBytes L p).length = 13 + L := by simp [hp]
  rw [TpmpFillAuthSession_splice m AuthSession L p hL hp hm]
  refine ⟨rfl, ?_, ?_, ?_, ?_, ?_, by omega⟩
  · simp [hp]; omega
  · rw [List.append_assoc, List.take_left' hlen]
  · rw [List.drop_left' (by simp [hlen, hs])]
  · intro cell hcell
    rw [List.append_assoc, List.drop_left' hlen, List.take_left' (by simp [hs])] at hcell
    obtain ⟨b, _, rfl⟩ := List.mem_map.1 hcell
    simp
  · exact wire32_at _ (m.take AuthSession) (m.drop (AuthSession + (13 + L)))
      (be32 0x40000009 ++ be16 0 ++ [0] ++ be16 L ++ p) ((13 + L) - 4) AuthSession
      (by simp [sessionBytes, show 13 + L - 4 = 9 + L by omega]) hlen (by omega)

theorem session_size_field_witness :
    (6 : Nat) ≤ 65535 ∧ [115, 101, 99, 114, 101, 116].length = 6 ∧
    18 + (13 + 6) ≤ (alloca 41).length ∧
    wire32 (TpmpFillAuthSession (alloca 41) 18 6 [115, 101, 99, 114, 101, 116]).1 18 =
      some ((13 + 6) - 4) :=
  ⟨by decide, by decide, by decide,
    (session_size_field (alloca 41) 18 6 [115, 101, 99, 114, 101, 116] (by decide) (by decide)
      (by decide)).2.2.2.2.2.1⟩

/-- C3: for every password `p` of length `L ≤ 65535`, the cells `TpmpFillAuthSession` leaves
at the session offset are exactly `be32(9+L) ++ be32(0x40000009) ++ be16(0) ++ [0x00] ++
be16(L) ++ p`, the rest of the block being untouched: the session handle is `TPM_RS_PW`, the
nonce size and the session attributes are zero, the password size is `L` and the password
bytes follow unmodified and in order. -/
theorem session_block_bytes (m : Buffer) (AuthSession L : Nat) (p : List Nat)
    (hL : L ≤ 65535) (hp : p.length = L) (hm : AuthSession + (13 + L) ≤ m.length) :
    (TpmpFillAuthSession m AuthSession L p).1 =
      m.take AuthSession ++
      (be32 (9 + L) ++ be32 0x40000009 ++ be16 0 ++ [0x00] ++ be16 L ++ p).map some ++
      m.drop (AuthSession + (13 + L)) ∧
    TPM_RS_PW = 0x40000009 := by
  rw [TpmpFillAuthSession_splice m AuthSession L p hL hp hm]
  exact ⟨rfl, by decide⟩

theorem session_block_bytes_witness :
    (6 : Nat) ≤ 65535 ∧ [115, 101, 99, 114, 101, 116].length = 6 ∧
    0 + (13 + 6) ≤ (alloca 19).length ∧
    (TpmpFillAuthSession (alloca 19) 0 6 [115, 101, 99, 114, 101, 116]).1 =
      (alloca 19).take 0 ++
      (be32 (9 + 6) ++ be32 0x40000009 ++ be16 0 ++ [0x00] ++ be16 6 ++
        [115, 101, 99, 114, 101, 116]).map some ++
      (alloca 19).drop (0 + (13 + 6)) :=
  ⟨by decide, by decide, by decide,
    (session_block_bytes (alloca 19) 0 6 [115, 101, 99, 114, 101, 116] (by decide) (by decide)
      (by decide)).1⟩

/-- C4: in the commands of `TpmNvRead2`, `TpmNvWrite2`, `TpmReadLock2` and `TpmWriteLock2`, for
every index handle and every 16-bit password length, the authorization handle (bytes 10..13,
big-endian) is the owner handle `0x40000001` when the password length is zero and the index
handle itself otherwise. -/
theorem auth_handle_selection (HandleIndex Offset AuthorizationSize DataSize : Nat)
    (AuthorizationData Data : List Nat) (hH : HandleIndex < 4294967296)
    (hAuth : AuthorizationSize ≤ 65535) (hData : DataSize ≤ 65535) :
    wire32 (TpmNvRead2_call HandleIndex AuthorizationSize AuthorizationData Offset
      DataSize).Command 10 =
      some (if AuthorizationSize = 0 then TPM_RH_OWNER else HandleIndex) ∧
    wire32 (TpmNvWrite2_call HandleIndex AuthorizationSize AuthorizationData Offset DataSize
      Data).Command 10 =
      some (if AuthorizationSize = 0 then TPM_RH_OWNER else HandleIndex) ∧
    wire32 (TpmReadLock2_call HandleIndex AuthorizationSize AuthorizationData).Command 10 =
      some (if AuthorizationSize = 0 then TPM_RH_OWNER else HandleIndex) ∧
    wire32 (TpmWriteLock2_call HandleIndex AuthorizationSize AuthorizationData).Command 10 =
      some (if AuthorizationSize = 0 then TPM_RH_OWNER else HandleIndex) ∧
    TPM_RH_OWNER = 0x40000001 := by
  have hown : TPM_RH_OWNER = 0x40000001 := by decide
  have hx : (if AuthorizationSize = 0 then 0x40000001 else HandleIndex) < 4294967296 := by
    split <;> omega
  rw [hown]
  refine ⟨?_, ?_, ?_, ?_, rfl⟩
  · have h := TpmNvRead2_call_eq HandleIndex AuthorizationSize AuthorizationData Offset DataSize
      hAuth hData
    exact wire32_intro _ _ 10 _ (congrArg OsCall.Command h)
      (by simp [headerBytes, be16, be32]) hx
  · have h := TpmNvWrite2_call_eq HandleIndex AuthorizationSize AuthorizationData Offset
      DataSize Data hAuth hData
    exact wire32_intro _ _ 10 _ (congrArg OsCall.Command h)
      (by simp [headerBytes, be16, be32]) hx
  · have h := TpmpLock2_call_eq HandleIndex false AuthorizationSize AuthorizationData hAuth
    exact wire32_intro _ _ 10 _ (congrArg OsCall.Command h)
      (by simp [headerBytes, be16, be32]) hx
  · have h := TpmpLock2_call_eq HandleIndex true AuthorizationSize AuthorizationData hAuth
    exact wire32_intro _ _ 10 _ (congrArg OsCall.Command h)
      (by simp [headerBytes, be16, be32]) hx

theorem auth_handle_selection_witness :
    (0x01000001 : Nat) < 4294967296 ∧ (6 : Nat) ≤ 65535 ∧ (8 : Nat) ≤ 65535 ∧
    wire32 (TpmNvWrite2_call 0x01000001 6 [115, 101, 99, 114, 101, 116] 16 8
      [0xAA, 0xAA, 0xAA, 0xAA, 0xAA, 0xAA, 0xAA, 0xAA]).Command 10 =
      some (if 6 = 0 then TPM_RH_OWNER else 0x01000001) :=
  ⟨by decide, by decide, by decide,
    (auth_handle_selection 0x01000001 16 6 8 [115, 101, 99, 114, 101, 116]
      [0xAA, 0xAA, 0xAA, 0xAA, 0xAA, 0xAA, 0xAA, 0xAA] (by decide) (by decide)
      (by decide)).2.1⟩

/-- C5: in the commands of `TpmDefineSpace2` and `TpmUndefineSpace2`, for every input, with a
password of any 16-bit length, empty or not, the authorization handle (bytes 10..13,
big-endian) is the owner handle `0x40000001`. -/
theorem define_undefine_authorize_as_owner (HandleIndex SpaceSize Attributes OwnerRights
    AuthRights AuthorizationSize : Nat) (AuthorizationData : List Nat)
    (hAuth : AuthorizationSize ≤ 65535) :
    wire32 (TpmDefineSpace2_call HandleIndex SpaceSize Attributes OwnerRights AuthRights
      AuthorizationSize AuthorizationData).Command 10 = some 0x40000001 ∧
    wire32 (TpmUndefineSpace2_call HandleIndex).Command 10 = some 0x40000001 ∧
    TPM_RH_OWNER = 0x40000001 := by
  refine ⟨?_, ?_, by decide⟩
  · have h := TpmDefineSpace2_call_eq HandleIndex SpaceSize Attributes OwnerRights AuthRights
      AuthorizationSize AuthorizationData hAuth
    exact wire32_intro _ _ 10 _ (congrArg OsCall.Command h)
      (by simp [headerBytes, be16, be32]) (by omega)
  · have h := TpmUndefineSpace2_call_eq HandleIndex
    exact wire32_intro _ _ 10 _ (congrArg OsCall.Command h)
      (by simp [headerBytes, be16, be32]) (by omega)

theorem define_undefine_authorize_as_owner_witness :
    (6 : Nat) ≤ 65535 ∧
    wire32 (TpmDefineSpace2_call 0x01000001 64 1 3 0 6
      [115, 101, 99, 114, 101, 116]).Command 10 = some 0x40000001 :=
  ⟨by decide,
    (define_undefine_authorize_as_owner 0x01000001 64 1 3 0 6 [115, 101, 99, 114, 101, 116]
      (by decide)).1⟩

theorem flagTerm (x k K : Nat) :
    (x &&& 2 ^ k == 2 ^ k).toNat * K = if x &&& 2 ^ k ≠ 0 then K else 0 := by
  have h := and_pow_ne_zero x k
  rw [beq_flag]
  cases hb : x.testBit k
  · have : ¬ (x &&& 2 ^ k ≠ 0) := by rw [h, hb]; simp
    simp [this]
  · have : x &&& 2 ^ k ≠ 0 := by rw [h, hb]
    simp [this]

theorem nvAttributes_eq_toWireAttributes (a o u : Nat) :
    TpmDefineSpace2_nvAttributes a o u = toWireAttributes a o u := by
  obtain ⟨r0, r1, t0, t1, t2, t3, t4, t5, t6, t7, t8, t9, t10, t11⟩ := TpmTool_pow
  simp only [TpmDefineSpace2_nvAttributes, r0, r1, t0, t1, t2, t3, t4, t5, t6, t7, flagTerm]
  simp only [toWireAttributes, tableOr, ownerRightsTable, authRightsTable, settableTable,
    List.foldl, Nat.reducePow, Nat.zero_or, Nat.or_assoc, TPMA_NV_OWNERREAD,
    TPMA_NV_OWNERWRITE, TPMA_NV_AUTHREAD, TPMA_NV_AUTHWRITE, TPMA_NV_READ_STCLEAR,
    TPMA_NV_WRITE_STCLEAR, TPMA_NV_WRITEDEFINE, TPMA_NV_WRITEALL, TPMA_NV_NO_DA,
    TPMA_NV_ORDERLY, TPMA_NV_CLEAR_STCLEAR, TPMA_NV_POLICY_DELETE]

theorem nvAttributes_lt (a o u : Nat) : TpmDefineSpace2_nvAttributes a o u < 4294967296 := by
  have h := nvAttributes_and_mask a o u
  have := @Nat.and_le_right (TpmDefineSpace2_nvAttributes a o u) 0x8E067406
  omega

theorem and_pow_eq_zero_of_lt (a k j : Nat) (h : a < 2 ^ k) (hj : k ≤ j) : a &&& 2 ^ j = 0 := by
  have := and_pow_ne_zero a j
  rw [testBit_false_of_lt a k j h hj] at this
  simpa using this

theorem status_flags_iff (m : Nat) :
    (TpmReadPublic2_Attributes m &&& TpmToolReadLocked ≠ 0 ↔ m &&& TPMA_NV_READLOCKED ≠ 0) ∧
    (TpmReadPublic2_Attributes m &&& TpmToolWriteLocked ≠ 0 ↔
      m &&& TPMA_NV_WRITELOCKED ≠ 0) ∧
    (TpmReadPublic2_Attributes m &&& TpmToolWritten ≠ 0 ↔ m &&& TPMA_NV_WRITTEN ≠ 0) ∧
    (TpmReadPublic2_Attributes m &&& TpmToolPlatformOwned ≠ 0 ↔
      m &&& TPMA_NV_PLATFORMCREATE ≠ 0) := by
  obtain ⟨k1, k2, k10, k11, k12, k13, k14, k17, k18, k25, k26, k27, k28, k29, k30, k31⟩ :=
    TPMA_NV_pow
  obtain ⟨r0, r1, t0, t1, t2, t3, t4, t5, t6, t7, t8, t9, t10, t11⟩ := TpmTool_pow
  rw [t8, t9, t10, t11, k28, k11, k29, k30]
  simp only [and_pow_ne_zero, Attributes_testBit]
  simp

/-- C6: for every attribute value and rights values, the bitmask `TpmDefineSpace2` computes
is the bitwise OR the specification gives: `OWNERREAD`, `OWNERWRITE`, `AUTHREAD`, `AUTHWRITE`
for the read and write bits of the owner and authorization rights, and one protocol bit for
each of the eight settable flags.  That bitmask is the big-endian attributes field of the
command, whatever the password.  The twelve protocol bits are single bits at pairwise distinct
positions, and read-lockable with owner read+write and no authorization rights gives
`0x80020002`. -/
theorem define_attribute_mask (HandleIndex SpaceSize Attributes OwnerRights AuthRights
    AuthorizationSize : Nat) (AuthorizationData : List Nat)
    (hAuth : AuthorizationSize ≤ 65535) :
    TpmDefineSpace2_nvAttributes Attributes OwnerRights AuthRights =
      toWireAttributes Attributes OwnerRights AuthRights ∧
    wire32 (TpmDefineSpace2_call HandleIndex SpaceSize Attributes OwnerRights AuthRights
      AuthorizationSize AuthorizationData).Command (37 + AuthorizationSize) =
      some (toWireAttributes Attributes OwnerRights AuthRights) ∧
    protocolBits = [17, 1, 18, 2, 31, 14, 13, 12, 25, 26, 27, 10].map (fun k => 2 ^ k) ∧
    [17, 1, 18, 2, 31, 14, 13, 12, 25, 26, 27, 10].Nodup ∧
    TpmDefineSpace2_nvAttributes TpmToolReadLockable TpmToolReadWriteAccess TpmToolNoAccess =
      0x80020002 ∧
    wire32 (TpmDefineSpace2_call 0x01000001 64 TpmToolReadLockable TpmToolReadWriteAccess
      TpmToolNoAccess 0 []).Command 37 = some 0x80020002 := by
  have h := TpmDefineSpace2_call_eq HandleIndex SpaceSize Attributes OwnerRights AuthRights
    AuthorizationSize AuthorizationData hAuth
  refine ⟨nvAttributes_eq_toWireAttributes _ _ _, ?_, by decide, by decide, by decide,
    by decide⟩
  rw [← nvAttributes_eq_toWireAttributes]
  exact wire32_of_eq _
    (headerBytes 0x8002 (45 + AuthorizationSize) 0x12A ++ be32 0x40000001 ++
      sessionBytes 0 [] ++ be16 AuthorizationSize ++
      readBytes AuthorizationData AuthorizationSize ++ be16 14 ++ be32 HandleIndex ++
      be16 0x000B)
    (be16 0 ++ be16 SpaceSize) _ _
    (by rw [h]; simp only [List.append_assoc])
    (by simp; omega) (nvAttributes_lt _ _ _)

theorem define_attribute_mask_witness :
    (6 : Nat) ≤ 65535 ∧
    TpmDefineSpace2_nvAttributes 0xA5 3 1 = toWireAttributes 0xA5 3 1 ∧
    wire32 (TpmDefineSpace2_call 0x01000001 64 0xA5 3 1 6
      [115, 101, 99, 114, 101, 116]).Command (37 + 6) = some (toWireAttributes 0xA5 3 1) :=
  ⟨by decide,
    (define_attribute_mask 0x01000001 64 0xA5 3 1 6 [115, 101, 99, 114, 101, 116]
      (by decide)).1,
    (define_attribute_mask 0x01000001 64 0xA5 3 1 6 [115, 101, 99, 114, 101, 116]
      (by decide)).2.1⟩

/-- C7: for each of the 256 values of the eight settable flags and all owner and
authorization rights in 0..3, decoding with the conversion of `TpmReadPublic2` the bitmask
that the conversion of `TpmDefineSpace2` produces returns the same flags and the same rights,
with the four status flags clear. -/
theorem attribute_round_trip (Attributes OwnerRights AuthRights : Nat)
    (hA : Attributes < 256) (hO : OwnerRights < 4) (hU : AuthRights < 4) :
    TpmReadPublic2_Attributes
      (TpmDefineSpace2_nvAttributes Attributes OwnerRights AuthRights) = Attributes ∧
    TpmReadPublic2_OwnerRights
      (TpmDefineSpace2_nvAttributes Attributes OwnerRights AuthRights) = OwnerRights ∧
    TpmReadPublic2_AuthRights
      (TpmDefineSpace2_nvAttributes Attributes OwnerRights AuthRights) = AuthRights ∧
    (∀ status ∈ [TpmToolReadLocked, TpmToolWriteLocked, TpmToolWritten, TpmToolPlatformOwned],
      TpmReadPublic2_Attributes
        (TpmDefineSpace2_nvAttributes Attributes OwnerRights AuthRights) &&& status = 0) := by
  obtain ⟨r0, r1, t0, t1, t2, t3, t4, t5, t6, t7, t8, t9, t10, t11⟩ := TpmTool_pow
  refine ⟨roundTrip_Attributes _ _ _ hA, roundTrip_OwnerRights _ _ _ hO,
    roundTrip_AuthRights _ _ _ hU, ?_⟩
  rw [roundTrip_Attributes _ _ _ hA]
  intro status hs
  simp only [List.mem_cons, List.mem_singleton, List.not_mem_nil, or_false] at hs
  rcases hs with rfl | rfl | rfl | rfl
  · rw [t8]; exact and_pow_eq_zero_of_lt _ 8 8 hA (by omega)
  · rw [t9]; exact and_pow_eq_zero_of_lt _ 8 9 hA (by omega)
  · rw [t10]; exact and_pow_eq_zero_of_lt _ 8 10 hA (by omega)
  · rw [t11]; exact and_pow_eq_zero_of_lt _ 8 11 hA (by omega)

theorem attribute_round_trip_witness :
    (0xA5 : Nat) < 256 ∧ (3 : Nat) < 4 ∧ (1 : Nat) < 4 ∧
    TpmReadPublic2_Attributes (TpmDefineSpace2_nvAttributes 0xA5 3 1) = 0xA5 ∧
    TpmReadPublic2_OwnerRights (TpmDefineSpace2_nvAttributes 0xA5 3 1) = 3 ∧
    TpmReadPublic2_AuthRights (TpmDefineSpace2_nvAttributes 0xA5 3 1) = 1 :=
  ⟨by decide, by decide, by decide,
    (attribute_round_trip 0xA5 3 1 (by decide) (by decide) (by decide)).1,
    (attribute_round_trip 0xA5 3 1 (by decide) (by decide) (by decide)).2.1,
    (attribute_round_trip 0xA5 3 1 (by decide) (by decide) (by decide)).2.2.1⟩

/-- C8: for every input of the attribute conversion of `TpmDefineSpace2`, no bit of the
bitmask lies outside `0x8E067406`: the type bits, the read-locked, write-locked, written and
platform-create status bits, the platform and policy rights bits, the global lock bit and the
reserved bits are all zero. -/
theorem define_mask_within_settable (Attributes OwnerRights AuthRights : Nat) :
    TpmDefineSpace2_nvAttributes Attributes OwnerRights AuthRights &&& 0x8E067406 =
      TpmDefineSpace2_nvAttributes Attributes OwnerRights AuthRights ∧
    (∀ bit ∈ unsettableBits,
      TpmDefineSpace2_nvAttributes Attributes OwnerRights AuthRights &&& bit = 0) := by
  have h := nvAttributes_and_mask Attributes OwnerRights AuthRights
  have hz : ∀ bit ∈ unsettableBits, 0x8E067406 &&& bit = 0 := by decide
  refine ⟨h, ?_⟩
  intro bit hbit
  rw [← h, Nat.land_assoc, hz bit hbit]
  simp

/-- C9: for every successful ReadPublic reply, with `m` the big-endian attributes field at
reply bytes 18..21, the attributes `TpmReadPublic2` returns have ReadLocked set iff `m` has
`READLOCKED`, WriteLocked iff `WRITELOCKED`, Written iff `WRITTEN` and PlatformOwned iff
`PLATFORMCREATE`; an index whose bitmask lacks `WRITTEN` decodes with the written flag
clear. -/
theorem readPublic_status_flags (TpmOsIssueCommand : Transport) (HandleIndex : Nat)
    (out : ReadPublicOut) (reply : List Nat)
    (hos : TpmOsIssueCommand (TpmReadPublic2_call HandleIndex) = some reply)
    (hb : ∀ b ∈ reply, b < 256) (hrc : reply32 reply 6 = TPM_RC_SUCCESS) :
    (TpmReadPublic2 TpmOsIssueCommand HandleIndex out).1 = TPM_RC_SUCCESS ∧
    ((TpmReadPublic2 TpmOsIssueCommand HandleIndex out).2.Attributes &&&
        TpmToolReadLocked ≠ 0 ↔
      reply32 reply 18 &&& TPMA_NV_READLOCKED ≠ 0) ∧
    ((TpmReadPublic2 TpmOsIssueCommand HandleIndex out).2.Attributes &&&
        TpmToolWriteLocked ≠ 0 ↔
      reply32 reply 18 &&& TPMA_NV_WRITELOCKED ≠ 0) ∧
    ((TpmReadPublic2 TpmOsIssueCommand HandleIndex out).2.Attributes &&& TpmToolWritten ≠ 0 ↔
      reply32 reply 18 &&& TPMA_NV_WRITTEN ≠ 0) ∧
    ((TpmReadPublic2 TpmOsIssueCommand HandleIndex out).2.Attributes &&&
        TpmToolPlatformOwned ≠ 0 ↔
      reply32 reply 18 &&& TPMA_NV_PLATFORMCREATE ≠ 0) ∧
    (reply32 reply 18 &&& TPMA_NV_WRITTEN = 0 →
      (TpmReadPublic2 TpmOsIssueCommand HandleIndex out).2.Attributes &&& TpmToolWritten = 0) := by
  have hcode : TpmReadResponseCode reply = TPM_RC_SUCCESS := by
    rw [TpmReadResponseCode, OsSwap32_load32 reply _ hb]
    exact hrc
  have hattr : (TpmReadPublic2 TpmOsIssueCommand HandleIndex out).2.Attributes =
      TpmReadPublic2_Attributes (reply32 reply 18) := by
    simp only [TpmReadPublic2, hos, hcode, ne_eq, not_true_eq_false, if_false,
      OsSwap32_load32 reply _ hb]
    rfl
  have hres : (TpmReadPublic2 TpmOsIssueCommand HandleIndex out).1 = TPM_RC_SUCCESS := by
    simp only [TpmReadPublic2, hos, hcode, ne_eq, not_true_eq_false, if_false]
  obtain ⟨h1, h2, h3, h4⟩ := status_flags_iff (reply32 reply 18)
  rw [hattr]
  refine ⟨hres, h1, h2, h3, h4, ?_⟩
  intro hz
  by_contra hne
  exact (h3.1 hne) hz

theorem readPublic_status_flags_witness :
    (∀ b ∈ sampleReadPublicReply, b < 256) ∧
    reply32 sampleReadPublicReply 6 = TPM_RC_SUCCESS ∧
    reply32 sampleReadPublicReply 18 = 0xA0020002 ∧
    ((TpmReadPublic2 (fun _ => some sampleReadPublicReply) 0x01000001
        ⟨0, 0, 0, 0⟩).2.Attributes &&& TpmToolWritten ≠ 0 ↔
      reply32 sampleReadPublicReply 18 &&& TPMA_NV_WRITTEN ≠ 0) :=
  ⟨by decide, by decide, by decide,
    (readPublic_status_flags (fun _ => some sampleReadPublicReply) 0x01000001 ⟨0, 0, 0, 0⟩
      sampleReadPublicReply rfl (by decide) (by decide)).2.2.2.1⟩

/-- C10: `OsSwap16` and `OsSwap32` are involutions, so swapping a decoded field back gives the
encoded value: `OsSwap16 (OsSwap16 x) = x` for every 16-bit `x` and
`OsSwap32 (OsSwap32 y) = y` for every 32-bit `y`, the two extreme values included. -/
theorem swap_involution (x y : Nat) (hx : x < 65536) (hy : y < 4294967296) :
    OsSwap16 (OsSwap16 x) = x ∧ OsSwap32 (OsSwap32 y) = y ∧
    OsSwap32 (OsSwap32 0) = 0 ∧ OsSwap32 (OsSwap32 0xFFFFFFFF) = 0xFFFFFFFF :=
  ⟨OsSwap16_OsSwap16 x hx, OsSwap32_OsSwap32 y hy, by decide, by decide⟩

theorem swap_involution_witness :
    (0x1234 : Nat) < 65536 ∧ (0xFFFFFFFF : Nat) < 4294967296 ∧
    OsSwap16 0x1234 = 0x3412 ∧ OsSwap32 0xFFFFFFFF = 0xFFFFFFFF ∧
    OsSwap16 (OsSwap16 0x1234) = 0x1234 ∧ OsSwap32 (OsSwap32 0xFFFFFFFF) = 0xFFFFFFFF :=
  ⟨by decide, by decide, by decide, by decide,
    (swap_involution 0x1234 0xFFFFFFFF (by decide) (by decide)).1,
    (swap_involution 0x1234 0xFFFFFFFF (by decide) (by decide)).2.1⟩

/-- C11: for every session tag, command code and size, `TpmpFillCommandHeader` leaves at the
header offset of a block exactly the ten bytes `be16(tag) ++ be32(size) ++ be32(code)`, the
rest of the block untouched: the tag at bytes 0..1, the total size at bytes 2..5 and the
command code at bytes 6..9, each most significant byte first. -/
theorem command_header_bytes (m : Buffer) (CommandHeader CommandCode SessionTag Size : Nat)
    (hm : CommandHeader + 10 ≤ m.length) (ht : SessionTag < 65536)
    (hs : Size < 4294967296) (hc : CommandCode < 4294967296) :
    TpmpFillCommandHeader m CommandHeader CommandCode SessionTag Size =
      m.take CommandHeader ++
      (be16 SessionTag ++ be32 Size ++ be32 CommandCode).map some ++
      m.drop (CommandHeader + 10) ∧
    TpmpFillCommandHeader (alloca 10) 0 CommandCode SessionTag Size =
      (be16 SessionTag ++ be32 Size ++ be32 CommandCode).map some ∧
    (be16 SessionTag).length = 2 ∧ (be32 Size).length = 4 ∧ (be32 CommandCode).length = 4 ∧
    beValue (be16 SessionTag) = SessionTag ∧ beValue (be32 Size) = Size ∧
    beValue (be32 CommandCode) = CommandCode ∧
    wire32 (TpmpFillCommandHeader m CommandHeader CommandCode SessionTag Size)
      (CommandHeader + 2) = some Size ∧
    wire32 (TpmpFillCommandHeader m CommandHeader CommandCode SessionTag Size)
      (CommandHeader + 6) = some CommandCode := by
  have hlen : (m.take CommandHeader).length = CommandHeader := by simp; omega
  have h1 : TpmpFillCommandHeader m CommandHeader CommandCode SessionTag Size =
      m.take CommandHeader ++
      (be16 SessionTag ++ be32 Size ++ be32 CommandCode).map some ++
      m.drop (CommandHeader + 10) := by
    rw [TpmpFillCommandHeader_eq, storeBytes_splice _ _ _ (by simpa using hm)]
    simp [headerBytes]
  have h2 : TpmpFillCommandHeader (alloca 10) 0 CommandCode SessionTag Size =
      (be16 SessionTag ++ be32 Size ++ be32 CommandCode).map some := by
    rw [TpmpFillCommandHeader_eq, storeBytes_alloca _ _ (by simp)]
    simp [headerBytes]
  refine ⟨h1, h2, rfl, rfl, rfl, beValue_be16 _ ht, beValue_be32 _ hs, beValue_be32 _ hc,
    ?_, ?_⟩
  · rw [h1]
    exact wire32_at _ (m.take CommandHeader ++ (be16 SessionTag).map some)
      (m.drop (CommandHeader + 10)) (be32 CommandCode) Size _ (by simp)
      (by simp [hlen]) hs
  · rw [h1]
    exact wire32_at _ (m.take CommandHeader ++ (be16 SessionTag ++ be32 Size).map some)
      (m.drop (CommandHeader + 10)) [] CommandCode _ (by simp)
      (by simp [hlen]) hc

theorem command_header_bytes_witness :
    4 + 10 ≤ (alloca 20).length ∧ (0x8002 : Nat) < 65536 ∧ (49 : Nat) < 4294967296 ∧
    (0x137 : Nat) < 4294967296 ∧
    TpmpFillCommandHeader (alloca 20) 4 0x137 0x8002 49 =
      (alloca 20).take 4 ++ (be16 0x8002 ++ be32 49 ++ be32 0x137).map some ++
      (alloca 20).drop (4 + 10) :=
  ⟨by decide, by decide, by decide, by decide,
    (command_header_bytes (alloca 20) 4 0x137 0x8002 49 (by decide) (by decide) (by decide)
      (by decide)).1⟩

/-- C12: the total command length is the closed-form sum of the fixed part up to the
password bytes, the password length, the body part up to the data bytes, the data length and
the footer: for all 16-bit lengths `L` and `D`, UndefineSpace has 31 bytes, ReadLock and
WriteLock `31 + L`, Read `31 + L + 4`, Write `31 + L + 2 + D + 2` and DefineSpace
`27 + 0 + 2 + L + 16`, that is 45 with an empty password.  Empty password and data give the
smallest command, and no sum reaches `2 ^ 32`. -/
theorem command_length_closed_form (HandleIndex SpaceSize Attributes OwnerRights AuthRights
    Offset L D : Nat) (p d : List Nat) (hL : L ≤ 65535) (hD : D ≤ 65535) :
    (TpmUndefineSpace2_call HandleIndex).InLength = 31 ∧
    (TpmReadLock2_call HandleIndex L p).InLength = 31 + L ∧
    (TpmWriteLock2_call HandleIndex L p).InLength = 31 + L ∧
    (TpmNvRead2_call HandleIndex L p Offset D).InLength = 31 + L + 4 ∧
    (TpmNvWrite2_call HandleIndex L p Offset D d).InLength = 31 + L + 2 + D + 2 ∧
    (TpmDefineSpace2_call HandleIndex SpaceSize Attributes OwnerRights AuthRights L
      p).InLength = 27 + 0 + 2 + L + 16 ∧
    (TpmDefineSpace2_call HandleIndex SpaceSize Attributes OwnerRights AuthRights 0
      []).InLength = 45 ∧
    TpmEmptyCmdSize 31 L = 31 + L ∧ TpmFixedCmdSize 31 L 4 = 31 + L + 4 ∧
    TpmVariableCmdSize 31 L 2 D 2 = 31 + L + 2 + D + 2 ∧
    TpmVariableCmdSize 27 0 2 L 16 = 27 + 0 + 2 + L + 16 ∧
    (TpmReadLock2_call HandleIndex 0 []).InLength ≤ (TpmReadLock2_call HandleIndex L p).InLength ∧
    (TpmWriteLock2_call HandleIndex 0 []).InLength ≤
      (TpmWriteLock2_call HandleIndex L p).InLength ∧
    (TpmNvRead2_call HandleIndex 0 [] Offset D).InLength ≤
      (TpmNvRead2_call HandleIndex L p Offset D).InLength ∧
    (TpmNvWrite2_call HandleIndex 0 [] Offset 0 []).InLength ≤
      (TpmNvWrite2_call HandleIndex L p Offset D d).InLength ∧
    (TpmDefineSpace2_call HandleIndex SpaceSize Attributes OwnerRights AuthRights 0
      []).InLength ≤
      (TpmDefineSpace2_call HandleIndex SpaceSize Attributes OwnerRights AuthRights L
        p).InLength ∧
    31 + L + 2 + D + 2 < 4294967296 ∧ 27 + 0 + 2 + L + 16 < 4294967296 := by
  have z : (0 : Nat) ≤ 65535 := by omega
  have e1 : (TpmUndefineSpace2_call HandleIndex).InLength = 31 := by
    rw [TpmUndefineSpace2_call_eq]
  have e2 : ∀ (l : Bool) (L : Nat) (p : List Nat), L ≤ 65535 →
      (TpmpLock2_call HandleIndex l L p).InLength = 31 + L := by
    intro l L p h
    rw [TpmpLock2_call_eq _ _ _ _ h]
  have e4 : ∀ (L : Nat) (p : List Nat), L ≤ 65535 →
      (TpmNvRead2_call HandleIndex L p Offset D).InLength = 35 + L := by
    intro L p h
    rw [TpmNvRead2_call_eq _ _ _ _ _ h hD]
  have e5 : ∀ (L D : Nat) (p d : List Nat), L ≤ 65535 → D ≤ 65535 →
      (TpmNvWrite2_call HandleIndex L p Offset D d).InLength = 35 + L + D := by
    intro L D p d h h2
    rw [TpmNvWrite2_call_eq _ _ _ _ _ _ h h2]
  have e6 : ∀ (L : Nat) (p : List Nat), L ≤ 65535 →
      (TpmDefineSpace2_call HandleIndex SpaceSize Attributes OwnerRights AuthRights L
        p).InLength = 45 + L := by
    intro L p h
    rw [TpmDefineSpace2_call_eq _ _ _ _ _ _ _ h]
  simp only [TpmReadLock2_call, TpmWriteLock2_call, TpmEmptyCmdSize, TpmFixedCmdSize,
    TpmVariableCmdSize]
  rw [e1, e2 _ _ _ hL, e2 _ _ _ hL, e2 _ _ _ z, e2 _ _ _ z, e4 _ _ hL, e4 _ _ z,
    e5 _ _ _ _ hL hD, e5 _ _ _ _ z z, e6 _ _ hL, e6 _ _ z]
  simp only [true_and]
  omega

theorem command_length_closed_form_witness :
    (6 : Nat) ≤ 65535 ∧ (8 : Nat) ≤ 65535 ∧
    (TpmNvWrite2_call 0x01000001 6 [115, 101, 99, 114, 101, 116] 16 8
      [0xAA, 0xAA, 0xAA, 0xAA, 0xAA, 0xAA, 0xAA, 0xAA]).InLength = 31 + 6 + 2 + 8 + 2 :=
  ⟨by decide, by decide,
    (command_length_closed_form 0x01000001 64 1 3 0 16 6 8 [115, 101, 99, 114, 101, 116]
      [0xAA, 0xAA, 0xAA, 0xAA, 0xAA, 0xAA, 0xAA, 0xAA] (by decide) (by decide)).2.2.2.2.1⟩

/-- C13: for every index `h`, password `p` of length `L`, offset `o` and data `d` of length
`D`, the command of `TpmNvWrite2` is exactly `be16(0x8002) ++ be32(35+L+D) ++ be32(0x137) ++
be32(authHandle) ++ be32(h) ++ session(p) ++ be16(D) ++ d ++ be16(o)`, the authorization
handle being the owner handle for an empty password and `h` otherwise: the password field of
the session holds `p`, the data bytes follow the session and the offset is the last two
bytes.  With the password "secret", offset 16 and eight bytes `0xAA` the authorization
handle is the index and the password field holds the six ASCII bytes. -/
theorem write_command_bytes (HandleIndex L Offset D : Nat) (p d : List Nat)
    (hL : L ≤ 65535) (hD : D ≤ 65535) (hp : p.length = L) (hd : d.length = D) :
    (TpmNvWrite2_call HandleIndex L p Offset D d).Command =
      (be16 0x8002 ++ be32 (35 + L + D) ++ be32 0x137 ++
        be32 (if L = 0 then 0x40000001 else HandleIndex) ++ be32 HandleIndex ++
        (be32 (9 + L) ++ be32 0x40000009 ++ be16 0 ++ [0x00] ++ be16 L ++ p) ++
        be16 D ++ d ++ be16 Offset).map some ∧
    (TpmNvWrite2_call 0x01000001 6 [115, 101, 99, 114, 101, 116] 16 8
      [0xAA, 0xAA, 0xAA, 0xAA, 0xAA, 0xAA, 0xAA, 0xAA]).Command =
      ([0x80, 0x02, 0, 0, 0, 49, 0, 0, 0x01, 0x37, 0x01, 0, 0, 0x01, 0x01, 0, 0, 0x01,
        0, 0, 0, 15, 0x40, 0, 0, 0x09, 0, 0, 0, 0, 6, 115, 101, 99, 114, 101, 116,
        0, 8, 0xAA, 0xAA, 0xAA, 0xAA, 0xAA, 0xAA, 0xAA, 0xAA, 0, 16] : List Nat).map some := by
  refine ⟨?_, by decide⟩
  subst hp hd
  rw [TpmNvWrite2_call_eq _ _ _ _ _ _ hL hD, readBytes_length, readBytes_length]
  simp [headerBytes, sessionBytes]

theorem write_command_bytes_witness :
    (6 : Nat) ≤ 65535 ∧ (8 : Nat) ≤ 65535 ∧ [115, 101, 99, 114, 101, 116].length = 6 ∧
    [0xAA, 0xAA, 0xAA, 0xAA, 0xAA, 0xAA, 0xAA, 0xAA].length = 8 ∧
    (TpmNvWrite2_call 0x01000001 6 [115, 101, 99, 114, 101, 116] 16 8
      [0xAA, 0xAA, 0xAA, 0xAA, 0xAA, 0xAA, 0xAA, 0xAA]).Command =
      (be16 0x8002 ++ be32 (35 + 6 + 8) ++ be32 0x137 ++
        be32 (if 6 = 0 then 0x40000001 else 0x01000001) ++ be32 0x01000001 ++
        (be32 (9 + 6) ++ be32 0x40000009 ++ be16 0 ++ [0x00] ++ be16 6 ++
          [115, 101, 99, 114, 101, 116]) ++
        be16 8 ++ [0xAA, 0xAA, 0xAA, 0xAA, 0xAA, 0xAA, 0xAA, 0xAA] ++ be16 16).map some :=
  ⟨by decide, by decide, by decide, by decide,
    (write_command_bytes 0x01000001 6 16 8 [115, 101, 99, 114, 101, 116]
      [0xAA, 0xAA, 0xAA, 0xAA, 0xAA, 0xAA, 0xAA, 0xAA] (by decide) (by decide) (by decide)
      (by decide)).1⟩

/-! ## Result codes -/

theorem TpmReadResponseCode_eq (reply : List Nat) (hb : ∀ b ∈ reply, b < 256) :
    TpmReadResponseCode reply = reply32 reply 6 :=
  OsSwap32_load32 reply 6 hb

/-- C14: for each of the eight command functions and every input, when the transport call
reports failure the function returns `TPM_RC_FAILURE`, which is `0x101`; the transport
reports failure whenever the TBS result is not `TBS_SUCCESS`, whatever bytes the reply block
holds, so that no result code is decoded from the reply. -/
theorem transport_failure_code (os : Transport) (HandleIndex SpaceSize Attributes OwnerRights
    AuthRights L Offset DataSize IndexCount : Nat) (p d : List Nat) (Data IndexArray : Buffer)
    (out : ReadPublicOut) :
    (os (TpmUndefineSpace2_call HandleIndex) = none →
      TpmUndefineSpace2 os HandleIndex = TPM_RC_FAILURE) ∧
    (os (TpmDefineSpace2_call HandleIndex SpaceSize Attributes OwnerRights AuthRights L p) =
        none →
      TpmDefineSpace2 os HandleIndex SpaceSize Attributes OwnerRights AuthRights L p =
        TPM_RC_FAILURE) ∧
    (os (TpmNvRead2_call HandleIndex L p Offset DataSize) = none →
      (TpmNvRead2 os HandleIndex L p Offset DataSize Data).1 = TPM_RC_FAILURE) ∧
    (os (TpmNvWrite2_call HandleIndex L p Offset DataSize d) = none →
      TpmNvWrite2 os HandleIndex L p Offset DataSize d = TPM_RC_FAILURE) ∧
    (os (TpmWriteLock2_call HandleIndex L p) = none →
      TpmWriteLock2 os HandleIndex L p = TPM_RC_FAILURE) ∧
    (os (TpmReadLock2_call HandleIndex L p) = none →
      TpmReadLock2 os HandleIndex L p = TPM_RC_FAILURE) ∧
    (os (TpmReadPublic2_call HandleIndex) = none →
      (TpmReadPublic2 os HandleIndex out).1 = TPM_RC_FAILURE) ∧
    (os TpmNvEnumerate2_call = none →
      (TpmNvEnumerate2 os IndexCount IndexArray).1 = TPM_RC_FAILURE) ∧
    TPM_RC_FAILURE = 0x101 ∧
    (∀ (TBS_SUCCESS : Nat) (Tbsip_Submit_Command : OsCall → Nat × List Nat) (call : OsCall),
      (Tbsip_Submit_Command call).1 ≠ TBS_SUCCESS →
        TpmOsIssueCommand TBS_SUCCESS Tbsip_Submit_Command call = none) := by
  refine ⟨?_, ?_, ?_, ?_, ?_, ?_, ?_, ?_, rfl, ?_⟩
  · intro h
    simp only [TpmUndefineSpace2, h]
  · intro h
    simp only [TpmDefineSpace2, h]
  · intro h
    simp only [TpmNvRead2, h]
  · intro h
    simp only [TpmNvWrite2, h]
  · intro h
    simp only [TpmWriteLock2_call] at h
    simp only [TpmWriteLock2, TpmpLock2, h]
  · intro h
    simp only [TpmReadLock2_call] at h
    simp only [TpmReadLock2, TpmpLock2, h]
  · intro h
    simp only [TpmReadPublic2, h]
  · intro h
    simp only [TpmNvEnumerate2, h]
  · intro s f call h
    simp only [TpmOsIssueCommand, if_neg h]

theorem transport_failure_code_witness :
    TpmUndefineSpace2
      (TpmOsIssueCommand 0 (fun _ => (0x80280400, [0x80, 0x01, 0, 0, 0, 10, 0, 0, 0, 0])))
      0x01000001 = TPM_RC_FAILURE :=
  (transport_failure_code
    (TpmOsIssueCommand 0 (fun _ => (0x80280400, [0x80, 0x01, 0, 0, 0, 10, 0, 0, 0, 0])))
    0x01000001 0 0 0 0 0 0 0 0 [] [] [] [] ⟨0, 0, 0, 0⟩).1 rfl

/-- Counterexample to C15: a reply delivered by a successful transport call whose result code
(bytes 6..9) is `00 00 01 01` makes `TpmUndefineSpace2` return the very value it returns when
the transport fails. -/
theorem transport_failure_code_not_distinct :
    (∀ b ∈ sampleFailureReply, b < 256) ∧
    TpmUndefineSpace2 (fun _ => some sampleFailureReply) 0x01000001 =
      TpmUndefineSpace2 (fun _ => none) 0x01000001 := by
  decide

/-- C15, amended: for each of the eight command functions and every reply delivered by a
successful transport call, the value the function returns equals the value it returns when
the transport fails exactly when the result code at reply bytes 6..9 is `0x101`; for every
other result code, the success code included, the two values differ. -/
theorem transport_failure_code_distinct (os : Transport) (HandleIndex SpaceSize Attributes
    OwnerRights AuthRights L Offset DataSize IndexCount : Nat) (p d : List Nat)
    (Data IndexArray : Buffer) (out : ReadPublicOut) (reply : List Nat)
    (hb : ∀ b ∈ reply, b < 256) :
    (os (TpmUndefineSpace2_call HandleIndex) = some reply →
      (TpmUndefineSpace2 os HandleIndex = TpmUndefineSpace2 (fun _ => none) HandleIndex ↔
        reply32 reply 6 = 0x101)) ∧
    (os (TpmDefineSpace2_call HandleIndex SpaceSize Attributes OwnerRights AuthRights L p) =
        some reply →
      (TpmDefineSpace2 os HandleIndex SpaceSize Attributes OwnerRights AuthRights L p =
        TpmDefineSpace2 (fun _ => none) HandleIndex SpaceSize Attributes OwnerRights AuthRights
          L p ↔ reply32 reply 6 = 0x101)) ∧
    (os (TpmNvRead2_call HandleIndex L p Offset DataSize) = some reply →
      ((TpmNvRead2 os HandleIndex L p Offset DataSize Data).1 =
        (TpmNvRead2 (fun _ => none) HandleIndex L p Offset DataSize Data).1 ↔
        reply32 reply 6 = 0x101)) ∧
    (os (TpmNvWrite2_call HandleIndex L p Offset DataSize d) = some reply →
      (TpmNvWrite2 os HandleIndex L p Offset DataSize d =
        TpmNvWrite2 (fun _ => none) HandleIndex L p Offset DataSize d ↔
        reply32 reply 6 = 0x101)) ∧
    (os (TpmWriteLock2_call HandleIndex L p) = some reply →
      (TpmWriteLock2 os HandleIndex L p = TpmWriteLock2 (fun _ => none) HandleIndex L p ↔
        reply32 reply 6 = 0x101)) ∧
    (os (TpmReadLock2_call HandleIndex L p) = some reply →
      (TpmReadLock2 os HandleIndex L p = TpmReadLock2 (fun _ => none) HandleIndex L p ↔
        reply32 reply 6 = 0x101)) ∧
    (os (TpmReadPublic2_call HandleIndex) = some reply →
      ((TpmReadPublic2 os HandleIndex out).1 =
        (TpmReadPublic2 (fun _ => none) HandleIndex out).1 ↔ reply32 reply 6 = 0x101)) ∧
    (os TpmNvEnumerate2_call = some reply →
      ((TpmNvEnumerate2 os IndexCount IndexArray).1 =
        (TpmNvEnumerate2 (fun _ => none) IndexCount IndexArray).1 ↔
        reply32 reply 6 = 0x101)) ∧
    TPM_RC_FAILURE ≠ TPM_RC_SUCCESS := by
  have hc := TpmReadResponseCode_eq reply hb
  have hF : TPM_RC_FAILURE = 0x101 := rfl
  refine ⟨?_, ?_, ?_, ?_, ?_, ?_, ?_, ?_, by decide⟩
  · intro h
    simp only [TpmUndefineSpace2, h, hc, hF]
  · intro h
    simp only [TpmDefineSpace2, h, hc, hF]
  · intro h
    simp only [TpmNvRead2, h, hc, hF]
    split <;> rfl
  · intro h
    simp only [TpmNvWrite2, h, hc, hF]
  · intro h
    simp only [TpmWriteLock2_call] at h
    simp only [TpmWriteLock2, TpmpLock2, h, hc, hF]
  · intro h
    simp only [TpmReadLock2_call] at h
    simp only [TpmReadLock2, TpmpLock2, h, hc, hF]
  · intro h
    simp only [TpmReadPublic2, h, hc, hF]
    split <;> rfl
  · intro h
    simp only [TpmNvEnumerate2, h, hc, hF]
    split <;> rfl

theorem transport_failure_code_distinct_witness :
    (∀ b ∈ [0x80, 0x01, 0, 0, 0, 10, 0, 0, 0x01, 0x4B], b < 256) ∧
    reply32 [0x80, 0x01, 0, 0, 0, 10, 0, 0, 0x01, 0x4B] 6 ≠ 0x101 ∧
    TpmUndefineSpace2 (fun _ => some [0x80, 0x01, 0, 0, 0, 10, 0, 0, 0x01, 0x4B]) 0x01000001 ≠
      TpmUndefineSpace2 (fun _ => none) 0x01000001 :=
  ⟨by decide, by decide, fun h =>
    absurd (((transport_failure_code_distinct
      (fun _ => some [0x80, 0x01, 0, 0, 0, 10, 0, 0, 0x01, 0x4B]) 0x01000001 0 0 0 0 0 0 0 0
      [] [] [] [] ⟨0, 0, 0, 0⟩ [0x80, 0x01, 0, 0, 0, 10, 0, 0, 0x01, 0x4B] (by decide)).1
      rfl).1 h) (by decide)⟩

/-- C16: for each of the eight command functions and every reply delivered by a successful
transport call, the returned result code is the big-endian 32-bit value at reply bytes 6..9,
unchanged, whatever that value is; the function returns `TPM_RC_SUCCESS`, which is zero,
exactly when those bytes hold zero. -/
theorem result_code_verbatim (os : Transport) (HandleIndex SpaceSize Attributes
    OwnerRights AuthRights L Offset DataSize IndexCount : Nat) (p d : List Nat)
    (Data IndexArray : Buffer) (out : ReadPublicOut) (reply : List Nat)
    (hb : ∀ b ∈ reply, b < 256) :
    (os (TpmUndefineSpace2_call HandleIndex) = some reply →
      TpmUndefineSpace2 os HandleIndex = reply32 reply 6) ∧
    (os (TpmDefineSpace2_call HandleIndex SpaceSize Attributes OwnerRights AuthRights L p) =
        some reply →
      TpmDefineSpace2 os HandleIndex SpaceSize Attributes OwnerRights AuthRights L p =
        reply32 reply 6) ∧
    (os (TpmNvRead2_call HandleIndex L p Offset DataSize) = some reply →
      (TpmNvRead2 os HandleIndex L p Offset DataSize Data).1 = reply32 reply 6) ∧
    (os (TpmNvWrite2_call HandleIndex L p Offset DataSize d) = some reply →
      TpmNvWrite2 os HandleIndex L p Offset DataSize d = reply32 reply 6) ∧
    (os (TpmWriteLock2_call HandleIndex L p) = some reply →
      TpmWriteLock2 os HandleIndex L p = reply32 reply 6) ∧
    (os (TpmReadLock2_call HandleIndex L p) = some reply →
      TpmReadLock2 os HandleIndex L p = reply32 reply 6) ∧
    (os (TpmReadPublic2_call HandleIndex) = some reply →
      (TpmReadPublic2 os HandleIndex out).1 = reply32 reply 6) ∧
    (os TpmNvEnumerate2_call = some reply →
      (TpmNvEnumerate2 os IndexCount IndexArray).1 = reply32 reply 6) ∧
    TPM_RC_SUCCESS = 0 ∧
    (TpmReadResponseCode reply = TPM_RC_SUCCESS ↔ reply32 reply 6 = 0) := by
  have hc := TpmReadResponseCode_eq reply hb
  refine ⟨?_, ?_, ?_, ?_, ?_, ?_, ?_, ?_, rfl, ?_⟩
  · intro h
    simp only [TpmUndefineSpace2, h, hc]
  · intro h
    simp only [TpmDefineSpace2, h, hc]
  · intro h
    simp only [TpmNvRead2, h, hc]
    split <;> rfl
  · intro h
    simp only [TpmNvWrite2, h, hc]
  · intro h
    simp only [TpmWriteLock2_call] at h
    simp only [TpmWriteLock2, TpmpLock2, h, hc]
  · intro h
    simp only [TpmReadLock2_call] at h
    simp only [TpmReadLock2, TpmpLock2, h, hc]
  · intro h
    simp only [TpmReadPublic2, h, hc]
    split <;> rfl
  · intro h
    simp only [TpmNvEnumerate2, h, hc]
    split <;> rfl
  · rw [hc]
    rfl

theorem result_code_verbatim_witness :
    (∀ b ∈ [0x80, 0x01, 0, 0, 0, 10, 0, 0, 0x01, 0x4B], b < 256) ∧
    TpmUndefineSpace2 (fun _ => some [0x80, 0x01, 0, 0, 0, 10, 0, 0, 0x01, 0x4B]) 0x01000001 =
      0x14B :=
  ⟨by decide,
    (result_code_verbatim (fun _ => some [0x80, 0x01, 0, 0, 0, 10, 0, 0, 0x01, 0x4B])
      0x01000001 0 0 0 0 0 0 0 0 [] [] [] [] ⟨0, 0, 0, 0⟩
      [0x80, 0x01, 0, 0, 0, 10, 0, 0, 0x01, 0x4B] (by decide)).1 rfl⟩

/-- C17: whenever `TpmNvRead2`, `TpmReadPublic2` or `TpmNvEnumerate2` returns a code other
than `TPM_RC_SUCCESS`, after a transport failure or with a decoded result code, its outputs
are those of before the call: the `Data` block of Read, the four output variables of
ReadPublic, the count and the array of Enumerate. -/
theorem no_partial_success (os : Transport) (HandleIndex L Offset DataSize IndexCount : Nat)
    (p : List Nat) (Data IndexArray : Buffer) (out : ReadPublicOut) :
    ((TpmNvRead2 os HandleIndex L p Offset DataSize Data).1 ≠ TPM_RC_SUCCESS →
      (TpmNvRead2 os HandleIndex L p Offset DataSize Data).2 = Data) ∧
    ((TpmReadPublic2 os HandleIndex out).1 ≠ TPM_RC_SUCCESS →
      (TpmReadPublic2 os HandleIndex out).2 = out) ∧
    ((TpmNvEnumerate2 os IndexCount IndexArray).1 ≠ TPM_RC_SUCCESS →
      (TpmNvEnumerate2 os IndexCount IndexArray).2 = (IndexCount, some IndexArray)) := by
  refine ⟨?_, ?_, ?_⟩
  · unfold TpmNvRead2
    cases os (TpmNvRead2_call HandleIndex L p Offset DataSize) with
    | none => intro _; rfl
    | some reply =>
      dsimp only
      split
      · intro h; exact absurd ‹_› h
      · intro _; rfl
  · unfold TpmReadPublic2
    cases os (TpmReadPublic2_call HandleIndex) with
    | none => intro _; rfl
    | some reply =>
      dsimp only
      split
      · intro _; rfl
      · intro h; exact absurd h ‹_›
  · unfold TpmNvEnumerate2
    cases os TpmNvEnumerate2_call with
    | none => intro _; rfl
    | some reply =>
      dsimp only
      split
      · intro _; rfl
      · intro h; exact absurd h ‹_›

theorem no_partial_success_witness :
    (TpmNvRead2 (fun _ => some [0x80, 0x01, 0, 0, 0, 10, 0, 0, 0x01, 0x4B, 1, 2, 3, 4, 5, 6, 7])
      0x01000001 0 [] 0 2 [some 9, none]).2 = [some 9, none] ∧
    (TpmNvEnumerate2 (fun _ => none) 3 [some 9, none]).2 = (3, some [some 9, none]) :=
  ⟨(no_partial_success
      (fun _ => some [0x80, 0x01, 0, 0, 0, 10, 0, 0, 0x01, 0x4B, 1, 2, 3, 4, 5, 6, 7])
      0x01000001 0 0 2 3 [] [some 9, none] [some 9, none] ⟨0, 0, 0, 0⟩).1 (by decide),
    (no_partial_success (fun _ => none) 0x01000001 0 0 2 3 [] [some 9, none] [some 9, none]
      ⟨0, 0, 0, 0⟩).2.2 (by decide)⟩

/-! ## The handle enumeration -/

theorem store32_eq_storeBytes (m : Buffer) (off v : Nat) :
    store32 m off v = storeBytes m off (le32 v) := rfl

theorem length_le32 (v : Nat) : (le32 v).length = 4 := rfl

theorem handleCells_succ (reply : List Nat) (k : Nat) :
    handleCells reply (k + 1) = handleCells reply k ++ le32 (replyHandle reply k) := by
  simp [handleCells, List.range_succ]

theorem length_handleCells (reply : List Nat) (k : Nat) :
    (handleCells reply k).length = 4 * k := by
  induction k with
  | zero => rfl
  | succ k ih =>
    rw [handleCells_succ, List.length_append, ih, length_le32]
    omega

theorem handleCells_split (reply : List Nat) (k i : Nat) (h : i < k) :
    ∃ T, handleCells reply k = handleCells reply i ++ (le32 (replyHandle reply i) ++ T) := by
  induction k with
  | zero => omega
  | succ k ih =>
    rw [handleCells_succ]
    by_cases hik : i < k
    · obtain ⟨T, hT⟩ := ih hik
      exact ⟨T ++ le32 (replyHandle reply k), by rw [hT]; simp⟩
    · have : i = k := by omega
      subst this
      exact ⟨[], by simp⟩

theorem load8_lt (reply : List Nat) (off : Nat) (hb : ∀ b ∈ reply, b < 256) :
    load8 reply off < 256 := by
  unfold load8
  rw [List.getD_eq_getElem?_getD]
  cases h : reply[off]? with
  | none => simp
  | some b => simpa using hb b (List.getElem?_mem h)

theorem reply32_lt (reply : List Nat) (off : Nat) (hb : ∀ b ∈ reply, b < 256) :
    reply32 reply off < 4294967296 := by
  have h0 := load8_lt reply off hb
  have h1 := load8_lt reply (off + 1) hb
  have h2 := load8_lt reply (off + 2) hb
  have h3 := load8_lt reply (off + 3) hb
  simp only [reply32, beValue, List.foldl]
  omega

theorem host32_at (m A C : Buffer) (rest : List Nat) (x off : Nat)
    (hm : m = A ++ (le32 x ++ rest).map some ++ C) (hoff : A.length = off)
    (hx : x < 4294967296) : host32 m off = some x := by
  have hd : m.drop off = (le32 x ++ rest).map some ++ C := by
    rw [hm, ← hoff]; simp
  simp only [host32, hd, le32, List.cons_append, List.map_cons, Option.some.injEq]
  omega

theorem handleOffset (i : Nat) :
    TPM_GET_CAPABILITY_REPLY.Data + TPMS_CAPABILITY_DATA.Data + TPML_HANDLE.Handle +
      i * sizeof_TPM_HANDLE = 19 + 4 * i := by
  show 19 + i * 4 = 19 + 4 * i
  omega

theorem TpmNvEnumerate2_copy_succ (reply : List Nat) (k : Nat) (IndexArray : Buffer) :
    TpmNvEnumerate2_copy reply (k + 1) IndexArray =
      (TpmNvEnumerate2_copy reply k IndexArray).bind (fun acc =>
        (load32Inside reply (19 + 4 * k)).map
          (fun Value => store32 acc (4 * k) (OsSwap32 Value))) := by
  simp only [TpmNvEnumerate2_copy, List.range_succ, List.foldlM_append, handleOffset]
  have h4 : k * sizeof_TPM_HANDLE = 4 * k := by
    show k * 4 = 4 * k
    omega
  simp [h4]

/-- While the slots read lie in the reply block, the copy loop leaves in the array the host
bytes of the first `k` handles of the reply. -/
theorem TpmNvEnumerate2_copy_inside (reply : List Nat) (k : Nat) (IndexArray : Buffer)
    (hb : ∀ b ∈ reply, b < 256) (hk : 19 + 4 * k ≤ reply.length) :
    TpmNvEnumerate2_copy reply k IndexArray =
      some (storeBytes IndexArray 0 (handleCells reply k)) := by
  induction k with
  | zero => rfl
  | succ k ih =>
    rw [TpmNvEnumerate2_copy_succ, ih (by omega)]
    have hin : load32Inside reply (19 + 4 * k) = some (load32 reply (19 + 4 * k)) := by
      simp only [load32Inside]
      rw [if_pos (by omega)]
    simp only [Option.some_bind, hin, Option.map_some', OsSwap32_load32 reply _ hb,
      store32_eq_storeBytes]
    rw [storeBytes_merge _ _ _ _ _ (by rw [length_handleCells]; omega), handleCells_succ]
    rfl

/-- A copy loop that reaches a slot past the end of the reply block loads from outside it. -/
theorem TpmNvEnumerate2_copy_outside (reply : List Nat) (k : Nat) (IndexArray : Buffer)
    (h0 : 0 < k) (hk : reply.length < 19 + 4 * k) :
    TpmNvEnumerate2_copy reply k IndexArray = none := by
  cases k with
  | zero => omega
  | succ k =>
    rw [TpmNvEnumerate2_copy_succ]
    have hout : load32Inside reply (19 + 4 * k) = none := by
      simp only [load32Inside]
      rw [if_neg (by omega)]
    rw [hout]
    cases TpmNvEnumerate2_copy reply k IndexArray <;> rfl

theorem TpmNvEnumerate2_code (os : Transport) (IndexCount : Nat) (IndexArray : Buffer)
    (reply : List Nat) (hos : os TpmNvEnumerate2_call = some reply) :
    (TpmNvEnumerate2 os IndexCount IndexArray).1 = TpmReadResponseCode reply := by
  simp only [TpmNvEnumerate2, hos]
  split <;> rfl

/-- A successful `TpmNvEnumerate2` call: the count after the call is the larger of the
caller's count and the count of the reply, and the copy loop runs over the smaller. -/
theorem TpmNvEnumerate2_success (os : Transport) (IndexCount : Nat) (IndexArray : Buffer)
    (reply : List Nat) (hos : os TpmNvEnumerate2_call = some reply)
    (hb : ∀ b ∈ reply, b < 256)
    (hs : (TpmNvEnumerate2 os IndexCount IndexArray).1 = TPM_RC_SUCCESS) :
    TpmNvEnumerate2 os IndexCount IndexArray =
      (TPM_RC_SUCCESS, max IndexCount (replyCount reply),
        TpmNvEnumerate2_copy reply (min IndexCount (replyCount reply)) IndexArray) := by
  rw [TpmNvEnumerate2_code os IndexCount IndexArray reply hos] at hs
  have hcount : OsSwap32 (load32 reply (TPM_GET_CAPABILITY_REPLY.Data +
      TPMS_CAPABILITY_DATA.Data + TPML_HANDLE.Count)) = replyCount reply :=
    OsSwap32_load32 reply 15 hb
  simp only [TpmNvEnumerate2, hos, hs, hcount, ne_eq, not_true_eq_false, if_false]
  have hmax : (if IndexCount < replyCount reply then replyCount reply else IndexCount) =
      max IndexCount (replyCount reply) := by
    split <;> omega
  have hmin : (if IndexCount < replyCount reply then IndexCount else replyCount reply) =
      min IndexCount (replyCount reply) := by
    split <;> omega
  rw [hmax, hmin]

theorem length_sampleCapabilityReply (count : Nat) :
    (sampleCapabilityReply count).length = 1035 := by
  simp only [sampleCapabilityReply, List.length_append, length_be32, List.length_flatten,
    List.map_replicate, List.sum_replicate, List.length_cons, List.length_nil]
  rfl

theorem sampleCapabilityReply_bytes (count : Nat) :
    ∀ b ∈ sampleCapabilityReply count, b < 256 := by
  intro b hb
  simp only [sampleCapabilityReply, be32, List.mem_append, List.mem_cons, List.mem_flatten,
    List.mem_replicate, List.mem_singleton] at hb
  rcases hb with (h | h) | ⟨l, ⟨_, rfl⟩, h⟩
  · simp at h
    omega
  · simp at h
    omega
  · simp at h
    omega

/-- The array a successful `TpmNvEnumerate2` call leaves when the slots it copies lie in the
reply block: the host bytes of the first `min c n` handles, then the caller's cells. -/
theorem TpmNvEnumerate2_array (os : Transport) (IndexCount : Nat) (IndexArray : Buffer)
    (reply : List Nat) (hos : os TpmNvEnumerate2_call = some reply)
    (hb : ∀ b ∈ reply, b < 256)
    (hs : (TpmNvEnumerate2 os IndexCount IndexArray).1 = TPM_RC_SUCCESS)
    (hlen : reply.length = TpmNvEnumerate2_call.OutLength)
    (harr : 4 * IndexCount ≤ IndexArray.length)
    (hcap : min IndexCount (replyCount reply) ≤ MAX_CAP_HANDLES) :
    (TpmNvEnumerate2 os IndexCount IndexArray).2.2 =
      some ((handleCells reply (min IndexCount (replyCount reply))).map some ++
        IndexArray.drop (4 * min IndexCount (replyCount reply))) := by
  have hO : TpmNvEnumerate2_call.OutLength = 1035 := rfl
  have hM : MAX_CAP_HANDLES = 254 := rfl
  rw [hO] at hlen
  rw [hM] at hcap
  have hk : min IndexCount (replyCount reply) ≤ IndexCount := Nat.min_le_left _ _
  rw [TpmNvEnumerate2_success os IndexCount IndexArray reply hos hb hs,
    TpmNvEnumerate2_copy_inside reply _ IndexArray hb (by omega),
    storeBytes_splice _ _ _ (by rw [length_handleCells]; omega), length_handleCells]
  simp

theorem host32_handleCells (reply : List Nat) (k i : Nat) (C : Buffer)
    (hb : ∀ b ∈ reply, b < 256) (hi : i < k) :
    host32 ((handleCells reply k).map some ++ C) (4 * i) = some (replyHandle reply i) := by
  obtain ⟨T, hT⟩ := handleCells_split reply k i hi
  refine host32_at _ ((handleCells reply i).map some) (T.map some ++ C) []
    (replyHandle reply i) (4 * i) ?_ (by simp [length_handleCells])
    (reply32_lt reply _ hb)
  rw [hT]
  simp

/-- C19: the entries `TpmNvEnumerate2` writes on a successful call with requested capacity
255 against a reply block that reports 255 handles.  The copy loop runs over `min c n = 255`
entries, but the reply block of 1035 bytes has 254 handle slots: entry 254 is loaded from
bytes 1035..1038, past its end, so the array does not hold in every entry below `min c n`
the decode of that handle of the reply. -/
theorem enumerate_entry_past_reply :
    (sampleCapabilityReply 255).length = TpmNvEnumerate2_call.OutLength ∧
    (TpmNvEnumerate2 (fun _ => some (sampleCapabilityReply 255)) 255 (alloca 1020)).1 =
      TPM_RC_SUCCESS ∧
    replyCount (sampleCapabilityReply 255) = 255 ∧
    ¬ ∃ arr, (TpmNvEnumerate2 (fun _ => some (sampleCapabilityReply 255)) 255
        (alloca 1020)).2.2 = some arr ∧
      ∀ i, i < min 255 (replyCount (sampleCapabilityReply 255)) →
        host32 arr (4 * i) = some (replyHandle (sampleCapabilityReply 255) i) := by
  have hs : (TpmNvEnumerate2 (fun _ => some (sampleCapabilityReply 255)) 255
      (alloca 1020)).1 = TPM_RC_SUCCESS := by decide
  have hn : replyCount (sampleCapabilityReply 255) = 255 := by decide
  refine ⟨length_sampleCapabilityReply 255, hs, hn, ?_⟩
  rintro ⟨arr, harr, -⟩
  rw [TpmNvEnumerate2_success _ 255 (alloca 1020) (sampleCapabilityReply 255) rfl
    (sampleCapabilityReply_bytes 255) hs, hn,
    TpmNvEnumerate2_copy_outside _ _ _ (by decide)
      (by rw [length_sampleCapabilityReply]; decide)] at harr
  exact Option.noConfusion harr

/-- While the copy loop stays within the 254 handle slots of the reply block, a successful
`TpmNvEnumerate2` call with requested capacity `c` and reply-reported count `n` writes exactly
`min c n` entries of the caller's array, entry `i` being the big-endian decode of the handle
in slot `i` of the reply, and no cell of an entry at index `min c n` or above; when `c < n`
only `c` entries are copied. -/
theorem enumerate_entries_written (os : Transport) (IndexCount : Nat) (IndexArray : Buffer)
    (reply : List Nat) (hos : os TpmNvEnumerate2_call = some reply)
    (hb : ∀ b ∈ reply, b < 256)
    (hs : (TpmNvEnumerate2 os IndexCount IndexArray).1 = TPM_RC_SUCCESS)
    (hlen : reply.length = TpmNvEnumerate2_call.OutLength)
    (harr : 4 * IndexCount ≤ IndexArray.length)
    (hcap : min IndexCount (replyCount reply) ≤ MAX_CAP_HANDLES) :
    (TpmNvEnumerate2 os IndexCount IndexArray).2.2 =
      some ((handleCells reply (min IndexCount (replyCount reply))).map some ++
        IndexArray.drop (4 * min IndexCount (replyCount reply))) ∧
    (handleCells reply (min IndexCount (replyCount reply))).length =
      4 * min IndexCount (replyCount reply) ∧
    (∀ i, i < min IndexCount (replyCount reply) →
      host32 ((handleCells reply (min IndexCount (replyCount reply))).map some ++
        IndexArray.drop (4 * min IndexCount (replyCount reply))) (4 * i) =
        some (replyHandle reply i)) ∧
    ((handleCells reply (min IndexCount (replyCount reply))).map some ++
        IndexArray.drop (4 * min IndexCount (replyCount reply))).drop
      (4 * min IndexCount (replyCount reply)) =
      IndexArray.drop (4 * min IndexCount (replyCount reply)) ∧
    (IndexCount < replyCount reply → min IndexCount (replyCount reply) = IndexCount) := by
  refine ⟨TpmNvEnumerate2_array os IndexCount IndexArray reply hos hb hs hlen harr hcap,
    length_handleCells _ _, fun i hi => host32_handleCells reply _ i _ hb hi, ?_,
    fun h => Nat.min_eq_left (Nat.le_of_lt h)⟩
  rw [List.drop_append_of_le_length (by simp [length_handleCells]),
    List.drop_of_length_le (by simp [length_handleCells])]
  rfl

theorem enumerate_entries_written_witness :
    (fun _ => some (sampleCapabilityReply 3) : Transport) TpmNvEnumerate2_call =
      some (sampleCapabilityReply 3) ∧
    (TpmNvEnumerate2 (fun _ => some (sampleCapabilityReply 3)) 2 (alloca 8)).1 =
      TPM_RC_SUCCESS ∧
    (sampleCapabilityReply 3).length = TpmNvEnumerate2_call.OutLength ∧
    4 * 2 ≤ (alloca 8).length ∧
    min 2 (replyCount (sampleCapabilityReply 3)) ≤ MAX_CAP_HANDLES ∧
    (TpmNvEnumerate2 (fun _ => some (sampleCapabilityReply 3)) 2 (alloca 8)).2.2 =
      some ((handleCells (sampleCapabilityReply 3)
          (min 2 (replyCount (sampleCapabilityReply 3)))).map some ++
        (alloca 8).drop (4 * min 2 (replyCount (sampleCapabilityReply 3)))) :=
  ⟨rfl, by decide, length_sampleCapabilityReply 3, by decide, by decide,
    (enumerate_entries_written (fun _ => some (sampleCapabilityReply 3)) 2 (alloca 8)
      (sampleCapabilityReply 3) rfl (sampleCapabilityReply_bytes 3) (by decide)
      (length_sampleCapabilityReply 3) (by decide) (by decide)).1⟩

/-- A successful `TpmNvEnumerate2` call with requested count 0 writes no cell of the array
and sets the count to the count of the reply, whatever that count is. -/
theorem TpmNvEnumerate2_count_query (os : Transport) (IndexArray : Buffer) (reply : List Nat)
    (hos : os TpmNvEnumerate2_call = some reply) (hb : ∀ b ∈ reply, b < 256)
    (hs : (TpmNvEnumerate2 os 0 IndexArray).1 = TPM_RC_SUCCESS) :
    TpmNvEnumerate2 os 0 IndexArray = (TPM_RC_SUCCESS, replyCount reply, some IndexArray) := by
  rw [TpmNvEnumerate2_success os 0 IndexArray reply hos hb hs, Nat.zero_min, Nat.zero_max]
  rfl

/-- C20: discover, then fetch.  A successful `TpmNvEnumerate2` call with requested count 0
writes no array entry and sets the count to the count `n` of the reply, for every `n`.
Against reply blocks that report 255 handles the first call sets the count to 255, and the
following call with requested count 255 does not leave the first 255 handles of the reply in
the array: the reply block has 254 slots, and the copy loop loads entry 254 from past its
end. -/
theorem discover_then_fetch_past_reply :
    (∀ (os : Transport) (IndexArray : Buffer) (reply : List Nat),
      os TpmNvEnumerate2_call = some reply → (∀ b ∈ reply, b < 256) →
      (TpmNvEnumerate2 os 0 IndexArray).1 = TPM_RC_SUCCESS →
        TpmNvEnumerate2 os 0 IndexArray =
          (TPM_RC_SUCCESS, replyCount reply, some IndexArray)) ∧
    (sampleCapabilityReply 255).length = TpmNvEnumerate2_call.OutLength ∧
    replyCount (sampleCapabilityReply 255) = 255 ∧
    TpmNvEnumerate2 (fun _ => some (sampleCapabilityReply 255)) 0 [] =
      (TPM_RC_SUCCESS, 255, some []) ∧
    (TpmNvEnumerate2 (fun _ => some (sampleCapabilityReply 255))
      (TpmNvEnumerate2 (fun _ => some (sampleCapabilityReply 255)) 0 []).2.1
      (alloca 1020)).1 = TPM_RC_SUCCESS ∧
    (TpmNvEnumerate2 (fun _ => some (sampleCapabilityReply 255))
      (TpmNvEnumerate2 (fun _ => some (sampleCapabilityReply 255)) 0 []).2.1
      (alloca 1020)).2.2 = none ∧
    ¬ ∃ arr, (TpmNvEnumerate2 (fun _ => some (sampleCapabilityReply 255))
        (TpmNvEnumerate2 (fun _ => some (sampleCapabilityReply 255)) 0 []).2.1
        (alloca 1020)).2.2 = some arr ∧
      ∀ i, i < 255 → host32 arr (4 * i) = some (replyHandle (sampleCapabilityReply 255) i) := by
  have h1 : TpmNvEnumerate2 (fun _ => some (sampleCapabilityReply 255)) 0 [] =
      (TPM_RC_SUCCESS, 255, some []) := by decide
  have hs : (TpmNvEnumerate2 (fun _ => some (sampleCapabilityReply 255)) 255
      (alloca 1020)).1 = TPM_RC_SUCCESS := by decide
  have hn : replyCount (sampleCapabilityReply 255) = 255 := by decide
  have h2 : (TpmNvEnumerate2 (fun _ => some (sampleCapabilityReply 255)) 255
      (alloca 1020)).2.2 = none := by
    rw [TpmNvEnumerate2_success _ 255 (alloca 1020) (sampleCapabilityReply 255) rfl
      (sampleCapabilityReply_bytes 255) hs, hn]
    exact TpmNvEnumerate2_copy_outside _ _ _ (by decide)
      (by rw [length_sampleCapabilityReply]; decide)
  rw [h1]
  refine ⟨fun os arr reply hos hb hs0 => TpmNvEnumerate2_count_query os arr reply hos hb hs0,
    length_sampleCapabilityReply 255, hn, rfl, hs, h2, ?_⟩
  rintro ⟨arr, harr, -⟩
  exact Option.noConfusion (h2.symm.trans harr)

/-- While the count `n` of the replies is at most the 254 handle slots of the reply block: a
successful `TpmNvEnumerate2` call with requested count 0 sets the count to `n`, and a
following successful call with that count against a reply that again reports `n` writes
exactly `n` handle values, equal to the first `n` handles of the reply, and leaves the count
at `n`. -/
theorem discover_then_fetch (os1 os2 : Transport) (reply1 reply2 : List Nat)
    (IndexArray1 IndexArray2 : Buffer)
    (hos1 : os1 TpmNvEnumerate2_call = some reply1)
    (hos2 : os2 TpmNvEnumerate2_call = some reply2)
    (hb1 : ∀ b ∈ reply1, b < 256) (hb2 : ∀ b ∈ reply2, b < 256)
    (hs1 : (TpmNvEnumerate2 os1 0 IndexArray1).1 = TPM_RC_SUCCESS)
    (hs2 : (TpmNvEnumerate2 os2 (replyCount reply1) IndexArray2).1 = TPM_RC_SUCCESS)
    (hlen : reply2.length = TpmNvEnumerate2_call.OutLength)
    (hn : replyCount reply2 = replyCount reply1)
    (harr : IndexArray2.length = 4 * replyCount reply1)
    (hcap : replyCount reply1 ≤ MAX_CAP_HANDLES) :
    TpmNvEnumerate2 os1 0 IndexArray1 = (TPM_RC_SUCCESS, replyCount reply1, some IndexArray1) ∧
    TpmNvEnumerate2 os2 (TpmNvEnumerate2 os1 0 IndexArray1).2.1 IndexArray2 =
      (TPM_RC_SUCCESS, replyCount reply1,
        some ((handleCells reply2 (replyCount reply1)).map some)) ∧
    ((handleCells reply2 (replyCount reply1)).map some).length = 4 * replyCount reply1 ∧
    (∀ i, i < replyCount reply1 →
      host32 ((handleCells reply2 (replyCount reply1)).map some) (4 * i) =
        some (replyHandle reply2 i)) := by
  have h1 : TpmNvEnumerate2 os1 0 IndexArray1 =
      (TPM_RC_SUCCESS, replyCount reply1, some IndexArray1) := by
    rw [TpmNvEnumerate2_success os1 0 IndexArray1 reply1 hos1 hb1 hs1, Nat.zero_min,
      Nat.zero_max]
    rfl
  have e1 : (TpmNvEnumerate2 os1 0 IndexArray1).2.1 = replyCount reply1 := by rw [h1]
  have hO : TpmNvEnumerate2_call.OutLength = 1035 := rfl
  have hM : MAX_CAP_HANDLES = 254 := rfl
  rw [hO] at hlen
  rw [hM] at hcap
  refine ⟨h1, ?_, by simp [length_handleCells], fun i hi => ?_⟩
  · rw [e1, TpmNvEnumerate2_success os2 (replyCount reply1) IndexArray2 reply2 hos2 hb2 hs2,
      hn, Nat.max_self, Nat.min_self,
      TpmNvEnumerate2_copy_inside reply2 _ IndexArray2 hb2 (by omega),
      storeBytes_splice _ _ _ (by rw [length_handleCells]; omega), length_handleCells,
      List.drop_of_length_le (by omega)]
    simp
  · have := host32_handleCells reply2 (replyCount reply1) i [] hb2 hi
    simpa using this

theorem discover_then_fetch_witness :
    (TpmNvEnumerate2 (fun _ => some (sampleCapabilityReply 2)) 0 []).1 = TPM_RC_SUCCESS ∧
    (TpmNvEnumerate2 (fun _ => some (sampleCapabilityReply 2))
      (replyCount (sampleCapabilityReply 2)) (alloca 8)).1 = TPM_RC_SUCCESS ∧
    (sampleCapabilityReply 2).length = TpmNvEnumerate2_call.OutLength ∧
    (alloca 8).length = 4 * replyCount (sampleCapabilityReply 2) ∧
    replyCount (sampleCapabilityReply 2) ≤ MAX_CAP_HANDLES ∧
    TpmNvEnumerate2 (fun _ => some (sampleCapabilityReply 2))
      (TpmNvEnumerate2 (fun _ => some (sampleCapabilityReply 2)) 0 []).2.1 (alloca 8) =
      (TPM_RC_SUCCESS, replyCount (sampleCapabilityReply 2),
        some ((handleCells (sampleCapabilityReply 2)
          (replyCount (sampleCapabilityReply 2))).map some)) :=
  ⟨by decide, by decide, length_sampleCapabilityReply 2, by decide, by decide,
    (discover_then_fetch (fun _ => some (sampleCapabilityReply 2))
      (fun _ => some (sampleCapabilityReply 2)) (sampleCapabilityReply 2)
      (sampleCapabilityReply 2) [] (alloca 8) rfl rfl (sampleCapabilityReply_bytes 2)
      (sampleCapabilityReply_bytes 2) (by decide) (by decide)
      (length_sampleCapabilityReply 2) rfl (by decide) (by decide)).2.1⟩

/-! ## The capability query, the public descriptor and the reply block of a read -/

/-- C22: the command `TpmNvEnumerate2` hands to the transport does not depend on the caller's
count or array: it is always the 22 bytes `be16(0x8001) ++ be32(22) ++ be32(0x17A) ++
be32(1) ++ be32(0x01000000) ++ be32(254)`, with `TPM_CAP_HANDLES = 1`, the NV handle range
`0x01000000` and the handle capacity `254 = (1024 - 4 - 4) / 4`; the result of the function
depends on the transport only through its answer to that one command. -/
theorem enumerate_command_fixed (os1 os2 : Transport) (IndexCount : Nat) (IndexArray : Buffer) :
    TpmNvEnumerate2_call.Command =
      (be16 0x8001 ++ be32 22 ++ be32 0x17A ++ be32 1 ++ be32 0x01000000 ++
        be32 254).map some ∧
    TpmNvEnumerate2_call.Command.length = 22 ∧
    TpmNvEnumerate2_call.InLength = 22 ∧
    TPM_CAP_HANDLES = 1 ∧ HR_NV_INDEX = 0x01000000 ∧
    MAX_CAP_HANDLES = 254 ∧ MAX_CAP_HANDLES = (1024 - 4 - 4) / 4 ∧
    (os1 TpmNvEnumerate2_call = os2 TpmNvEnumerate2_call →
      TpmNvEnumerate2 os1 IndexCount IndexArray = TpmNvEnumerate2 os2 IndexCount IndexArray) := by
  refine ⟨rfl, rfl, rfl, rfl, rfl, rfl, rfl, fun h => ?_⟩
  simp only [TpmNvEnumerate2, h]

theorem enumerate_command_fixed_witness :
    TpmNvEnumerate2 (fun _ => some (sampleCapabilityReply 2)) 5 (alloca 20) =
      TpmNvEnumerate2
        (fun call => if call.InLength = 22 then some (sampleCapabilityReply 2) else none)
        5 (alloca 20) :=
  (enumerate_command_fixed (fun _ => some (sampleCapabilityReply 2))
    (fun call => if call.InLength = 22 then some (sampleCapabilityReply 2) else none)
    5 (alloca 20)).2.2.2.2.2.2.2 rfl

/-- C25: for every index `h`, space size `S`, attributes `a` and rights `o`, `u`, the last
16 bytes of the `TpmDefineSpace2` command are `be16(14) ++ be32(h) ++ be16(0x000B) ++
be32(mask(a,o,u)) ++ be16(0) ++ be16(S)`: the public size counts the 14 bytes after itself,
the name algorithm is SHA-256, the policy size is 0 and the data size is `S`. -/
theorem define_public_descriptor (HandleIndex SpaceSize Attributes OwnerRights AuthRights
    L : Nat) (p : List Nat) (hL : L ≤ 65535) (hS : SpaceSize ≤ 65535) :
    (TpmDefineSpace2_call HandleIndex SpaceSize Attributes OwnerRights AuthRights L
      p).Command.drop (29 + L) =
      (be16 14 ++ be32 HandleIndex ++ be16 0x000B ++
        be32 (toWireAttributes Attributes OwnerRights AuthRights) ++ be16 0 ++
        be16 SpaceSize).map some ∧
    (TpmDefineSpace2_call HandleIndex SpaceSize Attributes OwnerRights AuthRights L
      p).Command.length = 29 + L + 16 ∧
    toWireAttributes Attributes OwnerRights AuthRights =
      TpmDefineSpace2_nvAttributes Attributes OwnerRights AuthRights ∧
    TPM_NV_DEFINE_SPACE_CMD_FOOTER.sizeof = 16 ∧
    TPM_NV_DEFINE_SPACE_CMD_FOOTER.sizeof - sizeof_uint16 = 14 ∧
    TPM_ALG_SHA256 = 0x000B ∧
    beValue (be16 SpaceSize) = SpaceSize := by
  have hA := nvAttributes_eq_toWireAttributes Attributes OwnerRights AuthRights
  refine ⟨?_, ?_, hA.symm, rfl, rfl, rfl, beValue_be16 _ (by omega)⟩
  · rw [TpmDefineSpace2_call_eq _ _ _ _ _ _ _ hL, ← hA]
    dsimp only
    rw [List.map_append, List.drop_left' (by simp [headerBytes, sessionBytes]; omega)]
  · rw [TpmDefineSpace2_call_eq _ _ _ _ _ _ _ hL]
    simp [headerBytes, sessionBytes]
    omega

theorem define_public_descriptor_witness :
    (0 : Nat) ≤ 65535 ∧ (64 : Nat) ≤ 65535 ∧
    (TpmDefineSpace2_call 0x01000001 64 0x01 3 1 0 []).Command.drop (29 + 0) =
      (be16 14 ++ be32 0x01000001 ++ be16 0x000B ++ be32 (toWireAttributes 0x01 3 1) ++
        be16 0 ++ be16 64).map some :=
  ⟨by decide, by decide,
    (define_public_descriptor 0x01000001 64 0x01 3 1 0 [] (by decide) (by decide)).1⟩

/-- Counterexample to C30: with a one-byte password the cell 8 bytes after the end of the
`sessionSize` field (offset 12) holds the low byte of `passwordSize`, and the password byte
is at offset 13, 9 bytes after the end of that field. -/
theorem session_prefix_not_eight :
    (TpmpFillAuthSession (alloca 14) 0 1 [0x70]).1 =
      [some 0, some 0, some 0, some 10, some 0x40, some 0, some 0, some 0x09,
       some 0, some 0, some 0, some 0, some 1, some 0x70] ∧
    (TpmpFillAuthSession (alloca 14) 0 1 [0x70]).1.get? (4 + 8) ≠ some (some 0x70) ∧
    (TpmpFillAuthSession (alloca 14) 0 1 [0x70]).1.get? (4 + 9) = some (some 0x70) ∧
    TPMS_AUTH_COMMAND_NO_NONCE.Password ≠
      TPMS_AUTH_COMMAND_NO_NONCE.SessionSize + sizeof_uint32 + 8 := by
  decide

/-- C30, amended: in the password session block, the fixed prefix made of session handle,
`nonceSize`, session attributes and `passwordSize` occupies 9 bytes (4 + 2 + 1 + 2), so for
every password the first password byte is written 9 bytes after the end of the `sessionSize`
field, at offset 13 of the block, and the password bytes follow from there. -/
theorem session_prefix_nine (m : Buffer) (AuthSession L : Nat) (p : List Nat)
    (hL : L ≤ 65535) (hp : p.length = L) (hm : AuthSession + (13 + L) ≤ m.length) :
    (be32 0x40000009 ++ be16 0 ++ [0x00] ++ be16 L).length = 9 ∧
    sizeof_TPM_HANDLE + sizeof_uint16 + sizeof_uint8 + sizeof_uint16 = 9 ∧
    TPMS_AUTH_COMMAND_NO_NONCE.Password =
      TPMS_AUTH_COMMAND_NO_NONCE.SessionSize + sizeof_uint32 + 9 ∧
    ((TpmpFillAuthSession m AuthSession L p).1.drop (AuthSession + 4)).take 9 =
      (be32 0x40000009 ++ be16 0 ++ [0x00] ++ be16 L).map some ∧
    ((TpmpFillAuthSession m AuthSession L p).1.drop (AuthSession + 4 + 9)).take L =
      p.map some ∧
    (TpmpFillAuthSession m AuthSession L p).2 = AuthSession + 4 + 9 + L := by
  have hlen : (m.take AuthSession).length = AuthSession := by simp; omega
  have h1 : (TpmpFillAuthSession m AuthSession L p).1 =
      (m.take AuthSession ++ (be32 (9 + L)).map some) ++
        ((be32 0x40000009 ++ be16 0 ++ [0x00] ++ be16 L).map some ++
          (p.map some ++ m.drop (AuthSession + (13 + L)))) := by
    rw [TpmpFillAuthSession_eq _ _ _ _ hL, ← hp, readBytes_length,
      storeBytes_splice _ _ _ (by simp [sessionBytes]; omega)]
    simp [sessionBytes]
    congr 1
    omega
  have h2 : (TpmpFillAuthSession m AuthSession L p).1 =
      (m.take AuthSession ++ (be32 (9 + L)).map some ++
        (be32 0x40000009 ++ be16 0 ++ [0x00] ++ be16 L).map some) ++
          (p.map some ++ m.drop (AuthSession + (13 + L))) := by
    rw [h1]
    simp
  refine ⟨rfl, rfl, rfl, ?_, ?_, ?_⟩
  · rw [h1, List.drop_left' (by simp [hlen]), List.take_left' (by simp)]
  · rw [h2, List.drop_left' (by simp [hlen]), List.take_left' (by simp [hp])]
  · rw [TpmpFillAuthSession_eq _ _ _ _ hL]

theorem session_prefix_nine_witness :
    (1 : Nat) ≤ 65535 ∧ [0x70].length = 1 ∧ 0 + (13 + 1) ≤ (alloca 14).length ∧
    ((TpmpFillAuthSession (alloca 14) 0 1 [0x70]).1.drop (0 + 4 + 9)).take 1 =
      [0x70].map some :=
  ⟨by decide, by decide, by decide,
    (session_prefix_nine (alloca 14) 0 1 [0x70] (by decide) (by decide)
      (by decide)).2.2.2.2.1⟩

theorem getD_drop (r : List Nat) (off i : Nat) : (r.drop off).getD i 0 = r.getD (off + i) 0 := by
  simp [List.getD_eq_getElem?_getD, List.getElem?_drop]

/-- C27: for every requested data size `D` in 0..65535, the reply block `TpmNvRead2` hands
to the transport has `16 + D + 5 = 21 + D` bytes (header 10, parameter size 4, data size 2,
`D` data bytes, empty authorization response 5), and the result of the function depends on
the reply only through its bytes at offsets 6..9 and 16..16+D-1, all of which lie inside
that block. -/
theorem read_reply_block (os1 os2 : Transport) (HandleIndex L Offset D : Nat) (p : List Nat)
    (Data : Buffer) (r1 r2 : List Nat) (hL : L ≤ 65535) (hD : D ≤ 65535)
    (hos1 : os1 (TpmNvRead2_call HandleIndex L p Offset D) = some r1)
    (hos2 : os2 (TpmNvRead2_call HandleIndex L p Offset D) = some r2)
    (hcode : ∀ i, 6 ≤ i → i ≤ 9 → r1.getD i 0 = r2.getD i 0)
    (hdata : ∀ i, 16 ≤ i → i < 16 + D → r1.getD i 0 = r2.getD i 0) :
    (TpmNvRead2_call HandleIndex L p Offset D).OutLength = 16 + D + 5 ∧
    16 + D + 5 = 21 + D ∧
    TPM_REPLY_HEADER.sizeof = 10 ∧ TPM_NV_READ_REPLY.DataSize = 10 + 4 ∧
    TPM_NV_READ_REPLY.Data = 10 + 4 + 2 ∧ TPMS_AUTH_RESPONSE_NO_NONCE.sizeof = 5 ∧
    TPM_REPLY_HEADER.ResponseCode = 6 ∧
    TpmNvRead2 os1 HandleIndex L p Offset D Data =
      TpmNvRead2 os2 HandleIndex L p Offset D Data ∧
    (∀ i, 6 ≤ i → i ≤ 9 → i < (TpmNvRead2_call HandleIndex L p Offset D).OutLength) ∧
    (∀ i, 16 ≤ i → i < 16 + D →
      i < (TpmNvRead2_call HandleIndex L p Offset D).OutLength) := by
  have hO : (TpmNvRead2_call HandleIndex L p Offset D).OutLength = 21 + D := by
    rw [TpmNvRead2_call_eq _ _ _ _ _ hL hD]
  have hrc : TpmReadResponseCode r1 = TpmReadResponseCode r2 := by
    simp only [TpmReadResponseCode, load32, load8]
    have e : TPM_REPLY_HEADER.ResponseCode = 6 := rfl
    rw [e, hcode 6 (by omega) (by omega), hcode 7 (by omega) (by omega),
      hcode 8 (by omega) (by omega), hcode 9 (by omega) (by omega)]
  have hcopy : copyLoop Data 0 (r1.drop TPM_NV_READ_REPLY.Data) D =
      copyLoop Data 0 (r2.drop TPM_NV_READ_REPLY.Data) D := by
    have e : TPM_NV_READ_REPLY.Data = 16 := rfl
    rw [copyLoop_eq, copyLoop_eq, e]
    congr 1
    simp only [readBytes]
    apply List.map_congr_left
    intro i hi
    rw [getD_drop, getD_drop]
    exact hdata (16 + i) (by omega) (by have := List.mem_range.mp hi; omega)
  refine ⟨by rw [hO]; omega, by omega, rfl, rfl, rfl, rfl, rfl, ?_, ?_, ?_⟩
  · simp only [TpmNvRead2, hos1, hos2, hrc, hcopy]
  · intro i _ h9
    rw [hO]
    omega
  · intro i _ h
    rw [hO]
    omega

theorem read_reply_block_witness :
    TpmNvRead2 (fun _ => some [0x80, 0x02, 0, 0, 0, 23, 0, 0, 0, 0, 0, 0, 0, 4, 0, 2,
        0xAA, 0xBB, 0, 0, 0x01, 0, 0]) 0x01000001 0 [] 0 2 [none, none] =
      TpmNvRead2 (fun _ => some [0x80, 0x02, 0, 0, 0, 23, 0, 0, 0, 0, 0, 0, 0, 4, 0, 2,
        0xAA, 0xBB, 0, 0, 0x01, 0, 0, 0xEE, 0xEE]) 0x01000001 0 [] 0 2 [none, none] :=
  (read_reply_block _ _ 0x01000001 0 0 2 [] [none, none]
    [0x80, 0x02, 0, 0, 0, 23, 0, 0, 0, 0, 0, 0, 0, 4, 0, 2, 0xAA, 0xBB, 0, 0, 0x01, 0, 0]
    [0x80, 0x02, 0, 0, 0, 23, 0, 0, 0, 0, 0, 0, 0, 4, 0, 2, 0xAA, 0xBB, 0, 0, 0x01, 0, 0,
      0xEE, 0xEE]
    (by decide) (by decide) rfl rfl (by decide) (by decide)).2.2.2.2.2.2.2.1

/-! ## Define and ReadPublic -/

theorem load8_window (reply w : List Nat) (off k : Nat)
    (h : (reply.drop off).take w.length = w) (hk : k < w.length) :
    load8 reply (off + k) = w.getD k 0 := by
  unfold load8
  rw [← getD_drop]
  conv_rhs => rw [← h]
  simp [List.getD_eq_getElem?_getD, List.getElem?_take, hk]

theorem TpmDefineSpace2_call_descriptor (HandleIndex SpaceSize Attributes OwnerRights
    AuthRights L : Nat) (p : List Nat) (hL : L ≤ 65535) :
    (TpmDefineSpace2_call HandleIndex SpaceSize Attributes OwnerRights AuthRights L
      p).Command.drop (29 + L) =
      (be16 14 ++ be32 HandleIndex ++ be16 0x000B ++
        be32 (TpmDefineSpace2_nvAttributes Attributes OwnerRights AuthRights) ++ be16 0 ++
        be16 SpaceSize).map some := by
  rw [TpmDefineSpace2_call_eq _ _ _ _ _ _ _ hL]
  dsimp only
  rw [List.map_append, List.drop_left' (by simp [headerBytes, sessionBytes]; omega)]

theorem TpmReadPublic2_code (os : Transport) (HandleIndex : Nat) (out : ReadPublicOut)
    (reply : List Nat) (hos : os (TpmReadPublic2_call HandleIndex) = some reply) :
    (TpmReadPublic2 os HandleIndex out).1 = TpmReadResponseCode reply := by
  simp only [TpmReadPublic2, hos]
  split <;> rfl

/-- The outputs of `TpmReadPublic2` for a successful reply whose public area (bytes 10..25)
is the descriptor `w`. -/
theorem TpmReadPublic2_descriptor (os : Transport) (HandleIndex : Nat) (out : ReadPublicOut)
    (reply : List Nat) (h S mask : Nat)
    (hos : os (TpmReadPublic2_call HandleIndex) = some reply)
    (hs : (TpmReadPublic2 os HandleIndex out).1 = TPM_RC_SUCCESS)
    (hw : (reply.drop 10).take 16 =
      be16 14 ++ be32 h ++ be16 0x000B ++ be32 mask ++ be16 0 ++ be16 S)
    (hS : S < 65536) (hmask : mask < 4294967296) :
    TpmReadPublic2 os HandleIndex out =
      (TPM_RC_SUCCESS,
        { Attributes := TpmReadPublic2_Attributes mask
          OwnerRights := TpmReadPublic2_OwnerRights mask
          AuthRights := TpmReadPublic2_AuthRights mask
          DataSize := S }) := by
  rw [TpmReadPublic2_code os HandleIndex out reply hos] at hs
  have hb : ∀ k, k < 16 → load8 reply (10 + k) =
      (be16 14 ++ be32 h ++ be16 0x000B ++ be32 mask ++ be16 0 ++ be16 S).getD k 0 :=
    fun k hk => load8_window reply _ 10 k hw hk
  have b18 := hb 8 (by omega)
  have b19 := hb 9 (by omega)
  have b20 := hb 10 (by omega)
  have b21 := hb 11 (by omega)
  have b24 := hb 14 (by omega)
  have b25 := hb 15 (by omega)
  simp only [be16, be32, List.cons_append, List.nil_append, List.getD_cons_succ,
    List.getD_cons_zero, Nat.reduceAdd] at b18 b19 b20 b21 b24 b25
  have e32 : load32 reply (TPM_NV_READ_PUBLIC_REPLY.NvPublic +
      TPM_NV_DEFINE_SPACE_CMD_FOOTER.Attributes) = OsSwap32 mask := by
    show load32 reply 18 = OsSwap32 mask
    simp only [load32, Nat.reduceAdd, b18, b19, b20, b21, OsSwap32]
    ring
  have e16 : load16 reply (TPM_NV_READ_PUBLIC_REPLY.NvPublic +
      TPM_NV_DEFINE_SPACE_CMD_FOOTER.DataSize) = OsSwap16 S := by
    show load16 reply 24 = OsSwap16 S
    simp only [load16, Nat.reduceAdd, b24, b25, OsSwap16]
    ring
  simp only [TpmReadPublic2, hos, hs, e32, e16, OsSwap32_OsSwap32 _ hmask,
    OsSwap16_OsSwap16 _ hS, ne_eq, not_true_eq_false, if_false]

/-- C26: if the 16-byte public descriptor that `TpmDefineSpace2` encodes for space size `S`,
8-bit attributes `a` and rights `o`, `u` in 0..3 comes back as bytes 10..25 of a successful
ReadPublic reply, then `TpmReadPublic2` outputs data size `S`, attributes `a` with no status
flag set, owner rights `o` and authorization rights `u`. -/
theorem define_readPublic_round_trip (os : Transport) (HandleIndex SpaceSize Attributes
    OwnerRights AuthRights L : Nat) (p reply : List Nat) (out : ReadPublicOut)
    (hS : SpaceSize ≤ 65535) (hA : Attributes < 256) (hO : OwnerRights < 4)
    (hU : AuthRights < 4) (hL : L ≤ 65535)
    (hos : os (TpmReadPublic2_call HandleIndex) = some reply)
    (hs : (TpmReadPublic2 os HandleIndex out).1 = TPM_RC_SUCCESS)
    (hd : ((reply.drop 10).take 16).map some =
      (TpmDefineSpace2_call HandleIndex SpaceSize Attributes OwnerRights AuthRights L
        p).Command.drop (29 + L)) :
    TpmReadPublic2 os HandleIndex out =
      (TPM_RC_SUCCESS,
        { Attributes := Attributes, OwnerRights := OwnerRights, AuthRights := AuthRights,
          DataSize := SpaceSize }) ∧
    (∀ status ∈ [TpmToolReadLocked, TpmToolWriteLocked, TpmToolWritten, TpmToolPlatformOwned],
      (TpmReadPublic2 os HandleIndex out).2.Attributes &&& status = 0) := by
  obtain ⟨r0, r1, t0, t1, t2, t3, t4, t5, t6, t7, t8, t9, t10, t11⟩ := TpmTool_pow
  rw [TpmDefineSpace2_call_descriptor _ _ _ _ _ _ _ hL] at hd
  have hw := List.map_injective_iff.mpr (Option.some_injective Nat) hd
  have h := TpmReadPublic2_descriptor os HandleIndex out reply HandleIndex SpaceSize
    (TpmDefineSpace2_nvAttributes Attributes OwnerRights AuthRights) hos hs hw (by omega)
    (nvAttributes_lt _ _ _)
  rw [roundTrip_Attributes _ _ _ hA, roundTrip_OwnerRights _ _ _ hO,
    roundTrip_AuthRights _ _ _ hU] at h
  refine ⟨h, ?_⟩
  rw [h]
  intro status hst
  simp only [List.mem_cons, List.mem_singleton, List.not_mem_nil, or_false] at hst
  rcases hst with rfl | rfl | rfl | rfl
  · rw [t8]; exact and_pow_eq_zero_of_lt _ 8 8 hA (by omega)
  · rw [t9]; exact and_pow_eq_zero_of_lt _ 8 9 hA (by omega)
  · rw [t10]; exact and_pow_eq_zero_of_lt _ 8 10 hA (by omega)
  · rw [t11]; exact and_pow_eq_zero_of_lt _ 8 11 hA (by omega)

theorem define_readPublic_round_trip_witness :
    (64 : Nat) ≤ 65535 ∧ (0x01 : Nat) < 256 ∧ (3 : Nat) < 4 ∧ (1 : Nat) < 4 ∧
    (([0x80, 0x01, 0, 0, 0, 26, 0, 0, 0, 0, 0, 14, 0x01, 0, 0, 0x01, 0, 0x0B,
        0x80, 0x06, 0x00, 0x02, 0, 0, 0, 64].drop 10).take 16).map some =
      (TpmDefineSpace2_call 0x01000001 64 0x01 3 1 0 []).Command.drop (29 + 0) ∧
    TpmReadPublic2 (fun _ => some [0x80, 0x01, 0, 0, 0, 26, 0, 0, 0, 0, 0, 14, 0x01, 0, 0,
        0x01, 0, 0x0B, 0x80, 0x06, 0x00, 0x02, 0, 0, 0, 64]) 0x01000001 ⟨0, 0, 0, 0⟩ =
      (TPM_RC_SUCCESS,
        { Attributes := 0x01, OwnerRights := 3, AuthRights := 1, DataSize := 64 }) :=
  ⟨by decide, by decide, by decide, by decide, by decide,
    (define_readPublic_round_trip (fun _ => some [0x80, 0x01, 0, 0, 0, 26, 0, 0, 0, 0, 0, 14,
        0x01, 0, 0, 0x01, 0, 0x0B, 0x80, 0x06, 0x00, 0x02, 0, 0, 0, 64]) 0x01000001 64 0x01 3
      1 0 [] [0x80, 0x01, 0, 0, 0, 26, 0, 0, 0, 0, 0, 14, 0x01, 0, 0, 0x01, 0, 0x0B,
        0x80, 0x06, 0x00, 0x02, 0, 0, 0, 64] ⟨0, 0, 0, 0⟩ (by decide) (by decide) (by decide)
      (by decide) (by decide) rfl (by decide) (by decide)).1⟩

/-! ## The type tag of the enumerated handles -/

theorem replyHandle_type (reply : List Nat) (i : Nat) (hb : ∀ b ∈ reply, b < 256) :
    replyHandle reply i / 16777216 % 256 = load8 reply (19 + 4 * i) := by
  have h0 := load8_lt reply (19 + 4 * i) hb
  have h1 := load8_lt reply (19 + 4 * i + 1) hb
  have h2 := load8_lt reply (19 + 4 * i + 2) hb
  have h3 := load8_lt reply (19 + 4 * i + 3) hb
  simp only [replyHandle, reply32, beValue, List.foldl]
  omega

theorem length_sampleForeignReply : sampleForeignReply.length = 1035 := by
  simp only [sampleForeignReply, List.length_append, length_be32, List.length_flatten,
    List.map_replicate, List.sum_replicate, List.length_cons, List.length_nil]
  rfl

theorem sampleForeignReply_bytes : ∀ b ∈ sampleForeignReply, b < 256 := by
  intro b hb
  simp only [sampleForeignReply, be32, List.mem_append, List.mem_cons, List.mem_flatten,
    List.mem_replicate, List.mem_singleton] at hb
  rcases hb with (h | h) | ⟨l, ⟨_, rfl⟩, h⟩
  · simp at h
    omega
  · simp at h
    omega
  · simp at h
    omega

/-- Counterexample to C21: a successful call against a reply block whose first handle slot
holds `0x02000007` writes that value into the caller's array; its most significant byte is
`0x02`, not `TPM_HT_NV_INDEX`. -/
theorem enumerate_handle_not_nv_index :
    sampleForeignReply.length = TpmNvEnumerate2_call.OutLength ∧
    (∀ b ∈ sampleForeignReply, b < 256) ∧
    TpmNvEnumerate2 (fun _ => some sampleForeignReply) 1 (alloca 4) =
      (TPM_RC_SUCCESS, 1, some [some 0x07, some 0, some 0, some 0x02]) ∧
    host32 [some 0x07, some 0, some 0, some 0x02] 0 = some 0x02000007 ∧
    0x02000007 / 16777216 % 256 ≠ TPM_HT_NV_INDEX := by
  have hs : (TpmNvEnumerate2 (fun _ => some sampleForeignReply) 1 (alloca 4)).1 =
      TPM_RC_SUCCESS := by decide
  have hn : replyCount sampleForeignReply = 1 := by decide
  have hc : storeBytes (alloca 4) 0 (handleCells sampleForeignReply 1) =
      [some 0x07, some 0, some 0, some 0x02] := by decide
  refine ⟨length_sampleForeignReply, sampleForeignReply_bytes, ?_, by decide, by decide⟩
  rw [TpmNvEnumerate2_success _ 1 (alloca 4) sampleForeignReply rfl sampleForeignReply_bytes
    hs, hn, Nat.min_self, Nat.max_self,
    TpmNvEnumerate2_copy_inside _ _ _ sampleForeignReply_bytes
      (by rw [length_sampleForeignReply]; decide), hc]

/-- C21, amended: every handle value that a successful `TpmNvEnumerate2` call writes into
the caller's array (for a reply within the 254 handle slots of the reply block) is the handle
in the same slot of the reply, unchanged: its most significant byte is the first byte of that
slot, so it carries the NV-index type tag `TPM_HT_NV_INDEX` (0x01) exactly when the handle of
the reply does; the function does not check the tag. -/
theorem enumerate_handle_type (os : Transport) (IndexCount : Nat) (IndexArray : Buffer)
    (reply : List Nat) (hos : os TpmNvEnumerate2_call = some reply)
    (hb : ∀ b ∈ reply, b < 256)
    (hs : (TpmNvEnumerate2 os IndexCount IndexArray).1 = TPM_RC_SUCCESS)
    (hlen : reply.length = TpmNvEnumerate2_call.OutLength)
    (harr : 4 * IndexCount ≤ IndexArray.length)
    (hcap : min IndexCount (replyCount reply) ≤ MAX_CAP_HANDLES) :
    ∃ arr, (TpmNvEnumerate2 os IndexCount IndexArray).2.2 = some arr ∧
      ∀ i, i < min IndexCount (replyCount reply) →
        host32 arr (4 * i) = some (replyHandle reply i) ∧
        replyHandle reply i / 16777216 % 256 = load8 reply (19 + 4 * i) ∧
        (replyHandle reply i / 16777216 % 256 = TPM_HT_NV_INDEX ↔
          load8 reply (19 + 4 * i) = 0x01) := by
  refine ⟨_, TpmNvEnumerate2_array os IndexCount IndexArray reply hos hb hs hlen harr hcap,
    fun i hi => ⟨host32_handleCells reply _ i _ hb hi, replyHandle_type reply i hb, ?_⟩⟩
  rw [replyHandle_type reply i hb]
  rfl

theorem enumerate_handle_type_witness :
    (TpmNvEnumerate2 (fun _ => some (sampleCapabilityReply 3)) 2 (alloca 8)).1 =
      TPM_RC_SUCCESS ∧
    (sampleCapabilityReply 3).length = TpmNvEnumerate2_call.OutLength ∧
    4 * 2 ≤ (alloca 8).length ∧
    min 2 (replyCount (sampleCapabilityReply 3)) ≤ MAX_CAP_HANDLES ∧
    ∃ arr, (TpmNvEnumerate2 (fun _ => some (sampleCapabilityReply 3)) 2 (alloca 8)).2.2 =
        some arr ∧
      ∀ i, i < min 2 (replyCount (sampleCapabilityReply 3)) →
        host32 arr (4 * i) = some (replyHandle (sampleCapabilityReply 3) i) ∧
        replyHandle (sampleCapabilityReply 3) i / 16777216 % 256 =
          load8 (sampleCapabilityReply 3) (19 + 4 * i) ∧
        (replyHandle (sampleCapabilityReply 3) i / 16777216 % 256 = TPM_HT_NV_INDEX ↔
          load8 (sampleCapabilityReply 3) (19 + 4 * i) = 0x01) :=
  ⟨by decide, length_sampleCapabilityReply 3, by decide, by decide,
    enumerate_handle_type (fun _ => some (sampleCapabilityReply 3)) 2 (alloca 8)
      (sampleCapabilityReply 3) rfl (sampleCapabilityReply_bytes 3) (by decide)
      (length_sampleCapabilityReply 3) (by decide) (by decide)⟩

/-! ## The command line -/

/-- C23: the size checks of `WriteSpace`, `ReadSpace` and `CreateSpace` on a size text whose
value exceeds 65535.  The value is converted to `uint16_t` before it is compared, so the size
text "65537" is taken as the size 1: none of the three functions returns -1 there, and each
hands a command for one byte to the transport. -/
theorem size_over_16_bits_not_rejected :
    sampleStrtoul "65537" 0 = 65537 ∧ USHRT_MAX < sampleStrtoul "65537" 0 ∧
    WriteSpace sampleStrtoul [0x41] (fun _ => some sampleSuccessReply) 5
        ["tpmtool", "01000001", "-w", "0", "65537"] 0x01000001 =
      (0, [TpmNvWrite2_call 0x01000001 0 [] 0 1 [0x41]]) ∧
    ReadSpace sampleStrtoul (fun _ => some sampleSuccessReply) 5
        ["tpmtool", "01000001", "-r", "0", "65537"] 0x01000001 =
      (0, [TpmNvRead2_call 0x01000001 0 [] 0 1]) ∧
    CreateSpace sampleStrtoul (fun _ => some sampleSuccessReply) 7
        ["tpmtool", "01000001", "-c", "RW", "NA", "RL", "65537"] 0x01000001 =
      (0, [TpmDefineSpace2_call 0x01000001 1 TpmToolReadLockable TpmToolReadWriteAccess
        TpmToolNoAccess 0 []]) := by
  refine ⟨by decide, by decide, ?_, ?_, ?_⟩
  · rfl
  · rfl
  · rfl

/-- C24: `main` passes an index to an NV operation (create, write, read, delete, lock, query)
only if the index carries the NV-index type tag: the index passed is the parsed 32-bit value
`v` and `v >> 24 = 0x01`; for every other parsed value `main` calls no operation and
returns -1. -/
theorem main_index_type (strtoul : String → Nat → Nat) (TpmOsOpen : Bool)
    (call : Operation → Int) (ArgumentCount : Nat) (Arguments : List String) :
    (∀ op v, (main strtoul TpmOsOpen call ArgumentCount Arguments).2 = some op →
      op.Index = some v →
        v = strtoul (Arguments.getD 1 "") 16 % 4294967296 ∧ v >>> 24 = 0x01 ∧
        v / 16777216 = TPM_HT_NV_INDEX) ∧
    (Arguments.getD 1 "" ∉ ["-e", "-qa", "-t", "-r", "-h"] →
      (strtoul (Arguments.getD 1 "") 16 % 4294967296) >>> 24 ≠ 0x01 →
        main strtoul TpmOsOpen call ArgumentCount Arguments = (-1, none)) := by
  have hT : TPM_HT_NV_INDEX = 1 := rfl
  have hlt : strtoul (Arguments.getD 1 "") 16 % 4294967296 < 4294967296 :=
    Nat.mod_lt _ (by decide)
  constructor
  · intro op v hop hidx
    have key : ∀ w, w = strtoul (Arguments.getD 1 "") 16 % 4294967296 →
        ¬ (w / 16777216 % 256 ≠ TPM_HT_NV_INDEX) →
        w = strtoul (Arguments.getD 1 "") 16 % 4294967296 ∧ w >>> 24 = 0x01 ∧
          w / 16777216 = TPM_HT_NV_INDEX := by
      intro w hw ht
      rw [hT] at ht ⊢
      refine ⟨hw, ?_, ?_⟩
      · rw [Nat.shiftRight_eq_div_pow]
        omega
      · omega
    unfold main at hop
    dsimp only at hop
    by_cases h1 : ArgumentCount < 2
    · rw [if_pos h1] at hop
      exact absurd hop (by simp)
    rw [if_neg h1] at hop
    by_cases h2 : TpmOsOpen = false
    · rw [if_pos h2] at hop
      exact absurd hop (by simp)
    rw [if_neg h2] at hop
    by_cases h3 : Arguments.getD 1 "" = "-e"
    · rw [if_pos h3] at hop
      obtain rfl := Option.some.inj hop
      exact absurd hidx (by simp [Operation.Index])
    rw [if_neg h3] at hop
    by_cases h4 : Arguments.getD 1 "" = "-qa"
    · rw [if_pos h4] at hop
      obtain rfl := Option.some.inj hop
      exact absurd hidx (by simp [Operation.Index])
    rw [if_neg h4] at hop
    by_cases h5 : Arguments.getD 1 "" = "-t"
    · rw [if_pos h5] at hop
      obtain rfl := Option.some.inj hop
      exact absurd hidx (by simp [Operation.Index])
    rw [if_neg h5] at hop
    by_cases h6 : Arguments.getD 1 "" = "-r"
    · rw [if_pos h6] at hop
      obtain rfl := Option.some.inj hop
      exact absurd hidx (by simp [Operation.Index])
    rw [if_neg h6] at hop
    by_cases h7 : Arguments.getD 1 "" = "-h"
    · rw [if_pos h7] at hop
      obtain rfl := Option.some.inj hop
      exact absurd hidx (by simp [Operation.Index])
    rw [if_neg h7] at hop
    by_cases h8 : ArgumentCount < 3
    · rw [if_pos h8] at hop
      exact absurd hop (by simp)
    rw [if_neg h8] at hop
    by_cases h9 : strtoul (Arguments.getD 1 "") 16 % 4294967296 / 16777216 % 256 ≠
        TPM_HT_NV_INDEX
    · rw [if_pos h9] at hop
      exact absurd hop (by simp)
    rw [if_neg h9] at hop
    by_cases c1 : Arguments.getD 2 "" = "-c"
    · rw [if_pos c1] at hop
      obtain rfl := Option.some.inj hop
      obtain rfl := Option.some.inj hidx
      exact key _ rfl h9
    rw [if_neg c1] at hop
    by_cases c2 : Arguments.getD 2 "" = "-w"
    · rw [if_pos c2] at hop
      obtain rfl := Option.some.inj hop
      obtain rfl := Option.some.inj hidx
      exact key _ rfl h9
    rw [if_neg c2] at hop
    by_cases c3 : Arguments.getD 2 "" = "-r"
    · rw [if_pos c3] at hop
      obtain rfl := Option.some.inj hop
      obtain rfl := Option.some.inj hidx
      exact key _ rfl h9
    rw [if_neg c3] at hop
    by_cases c4 : Arguments.getD 2 "" = "-d"
    · rw [if_pos c4] at hop
      obtain rfl := Option.some.inj hop
      obtain rfl := Option.some.inj hidx
      exact key _ rfl h9
    rw [if_neg c4] at hop
    by_cases c5 : Arguments.getD 2 "" = "-wl"
    · rw [if_pos c5] at hop
      obtain rfl := Option.some.inj hop
      obtain rfl := Option.some.inj hidx
      exact key _ rfl h9
    rw [if_neg c5] at hop
    by_cases c6 : Arguments.getD 2 "" = "-rl"
    · rw [if_pos c6] at hop
      obtain rfl := Option.some.inj hop
      obtain rfl := Option.some.inj hidx
      exact key _ rfl h9
    rw [if_neg c6] at hop
    by_cases c7 : Arguments.getD 2 "" = "-q"
    · rw [if_pos c7] at hop
      obtain rfl := Option.some.inj hop
      obtain rfl := Option.some.inj hidx
      exact key _ rfl h9
    rw [if_neg c7] at hop
    exact absurd hop (by simp)
  · intro hne hty
    simp only [List.mem_cons, List.mem_singleton, List.not_mem_nil, or_false, not_or] at hne
    obtain ⟨n1, n2, n3, n4, n5⟩ := hne
    have hty2 : strtoul (Arguments.getD 1 "") 16 % 4294967296 / 16777216 % 256 ≠
        TPM_HT_NV_INDEX := by
      rw [hT]
      rw [Nat.shiftRight_eq_div_pow] at hty
      omega
    unfold main
    dsimp only
    by_cases h1 : ArgumentCount < 2
    · rw [if_pos h1]
    rw [if_neg h1]
    by_cases h2 : TpmOsOpen = false
    · rw [if_pos h2]
    rw [if_neg h2, if_neg n1, if_neg n2, if_neg n3, if_neg n4, if_neg n5]
    by_cases h3 : ArgumentCount < 3
    · rw [if_pos h3]
    rw [if_neg h3, if_pos hty2]

theorem main_index_type_witness :
    (main sampleStrtoul true (fun _ => 0) 3 ["tpmtool", "01000001", "-d"]).2 =
      some (Operation.DeleteSpace 0x01000001) ∧
    (0x01000001 : Nat) >>> 24 = 0x01 ∧
    main sampleStrtoul true (fun _ => 0) 3 ["tpmtool", "02000001", "-d"] = (-1, none) :=
  ⟨by decide,
    ((main_index_type sampleStrtoul true (fun _ => 0) 3 ["tpmtool", "01000001", "-d"]).1
      (Operation.DeleteSpace 0x01000001) 0x01000001 (by decide) rfl).2.1,
    (main_index_type sampleStrtoul true (fun _ => 0) 3 ["tpmtool", "02000001", "-d"]).2
      (by decide) (by decide)⟩

set_option maxRecDepth 100000 in
theorem attributes_text_read_back :
    ∀ A, A < 256 →
      CreateSpace_attributes (QuerySpaceInternal_attributeBuffer A) = A &&& 0xBF := by
  decide

/-- C28: the attribute text of `QuerySpaceInternal` read back by the attribute block of
`CreateSpace`.  For the token "VL" that block sets `TpmToolWriteLocked`, a status flag that
does not fit the `uint8_t` it is stored in, so the flag `TpmToolVolatileDirtyFlag` written as
"VL" is lost: the text of every set `A` of the eight creation flags reads back as `A`
without `TpmToolVolatileDirtyFlag`. -/
theorem attribute_text_loses_VL :
    QuerySpaceInternal_attributeBuffer TpmToolVolatileDirtyFlag = " VL+" ∧
    CreateSpace_attributes (QuerySpaceInternal_attributeBuffer TpmToolVolatileDirtyFlag) = 0 ∧
    CreateSpace_attributes "VL" = 0 ∧
    CreateSpace_attributes "VL" ≠ TpmToolVolatileDirtyFlag ∧
    (0 ||| TpmToolWriteLocked) % 256 = 0 ∧
    (∀ A, A < 256 →
      CreateSpace_attributes (QuerySpaceInternal_attributeBuffer A) = A &&& 0xBF) := by
  exact ⟨by decide, by decide, by decide, by decide, by decide, attributes_text_read_back⟩

/-- Counterexample to C29: the rights value write (2) is rendered "NA", and that text is
read back as the rights value none (0). -/
theorem rights_text_write_only :
    QuerySpaceInternal_rights TpmToolWriteAccess = "NA" ∧
    CreateSpace_rights (QuerySpaceInternal_rights TpmToolWriteAccess) =
      some TpmToolNoAccess ∧
    CreateSpace_rights (QuerySpaceInternal_rights 2) ≠ some 2 := by
  decide

/-- C29, amended: for every rights value `r` among none (0), read (1) and read+write (3),
`QuerySpaceInternal` renders `r` as "NA", "R" and "RW" respectively, and the rights block
of `CreateSpace` ("R" is read, "RW" is read+write, "NA" is none, any other text is rejected)
reads that text back as `r`.  Every rights value is rendered as one of the three texts; the
value write (2) has no text of its own and is rendered "NA". -/
theorem rights_text_round_trip (r : Nat) (hr : r = 0 ∨ r = 1 ∨ r = 3) :
    CreateSpace_rights (QuerySpaceInternal_rights r) = some r ∧
    QuerySpaceInternal_rights 0 = "NA" ∧ QuerySpaceInternal_rights 1 = "R" ∧
    QuerySpaceInternal_rights 3 = "RW" ∧ QuerySpaceInternal_rights 2 = "NA" ∧
    (∀ x, QuerySpaceInternal_rights x ∈ ["NA", "R", "RW"]) ∧
    CreateSpace_rights "R" = some TpmToolReadAccess ∧
    CreateSpace_rights "RW" = some TpmToolReadWriteAccess ∧
    CreateSpace_rights "NA" = some TpmToolNoAccess ∧
    (∀ text, text ≠ "R" → text ≠ "RW" → text ≠ "NA" → CreateSpace_rights text = none) := by
  refine ⟨?_, by decide, by decide, by decide, by decide, ?_, by decide, by decide,
    by decide, ?_⟩
  · rcases hr with rfl | rfl | rfl <;> decide
  · intro x
    unfold QuerySpaceInternal_rights
    split_ifs <;> simp
  · intro text h1 h2 h3
    simp only [CreateSpace_rights, h1, h2, h3, if_false]

theorem rights_text_round_trip_witness :
    ((3 : Nat) = 0 ∨ (3 : Nat) = 1 ∨ (3 : Nat) = 3) ∧
    CreateSpace_rights (QuerySpaceInternal_rights 3) = some 3 :=
  ⟨by decide, (rights_text_round_trip 3 (by decide)).1⟩

/-! ## Decode then encode, and the layout of the remaining commands -/

/-- C34: for every protocol bitmask `m`, encoding with the conversion of `TpmDefineSpace2`
the low 8 bits of the attributes and the rights that the conversion of `TpmReadPublic2`
decodes from `m` gives `m AND 0x8E067406`: the twelve settable and rights bits of `m` are
kept, and the status, type, platform, policy and reserved bits are dropped. -/
theorem decode_encode_mask (m : Nat) :
    TpmDefineSpace2_nvAttributes (TpmReadPublic2_Attributes m % 256)
      (TpmReadPublic2_OwnerRights m) (TpmReadPublic2_AuthRights m) = m &&& 0x8E067406 ∧
    protocolBits.foldl (fun acc b => acc ||| b) 0 = 0x8E067406 ∧
    protocolBits.length = 12 ∧
    (∀ b ∈ unsettableBits, b &&& 0x8E067406 = 0) := by
  have hM : (0x8E067406 : Nat) = 2 ^ 17 ||| 2 ^ 1 ||| 2 ^ 18 ||| 2 ^ 2 ||| 2 ^ 31 ||| 2 ^ 14 |||
      2 ^ 13 ||| 2 ^ 12 ||| 2 ^ 25 ||| 2 ^ 26 ||| 2 ^ 27 ||| 2 ^ 10 := by decide
  have h256 : (256 : Nat) = 2 ^ 8 := by decide
  refine ⟨?_, by decide, by decide, by decide⟩
  apply Nat.eq_of_testBit_eq
  intro j
  rw [Nat.testBit_and, nvAttributes_testBit, hM, h256]
  simp only [Nat.testBit_or, Nat.testBit_two_pow, Nat.testBit_mod_two_pow, Attributes_testBit,
    OwnerRights_testBit, AuthRights_testBit]
  by_cases h17 : 17 = j
  · subst h17; simp
  by_cases h1 : 1 = j
  · subst h1; simp
  by_cases h18 : 18 = j
  · subst h18; simp
  by_cases h2 : 2 = j
  · subst h2; simp
  by_cases h31 : 31 = j
  · subst h31; simp
  by_cases h14 : 14 = j
  · subst h14; simp
  by_cases h13 : 13 = j
  · subst h13; simp
  by_cases h12 : 12 = j
  · subst h12; simp
  by_cases h25 : 25 = j
  · subst h25; simp
  by_cases h26 : 26 = j
  · subst h26; simp
  by_cases h27 : 27 = j
  · subst h27; simp
  by_cases h10 : 10 = j
  · subst h10; simp
  simp [h17, h1, h18, h2, h31, h14, h13, h12, h25, h26, h27, h10]

theorem window_eq (A B C : Buffer) (n k : Nat) (hA : A.length = n) (hB : B.length = k) :
    ((A ++ B ++ C).drop n).take k = B := by
  subst hA hB
  simp

/-- C35: for every password `p` of length `L` given to `TpmDefineSpace2`, the authorization
session of the command (bytes 14..26) is the empty-password block of 13 bytes, with session
size 9 and password size 0, whatever `p` is; `p` appears as the auth value of the new index,
`be16(L) ++ p` at offset 27, and the public descriptor follows it. -/
theorem define_password_placement (HandleIndex SpaceSize Attributes OwnerRights AuthRights
    L : Nat) (p : List Nat) (hL : L ≤ 65535) (hp : p.length = L) :
    (TpmDefineSpace2_call HandleIndex SpaceSize Attributes OwnerRights AuthRights L
      p).Command =
      (be16 0x8002 ++ be32 (45 + L) ++ be32 0x12A ++ be32 0x40000001 ++
        (be32 9 ++ be32 0x40000009 ++ be16 0 ++ [0x00] ++ be16 0) ++
        (be16 L ++ p) ++
        (be16 14 ++ be32 HandleIndex ++ be16 0x000B ++
          be32 (TpmDefineSpace2_nvAttributes Attributes OwnerRights AuthRights) ++
          be16 0 ++ be16 SpaceSize)).map some ∧
    ((TpmDefineSpace2_call HandleIndex SpaceSize Attributes OwnerRights AuthRights L
      p).Command.drop 14).take 13 =
      (be32 9 ++ be32 0x40000009 ++ be16 0 ++ [0x00] ++ be16 0).map some ∧
    ((TpmDefineSpace2_call HandleIndex SpaceSize Attributes OwnerRights AuthRights L
      p).Command.drop 27).take (2 + L) = (be16 L ++ p).map some ∧
    (TpmDefineSpace2_call HandleIndex SpaceSize Attributes OwnerRights AuthRights L
      p).Command.drop (27 + (2 + L)) =
      (be16 14 ++ be32 HandleIndex ++ be16 0x000B ++
        be32 (TpmDefineSpace2_nvAttributes Attributes OwnerRights AuthRights) ++
        be16 0 ++ be16 SpaceSize).map some ∧
    TPM_NV_DEFINE_SPACE_CMD_HEADER.AuthSession = 14 ∧
    TPM_NV_DEFINE_SPACE_CMD_HEADER.AuthSession + TPMS_AUTH_COMMAND_NO_NONCE.Password = 27 := by
  subst hp
  have hcmd : (TpmDefineSpace2_call HandleIndex SpaceSize Attributes OwnerRights AuthRights
      p.length p).Command =
      (be16 0x8002 ++ be32 (45 + p.length) ++ be32 0x12A ++ be32 0x40000001 ++
        (be32 9 ++ be32 0x40000009 ++ be16 0 ++ [0x00] ++ be16 0) ++
        (be16 p.length ++ p) ++
        (be16 14 ++ be32 HandleIndex ++ be16 0x000B ++
          be32 (TpmDefineSpace2_nvAttributes Attributes OwnerRights AuthRights) ++
          be16 0 ++ be16 SpaceSize)).map some := by
    rw [TpmDefineSpace2_call_eq _ _ _ _ _ _ _ hL, readBytes_length]
    simp [headerBytes, sessionBytes]
  refine ⟨hcmd, ?_, ?_, ?_, rfl, rfl⟩
  · rw [hcmd, List.map_append, List.map_append, List.map_append, List.append_assoc]
    exact window_eq _ _ _ 14 13 (by simp) (by simp)
  · rw [hcmd, List.map_append, List.map_append]
    exact window_eq _ _ _ 27 (2 + p.length) (by simp) (by simp)
  · rw [hcmd, List.map_append]
    exact List.drop_left' (by simp; omega)

theorem define_password_placement_witness :
    (6 : Nat) ≤ 65535 ∧ [115, 101, 99, 114, 101, 116].length = 6 ∧
    ((TpmDefineSpace2_call 0x01000001 64 0x01 3 1 6
      [115, 101, 99, 114, 101, 116]).Command.drop 14).take 13 =
      (be32 9 ++ be32 0x40000009 ++ be16 0 ++ [0x00] ++ be16 0).map some ∧
    ((TpmDefineSpace2_call 0x01000001 64 0x01 3 1 6
      [115, 101, 99, 114, 101, 116]).Command.drop 27).take (2 + 6) =
      (be16 6 ++ [115, 101, 99, 114, 101, 116]).map some :=
  ⟨by decide, by decide,
    (define_password_placement 0x01000001 64 0x01 3 1 6 [115, 101, 99, 114, 101, 116]
      (by decide) (by decide)).2.1,
    (define_password_placement 0x01000001 64 0x01 3 1 6 [115, 101, 99, 114, 101, 116]
      (by decide) (by decide)).2.2.1⟩

/-- C37: for every index `h`, password `p` of length `L`, offset `o` and size `D`, the
command of `TpmNvRead2` is exactly `be16(0x8002) ++ be32(35+L) ++ be32(0x14E) ++
be32(authHandle) ++ be32(h) ++ session(p) ++ be16(D) ++ be16(o)`: in the footer of 4 bytes
the requested size comes first and the offset second. -/
theorem read_command_bytes (HandleIndex L Offset D : Nat) (p : List Nat)
    (hL : L ≤ 65535) (hD : D ≤ 65535) (hp : p.length = L) :
    (TpmNvRead2_call HandleIndex L p Offset D).Command =
      (be16 0x8002 ++ be32 (35 + L) ++ be32 0x14E ++
        be32 (if L = 0 then 0x40000001 else HandleIndex) ++ be32 HandleIndex ++
        (be32 (9 + L) ++ be32 0x40000009 ++ be16 0 ++ [0x00] ++ be16 L ++ p) ++
        be16 D ++ be16 Offset).map some ∧
    (TpmNvRead2_call HandleIndex L p Offset D).Command.drop (31 + L) =
      (be16 D ++ be16 Offset).map some ∧
    TPM_NV_READ_CMD_FOOTER.Size = 0 ∧ TPM_NV_READ_CMD_FOOTER.Offset = 2 ∧
    TPM_NV_READ_CMD_FOOTER.sizeof = 4 ∧ TPM_CC_NV_Read = 0x14E := by
  subst hp
  have hcmd : (TpmNvRead2_call HandleIndex p.length p Offset D).Command =
      (be16 0x8002 ++ be32 (35 + p.length) ++ be32 0x14E ++
        be32 (if p.length = 0 then 0x40000001 else HandleIndex) ++ be32 HandleIndex ++
        (be32 (9 + p.length) ++ be32 0x40000009 ++ be16 0 ++ [0x00] ++ be16 p.length ++ p) ++
        be16 D ++ be16 Offset).map some := by
    rw [TpmNvRead2_call_eq _ _ _ _ _ hL hD, readBytes_length]
    simp [headerBytes, sessionBytes]
  refine ⟨hcmd, ?_, rfl, rfl, rfl, rfl⟩
  rw [hcmd, List.append_assoc _ (be16 D) (be16 Offset), List.map_append]
  exact List.drop_left' (by simp; omega)

theorem read_command_bytes_witness :
    (6 : Nat) ≤ 65535 ∧ (8 : Nat) ≤ 65535 ∧ [115, 101, 99, 114, 101, 116].length = 6 ∧
    (TpmNvRead2_call 0x01000001 6 [115, 101, 99, 114, 101, 116] 16 8).Command.drop (31 + 6) =
      (be16 8 ++ be16 16).map some :=
  ⟨by decide, by decide, by decide,
    (read_command_bytes 0x01000001 6 16 8 [115, 101, 99, 114, 101, 116] (by decide)
      (by decide) (by decide)).2.1⟩

/-- C38: for every index and password of length `L`, the commands of `TpmReadLock2` and
`TpmWriteLock2` have the same length `31 + L` and the same bytes except for the command code
at bytes 6..9, which is `0x0000014F` for ReadLock and `0x00000138` for WriteLock. -/
theorem lock_commands_differ_in_code (HandleIndex L : Nat) (p : List Nat) (hL : L ≤ 65535) :
    (TpmReadLock2_call HandleIndex L p).InLength = 31 + L ∧
    (TpmWriteLock2_call HandleIndex L p).InLength = 31 + L ∧
    (TpmReadLock2_call HandleIndex L p).Command.length = 31 + L ∧
    (TpmWriteLock2_call HandleIndex L p).Command.length = 31 + L ∧
    (TpmReadLock2_call HandleIndex L p).Command.take 6 =
      (TpmWriteLock2_call HandleIndex L p).Command.take 6 ∧
    (TpmReadLock2_call HandleIndex L p).Command.drop 10 =
      (TpmWriteLock2_call HandleIndex L p).Command.drop 10 ∧
    ((TpmReadLock2_call HandleIndex L p).Command.drop 6).take 4 =
      [some 0x00, some 0x00, some 0x01, some 0x4F] ∧
    ((TpmWriteLock2_call HandleIndex L p).Command.drop 6).take 4 =
      [some 0x00, some 0x00, some 0x01, some 0x38] ∧
    (TpmReadLock2_call HandleIndex L p).OutLength =
      (TpmWriteLock2_call HandleIndex L p).OutLength ∧
    TPM_CC_NV_ReadLock = 0x14F ∧ TPM_CC_NV_WriteLock = 0x138 := by
  have hR : (TpmReadLock2_call HandleIndex L p) =
      { Command := ((be16 0x8002 ++ be32 (31 + L)).map some ++ (be32 0x14F).map some ++
          (be32 (if L = 0 then 0x40000001 else HandleIndex) ++ be32 HandleIndex ++
            sessionBytes L (readBytes p L)).map some)
        InLength := 31 + L
        OutLength := 19 } := by
    rw [TpmReadLock2_call, TpmpLock2_call_eq _ _ _ _ hL]
    simp [headerBytes]
  have hW : (TpmWriteLock2_call HandleIndex L p) =
      { Command := ((be16 0x8002 ++ be32 (31 + L)).map some ++ (be32 0x138).map some ++
          (be32 (if L = 0 then 0x40000001 else HandleIndex) ++ be32 HandleIndex ++
            sessionBytes L (readBytes p L)).map some)
        InLength := 31 + L
        OutLength := 19 } := by
    rw [TpmWriteLock2_call, TpmpLock2_call_eq _ _ _ _ hL]
    simp [headerBytes]
  have key : ∀ (A B B2 C : Buffer), A.length = 6 → B.length = 4 → B2.length = 4 →
      (A ++ B ++ C).take 6 = (A ++ B2 ++ C).take 6 ∧
      (A ++ B ++ C).drop 10 = (A ++ B2 ++ C).drop 10 := by
    intro A B B2 C hA hB hB2
    constructor
    · rw [List.append_assoc, List.append_assoc, List.take_left' hA, List.take_left' hA]
    · rw [List.drop_left' (by simp [hA, hB]), List.drop_left' (by simp [hA, hB2])]
  rw [hR, hW]
  dsimp only
  refine ⟨rfl, rfl, ?_, ?_, ?_, ?_, ?_, ?_, rfl, rfl, rfl⟩
  · simp [sessionBytes]
    omega
  · simp [sessionBytes]
    omega
  · exact (key _ _ _ _ (by simp) (by simp) (by simp)).1
  · exact (key _ _ _ _ (by simp) (by simp) (by simp)).2
  · exact window_eq _ _ _ 6 4 (by simp) (by simp)
  · exact window_eq _ _ _ 6 4 (by simp) (by simp)

theorem lock_commands_differ_in_code_witness :
    (6 : Nat) ≤ 65535 ∧
    (TpmReadLock2_call 0x01000001 6 [115, 101, 99, 114, 101, 116]).Command.drop 10 =
      (TpmWriteLock2_call 0x01000001 6 [115, 101, 99, 114, 101, 116]).Command.drop 10 :=
  ⟨by decide,
    (lock_commands_differ_in_code 0x01000001 6 [115, 101, 99, 114, 101, 116]
      (by decide)).2.2.2.2.2.1⟩

/-! ## The output of a read and the attribute text -/

theorem readBytes_take (src : List Nat) (n : Nat) (h : n ≤ src.length) :
    readBytes src n = src.take n := by
  apply List.ext_getElem
  · simp [readBytes, h]
  · intro i h1 h2
    have hi : i < n := by simpa [readBytes] using h1
    have hs : i < src.length := by omega
    simp [readBytes, List.getD_eq_getElem?_getD, List.getElem?_eq_getElem hs]

theorem TpmNvRead2_code (os : Transport) (HandleIndex L Offset D : Nat) (p : List Nat)
    (Data : Buffer) (reply : List Nat)
    (hos : os (TpmNvRead2_call HandleIndex L p Offset D) = some reply) :
    (TpmNvRead2 os HandleIndex L p Offset D Data).1 = TpmReadResponseCode reply := by
  simp only [TpmNvRead2, hos]
  split <;> rfl

/-- The result of a successful `TpmNvRead2` call: the `DataSize` bytes at offset 16 of the
reply are stored at the start of the caller's block. -/
theorem TpmNvRead2_success (os : Transport) (HandleIndex L Offset D : Nat) (p : List Nat)
    (Data : Buffer) (reply : List Nat)
    (hos : os (TpmNvRead2_call HandleIndex L p Offset D) = some reply)
    (hs : (TpmNvRead2 os HandleIndex L p Offset D Data).1 = TPM_RC_SUCCESS) :
    TpmNvRead2 os HandleIndex L p Offset D Data =
      (TPM_RC_SUCCESS, storeBytes Data 0 (readBytes (reply.drop 16) D)) := by
  rw [TpmNvRead2_code os HandleIndex L Offset D p Data reply hos] at hs
  have e : TPM_NV_READ_REPLY.Data = 16 := rfl
  simp only [TpmNvRead2, hos, hs, if_true, copyLoop_eq, e]

/-- C36: on success `TpmNvRead2` writes exactly the requested `DataSize` bytes to the
caller's block, namely reply bytes 16..16+DataSize-1, and leaves the rest of the block as it
was; the output does not depend on the data size field of the reply (bytes 14..15): two
successful replies with the same bytes from offset 16 on give the same output. -/
theorem read_output_bytes (os1 os2 : Transport) (HandleIndex L Offset D : Nat) (p : List Nat)
    (Data : Buffer) (r1 r2 : List Nat)
    (hos1 : os1 (TpmNvRead2_call HandleIndex L p Offset D) = some r1)
    (hos2 : os2 (TpmNvRead2_call HandleIndex L p Offset D) = some r2)
    (hs1 : (TpmNvRead2 os1 HandleIndex L p Offset D Data).1 = TPM_RC_SUCCESS)
    (hs2 : (TpmNvRead2 os2 HandleIndex L p Offset D Data).1 = TPM_RC_SUCCESS)
    (hData : D ≤ Data.length) (hr : 16 + D ≤ r1.length)
    (hpost : r1.drop 16 = r2.drop 16) :
    (TpmNvRead2 os1 HandleIndex L p Offset D Data).2 =
      ((r1.drop 16).take D).map some ++ Data.drop D ∧
    ((r1.drop 16).take D).length = D ∧
    (TpmNvRead2 os1 HandleIndex L p Offset D Data).2.length = Data.length ∧
    TpmNvRead2 os1 HandleIndex L p Offset D Data =
      TpmNvRead2 os2 HandleIndex L p Offset D Data ∧
    TPM_NV_READ_REPLY.DataSize = 14 ∧ TPM_NV_READ_REPLY.Data = 16 := by
  have h1 := TpmNvRead2_success os1 HandleIndex L Offset D p Data r1 hos1 hs1
  have h2 := TpmNvRead2_success os2 HandleIndex L Offset D p Data r2 hos2 hs2
  have hlen : ((r1.drop 16).take D).length = D := by simp; omega
  have hout : storeBytes Data 0 (readBytes (r1.drop 16) D) =
      ((r1.drop 16).take D).map some ++ Data.drop D := by
    rw [readBytes_take _ _ (by simp; omega),
      storeBytes_splice _ _ _ (by rw [hlen]; omega), hlen]
    simp
  refine ⟨by rw [h1, hout], hlen, ?_, by rw [h1, h2, hpost], rfl, rfl⟩
  rw [h1, hout]
  simp
  omega

theorem read_output_bytes_witness :
    (TpmNvRead2 (fun _ => some [0x80, 0x02, 0, 0, 0, 23, 0, 0, 0, 0, 0, 0, 0, 4, 0, 2,
        0xAA, 0xBB, 0, 0, 0x01, 0, 0]) 0x01000001 0 [] 0 2 [none, none, none]).2 =
      (([0x80, 0x02, 0, 0, 0, 23, 0, 0, 0, 0, 0, 0, 0, 4, 0, 2,
        0xAA, 0xBB, 0, 0, 0x01, 0, 0].drop 16).take 2).map some ++ [none, none, none].drop 2 ∧
    TpmNvRead2 (fun _ => some [0x80, 0x02, 0, 0, 0, 23, 0, 0, 0, 0, 0, 0, 0, 4, 0, 2,
        0xAA, 0xBB, 0, 0, 0x01, 0, 0]) 0x01000001 0 [] 0 2 [none, none, none] =
      TpmNvRead2 (fun _ => some [0x80, 0x02, 0, 0, 0, 23, 0, 0, 0, 0, 0, 0, 0, 4, 0xFF, 0xFF,
        0xAA, 0xBB, 0, 0, 0x01, 0, 0]) 0x01000001 0 [] 0 2 [none, none, none] :=
  ⟨(read_output_bytes
      (fun _ => some [0x80, 0x02, 0, 0, 0, 23, 0, 0, 0, 0, 0, 0, 0, 4, 0, 2,
        0xAA, 0xBB, 0, 0, 0x01, 0, 0])
      (fun _ => some [0x80, 0x02, 0, 0, 0, 23, 0, 0, 0, 0, 0, 0, 0, 4, 0xFF, 0xFF,
        0xAA, 0xBB, 0, 0, 0x01, 0, 0]) 0x01000001 0 0 2 [] [none, none, none]
      [0x80, 0x02, 0, 0, 0, 23, 0, 0, 0, 0, 0, 0, 0, 4, 0, 2, 0xAA, 0xBB, 0, 0, 0x01, 0, 0]
      [0x80, 0x02, 0, 0, 0, 23, 0, 0, 0, 0, 0, 0, 0, 4, 0xFF, 0xFF, 0xAA, 0xBB, 0, 0, 0x01,
        0, 0]
      rfl rfl (by decide) (by decide) (by decide) (by decide) (by decide)).1,
    (read_output_bytes
      (fun _ => some [0x80, 0x02, 0, 0, 0, 23, 0, 0, 0, 0, 0, 0, 0, 4, 0, 2,
        0xAA, 0xBB, 0, 0, 0x01, 0, 0])
      (fun _ => some [0x80, 0x02, 0, 0, 0, 23, 0, 0, 0, 0, 0, 0, 0, 4, 0xFF, 0xFF,
        0xAA, 0xBB, 0, 0, 0x01, 0, 0]) 0x01000001 0 0 2 [] [none, none, none]
      [0x80, 0x02, 0, 0, 0, 23, 0, 0, 0, 0, 0, 0, 0, 4, 0, 2, 0xAA, 0xBB, 0, 0, 0x01, 0, 0]
      [0x80, 0x02, 0, 0, 0, 23, 0, 0, 0, 0, 0, 0, 0, 4, 0xFF, 0xFF, 0xAA, 0xBB, 0, 0, 0x01,
        0, 0]
      rfl rfl (by decide) (by decide) (by decide) (by decide) (by decide)).2.2.2.1⟩

theorem attributeBuffer_step (c : Prop) [Decidable c] (s tok : String) (n : Nat)
    (hs : s.data.head? = some ' ' ∧ 1 ≤ s.length ∧ s.length ≤ n) (ht : tok.length = 3) :
    (if c then s ++ tok else s).data.head? = some ' ' ∧
      1 ≤ (if c then s ++ tok else s).length ∧ (if c then s ++ tok else s).length ≤ n + 3 := by
  obtain ⟨h1, h2, h3⟩ := hs
  split
  · refine ⟨?_, ?_, ?_⟩
    · rw [String.data_append]
      cases hd : s.data with
      | nil => rw [hd] at h1; simp at h1
      | cons a l => rw [hd] at h1; simpa using h1
    · rw [String.length_append]; omega
    · rw [String.length_append]; omega
  · exact ⟨h1, h2, by omega⟩

theorem attributeBuffer_bounds (attributes : Nat) :
    (QuerySpaceInternal_attributeBuffer attributes).data.head? = some ' ' ∧
    1 ≤ (QuerySpaceInternal_attributeBuffer attributes).length ∧
    (QuerySpaceInternal_attributeBuffer attributes).length ≤ 34 := by
  unfold QuerySpaceInternal_attributeBuffer
  dsimp only
  refine attributeBuffer_step _ _ _ 31 ?_ rfl
  refine attributeBuffer_step _ _ _ 28 ?_ rfl
  refine attributeBuffer_step _ _ _ 25 ?_ rfl
  refine attributeBuffer_step _ _ _ 22 ?_ rfl
  refine attributeBuffer_step _ _ _ 19 ?_ rfl
  refine attributeBuffer_step _ _ _ 16 ?_ rfl
  refine attributeBuffer_step _ _ _ 13 ?_ rfl
  refine attributeBuffer_step _ _ _ 10 ?_ rfl
  refine attributeBuffer_step _ _ _ 7 ?_ rfl
  refine attributeBuffer_step _ _ _ 4 ?_ rfl
  refine attributeBuffer_step _ _ _ 1 ?_ rfl
  exact ⟨rfl, by decide, by decide⟩

theorem QuerySpaceInternal_attributeBuffer_of_success (os : Transport)
    (Index attributes ownerRights authRights : Nat) (out : QuerySpaceOut)
    (h : (QuerySpaceInternal os Index attributes ownerRights authRights out).1 =
      TPM_RC_SUCCESS) :
    ∃ a, (QuerySpaceInternal os Index attributes ownerRights authRights out).2.AttributeBuffer =
      QuerySpaceInternal_attributeBuffer a := by
  unfold QuerySpaceInternal at h ⊢
  dsimp only at h ⊢
  split
  · rename_i hne
    rw [if_pos hne] at h
    exact absurd h hne
  · exact ⟨_, rfl⟩

theorem lastCharIndex_attributeBuffer (a : Nat) :
    lastCharIndex (QuerySpaceInternal_attributeBuffer a) =
      some ((QuerySpaceInternal_attributeBuffer a).length - 1) := by
  obtain ⟨_, h2, h3⟩ := attributeBuffer_bounds a
  have hS : sizeof_attributeBuffer = 37 := rfl
  unfold lastCharIndex
  rw [if_neg (by omega), if_pos (by rw [hS]; omega)]

/-- C39: for every attribute value, the attribute text built by `QuerySpaceInternal` starts
with a space, is not empty and has at most 34 characters (one space and at most eleven
tokens of 3 characters); with its terminator it fits the buffer of 37 characters of its
callers, and the index `strlen - 1` at which the callers overwrite a character lies in that
buffer. -/
theorem attribute_buffer_fits (attributes : Nat) :
    (QuerySpaceInternal_attributeBuffer attributes).data.head? = some ' ' ∧
    (QuerySpaceInternal_attributeBuffer attributes) ≠ "" ∧
    1 ≤ (QuerySpaceInternal_attributeBuffer attributes).length ∧
    (QuerySpaceInternal_attributeBuffer attributes).length ≤ 34 ∧
    (QuerySpaceInternal_attributeBuffer attributes).length ≤ 1 + 11 * 3 ∧
    (QuerySpaceInternal_attributeBuffer attributes).length + 1 ≤ sizeof_attributeBuffer ∧
    sizeof_attributeBuffer = 37 ∧
    lastCharIndex (QuerySpaceInternal_attributeBuffer attributes) =
      some ((QuerySpaceInternal_attributeBuffer attributes).length - 1) ∧
    (QuerySpaceInternal_attributeBuffer attributes).length - 1 < sizeof_attributeBuffer ∧
    (QuerySpaceInternal_attributeBuffer 0xFFFF).length = 34 ∧
    (∀ (os : Transport) (Index a o u : Nat) (locals : QuerySpaceOut),
      (QuerySpaceMinimalOutput os Index a o u locals).1 = 0 →
        (QuerySpaceMinimalOutput os Index a o u locals).2.1 ≠ none) ∧
    (∀ (os : Transport) (ArgumentCount Index a o u : Nat) (locals : QuerySpaceOut),
      (QuerySpace os ArgumentCount Index a o u locals).1 = 0 →
        (QuerySpace os ArgumentCount Index a o u locals).2.1 ≠ none) := by
  obtain ⟨h1, h2, h3⟩ := attributeBuffer_bounds attributes
  have hS : sizeof_attributeBuffer = 37 := rfl
  refine ⟨h1, ?_, h2, h3, by omega, by rw [hS]; omega, hS,
    lastCharIndex_attributeBuffer attributes, by rw [hS]; omega, by decide, ?_, ?_⟩
  · intro h
    rw [h] at h2
    exact absurd h2 (by decide)
  · intro os Index a o u locals
    unfold QuerySpaceMinimalOutput
    dsimp only
    split
    · intro h
      exact absurd h (by simp)
    · rename_i hs
      intro _
      obtain ⟨x, hx⟩ := QuerySpaceInternal_attributeBuffer_of_success os Index a o u locals
        (not_not.mp hs)
      rw [hx, lastCharIndex_attributeBuffer]
      simp
  · intro os ArgumentCount Index a o u locals
    unfold QuerySpace
    dsimp only
    split
    · intro h
      exact absurd h (by simp)
    · split
      · intro h
        exact absurd h (by simp)
      · rename_i hs
        intro _
        obtain ⟨x, hx⟩ := QuerySpaceInternal_attributeBuffer_of_success os Index a o u locals
          (not_not.mp hs)
        rw [hx, lastCharIndex_attributeBuffer]
        simp

/-! ## Enumeration from the command line -/

theorem EnumerateSpaces_result (first second : Transport) (QuerySpaces : Bool)
    (r1 r2 : List Nat) (hos1 : first TpmNvEnumerate2_call = some r1)
    (hos2 : second TpmNvEnumerate2_call = some r2)
    (hs1 : TpmReadResponseCode r1 = TPM_RC_SUCCESS)
    (hs2 : TpmReadResponseCode r2 = TPM_RC_SUCCESS) :
    (EnumerateSpaces first second 2 QuerySpaces).1 = 0 := by
  have c1 : ∀ c arr, (TpmNvEnumerate2 first c arr).1 = TPM_RC_SUCCESS := by
    intro c arr
    rw [TpmNvEnumerate2_code first c arr r1 hos1, hs1]
  have c2 : ∀ c arr, (TpmNvEnumerate2 second c arr).1 = TPM_RC_SUCCESS := by
    intro c arr
    rw [TpmNvEnumerate2_code second c arr r2 hos2, hs2]
  unfold EnumerateSpaces
  dsimp only
  rw [if_neg (by decide), if_neg (by rw [c1]; decide), if_neg (by rw [c2]; decide)]

set_option maxRecDepth 100000 in
theorem EnumerateSpaces_sample_1_1 (QuerySpaces : Bool) :
    EnumerateSpaces (fun _ => some (sampleCapabilityReply 1))
        (fun _ => some (sampleCapabilityReply 1)) 2 QuerySpaces =
      (0, some [some 0x01000007], [TpmNvEnumerate2_call, TpmNvEnumerate2_call]) := by
  rfl

set_option maxRecDepth 100000 in
theorem EnumerateSpaces_sample_2_3 :
    EnumerateSpaces (fun _ => some (sampleCapabilityReply 2))
        (fun _ => some (sampleCapabilityReply 3)) 2 false =
      (0, some [some 0x01000007, some 0x01000007, none],
        [TpmNvEnumerate2_call, TpmNvEnumerate2_call]) := by
  rfl

set_option maxRecDepth 100000 in
theorem EnumerateSpaces_sample_2_1 :
    EnumerateSpaces (fun _ => some (sampleCapabilityReply 2))
        (fun _ => some (sampleCapabilityReply 1)) 2 false =
      (0, some [some 0x01000007, none], [TpmNvEnumerate2_call, TpmNvEnumerate2_call]) := by
  rfl

/-- C31: `EnumerateSpaces` with the query-all option.  The function never reads
`QuerySpaces`: its result, its output and the commands it issues are the same for `true` and
for `false`.  For a TPM with one index, `-qa` prints the handle value only and issues the two
capability queries and no ReadPublic command, the command a query of the index needs. -/
theorem query_all_prints_handles_only :
    (∀ (first second : Transport) (ArgumentCount : Nat),
      EnumerateSpaces first second ArgumentCount true =
        EnumerateSpaces first second ArgumentCount false) ∧
    (main sampleStrtoul true (fun _ => 0) 2 ["tpmtool", "-qa"]).2 =
      some (Operation.EnumerateSpaces true) ∧
    (main sampleStrtoul true (fun _ => 0) 2 ["tpmtool", "-e"]).2 =
      some (Operation.EnumerateSpaces false) ∧
    EnumerateSpaces (fun _ => some (sampleCapabilityReply 1))
        (fun _ => some (sampleCapabilityReply 1)) 2 true =
      (0, some [some 0x01000007], [TpmNvEnumerate2_call, TpmNvEnumerate2_call]) ∧
    (QuerySpaceMinimalOutput (fun _ => some sampleReadPublicReply) 0x01000007 0 0 0
        ⟨0, "", "", "", ""⟩).2.2 = [TpmReadPublic2_call 0x01000007] ∧
    (TpmReadPublic2_call 0x01000007).InLength ≠ TpmNvEnumerate2_call.InLength := by
  exact ⟨fun _ _ _ => rfl, by decide, by decide, EnumerateSpaces_sample_1_1 true, rfl,
    by decide⟩

/-- C32: `EnumerateSpaces` when the handle count changes between its two queries.  With a
first reply that reports 2 handles and a second that reports 3, the function returns 0 and
prints three values, the third read from outside the array of two entries; with a second
reply that reports 1 handle it returns 0 and prints two values, the second an entry the
second query did not write.  Whenever both replies report success the function returns 0. -/
theorem enumerate_count_change_not_detected :
    replyCount (sampleCapabilityReply 2) = 2 ∧ replyCount (sampleCapabilityReply 3) = 3 ∧
    replyCount (sampleCapabilityReply 1) = 1 ∧
    EnumerateSpaces (fun _ => some (sampleCapabilityReply 2))
        (fun _ => some (sampleCapabilityReply 3)) 2 false =
      (0, some [some 0x01000007, some 0x01000007, none],
        [TpmNvEnumerate2_call, TpmNvEnumerate2_call]) ∧
    EnumerateSpaces (fun _ => some (sampleCapabilityReply 2))
        (fun _ => some (sampleCapabilityReply 1)) 2 false =
      (0, some [some 0x01000007, none], [TpmNvEnumerate2_call, TpmNvEnumerate2_call]) ∧
    (∀ (first second : Transport) (QuerySpaces : Bool) (r1 r2 : List Nat),
      first TpmNvEnumerate2_call = some r1 → second TpmNvEnumerate2_call = some r2 →
      TpmReadResponseCode r1 = TPM_RC_SUCCESS → TpmReadResponseCode r2 = TPM_RC_SUCCESS →
        (EnumerateSpaces first second 2 QuerySpaces).1 = 0) := by
  exact ⟨by decide, by decide, by decide, EnumerateSpaces_sample_2_3,
    EnumerateSpaces_sample_2_1,
    fun first second q r1 r2 h1 h2 s1 s2 => EnumerateSpaces_result first second q r1 r2 h1 h2
      s1 s2⟩

/-- C33: the handle slots `TpmNvEnumerate2` reads.  The copy loop runs over the smaller of
the caller's count and the count of the reply and is not bounded by `MAX_CAP_HANDLES`: with
both counts 255 it loads slot 254 at bytes 1035..1038, past the end of the reply block of
1035 bytes.  For a successful reply the loop loads from outside the reply block exactly when
the smaller count exceeds 254. -/
theorem enumerate_reads_past_capacity :
    (sampleCapabilityReply 255).length = TpmNvEnumerate2_call.OutLength ∧
    TpmNvEnumerate2_call.OutLength = 1035 ∧ MAX_CAP_HANDLES = 254 ∧
    TPM_GET_CAPABILITY_REPLY.Data + TPMS_CAPABILITY_DATA.Data + TPML_HANDLE.Handle +
      254 * sizeof_TPM_HANDLE = 1035 ∧
    load32Inside (sampleCapabilityReply 255) 1035 = none ∧
    TpmNvEnumerate2_copy (sampleCapabilityReply 255) 255 (alloca 1020) = none ∧
    (∀ (os : Transport) (IndexCount : Nat) (IndexArray : Buffer) (reply : List Nat),
      os TpmNvEnumerate2_call = some reply → (∀ b ∈ reply, b < 256) →
      reply.length = TpmNvEnumerate2_call.OutLength →
      (TpmNvEnumerate2 os IndexCount IndexArray).1 = TPM_RC_SUCCESS →
        ((TpmNvEnumerate2 os IndexCount IndexArray).2.2 = none ↔
          MAX_CAP_HANDLES < min IndexCount (replyCount reply))) := by
  have hO : TpmNvEnumerate2_call.OutLength = 1035 := rfl
  have hM : MAX_CAP_HANDLES = 254 := rfl
  refine ⟨length_sampleCapabilityReply 255, hO, hM, rfl, ?_, ?_, ?_⟩
  · simp only [load32Inside]
    rw [if_neg (by rw [length_sampleCapabilityReply]; decide)]
  · exact TpmNvEnumerate2_copy_outside _ _ _ (by decide)
      (by rw [length_sampleCapabilityReply]; decide)
  · intro os c arr reply hos hb hlen hs
    rw [hO] at hlen
    rw [hM, TpmNvEnumerate2_success os c arr reply hos hb hs]
    dsimp only
    by_cases h : 254 < min c (replyCount reply)
    · rw [TpmNvEnumerate2_copy_outside reply _ arr (by omega) (by omega)]
      simp [h]
    · rw [TpmNvEnumerate2_copy_inside reply _ arr hb (by omega)]
      simp [h]

end TpmTool
